import Mathlib

/-!
Tank arena game: shallow embedding of `src/main.cpp`.

The simulation core of the game (everything in `main.cpp` that mutates game
state) is embedded as pure Lean functions over explicit state.

Conventions of the embedding

* C `int` is `Int` (no wrap-around is modelled: scores, counters and
  coordinates stay far below `2^31` in every run considered here).
* A C `float` is the rational number it stands for (`ℚ`).  The `float`
  additions, subtractions and multiplications of the timers and angles in
  `updateGunRotation`, `updateTankAmmo`, `updateExplosion`, `updateShield`,
  `updatePowerUp`, `updatePowerBoxSpawning` and `reflectBullet` round their exact
  result to the nearest `float` with `f32` (IEEE 754 binary32, ties to even), as
  the compiled code does; `deltaTime` is a `float` in the program and any
  rational here.  Kept exact are the angle sum of `fireBullet`, `speed * 2` of
  `activatePowerUp`, the candidate coordinate `y - speed` of a move and the
  double-precision advance of `updateBullet`.  Converting a `float` to `int`
  truncates toward zero (`truncToInt`); integer `/` is C division (`Int.tdiv`).
* `sin` and `cos` of the C library are not part of the repository; the two
  functions `sinDeg`, `cosDeg` of `Config` stand for
  `sin (deg * M_PI / 180)` and `cos (deg * M_PI / 180)`.
* `rand ()` is an input: every place that draws random numbers receives a
  stream `rnd : Nat → Nat` of the (non-negative) values returned by `rand`.
* Texture sizes (tank body, buttons) come from image files; they are fields of
  `Config`.
* Rendering, logging, the gun rectangle (`updateGunRect`) and the cosmetic bomb
  markers (`updateBombItems`) never feed back into the simulated state and are
  left out.
* `main` contains every tank-related block twice (blue / red); the mirrored
  copies are embedded by one function taking the roles as arguments.
-/

namespace TankGame

/-! ## Data model -/

/-- Game states (`enum GameState`). -/
inductive GameState where
  | WELCOME_SCREEN
  | GAME_MODE_SELECTION
  | GAME_PLAYING
  | WINNER_SCREEN
  deriving DecidableEq, Repr

/-- The `SDL_Rect` record. -/
structure Rect where
  x : Int
  y : Int
  w : Int
  h : Int
  deriving DecidableEq, Repr

/-- Grass and rock obstacles (`struct GameObject`; `rotationSpeed` is never
written or read and is left out). -/
structure GameObject where
  rect : Rect
  rotation : ℚ
  size : Int
  isDestroyed : Bool
  hasShadow : Bool
  deriving DecidableEq, Repr

/-- The `struct Tank` record without the render-only `gunRect` and `gunScale`. -/
structure Tank where
  rect : Rect
  isMoving : Bool
  speed : ℚ
  rotation : ℚ
  gunRotation : ℚ
  gunRotationSpeed : ℚ
  gunRotatingRight : Bool
  currentAmmo : Int
  reloadTimer : ℚ
  canShoot : Bool
  hp : Int
  isDestroyed : Bool
  hasShadow : Bool
  score : Int
  hasPower : Bool
  powerTimer : ℚ
  originalSpeed : ℚ
  originalWidth : Int
  originalHeight : Int
  explosionItemCount : Int
  deriving DecidableEq, Repr

/-- The `struct Bullet` record. -/
structure Bullet where
  rect : Rect
  speed : ℚ
  rotation : ℚ
  active : Bool
  owner : Int
  isExplosionBullet : Bool
  deriving DecidableEq, Repr

/-- The `struct Explosion` record. -/
structure Explosion where
  rect : Rect
  timer : ℚ
  duration : ℚ
  active : Bool
  deriving DecidableEq, Repr

/-- The `struct PowerBox` record. -/
structure PowerBox where
  rect : Rect
  active : Bool
  spawnTimer : ℚ
  disappearTimer : ℚ
  spawnCount : Int
  boxType : Int
  deriving DecidableEq, Repr

/-- The `struct Shield` record. -/
structure Shield where
  active : Bool
  timer : ℚ
  duration : ℚ
  owner : Int
  deriving DecidableEq, Repr

/-- Values that `main` obtains from outside the repository: texture sizes, the
button rectangles computed from them, and the C library's trigonometry. -/
structure Config where
  tankWidth : Int
  tankHeight : Int
  startButtonRect : Rect
  multiplayerButtonRect : Rect
  playAgainButtonRect : Rect
  homeButtonRect : Rect
  sinDeg : ℚ → ℚ
  cosDeg : ℚ → ℚ

/-- All mutable locals of `main` that belong to the simulation. -/
structure State where
  currentState : GameState
  blueTankObj : Tank
  redTankObj : Tank
  grassObjects : List GameObject
  rockObjects : List GameObject
  bullets : List Bullet
  explosions : List Explosion
  winner : Int
  powerBox : PowerBox
  shield : Shield
  deriving DecidableEq, Repr

/-- Pressed state of the eight movement keys read from `keystate`. -/
structure Keys where
  w : Bool
  s : Bool
  a : Bool
  d : Bool
  up : Bool
  down : Bool
  left : Bool
  right : Bool
  deriving DecidableEq, Repr

/-- Key symbols the `SDL_KEYDOWN` handler distinguishes. -/
inductive Key where
  | f
  | slash
  | j
  | period
  | other
  deriving DecidableEq, Repr

/-- One thing the main loop reacts to: a mouse click at the current mouse
position, a key press, or the per-iteration update with the measured
`deltaTime`, the keyboard state and the values `rand` will return. -/
inductive Input where
  | mouseDown (mouseX mouseY : Int) (rnd : Nat → Nat)
  | keyDown (key : Key)
  | frame (deltaTime : ℚ) (keys : Keys) (rnd : Nat → Nat)

/-! ## Single-precision rounding -/

/-- Rounding of a rational to the nearest integer, ties to the even one. -/
def roundHalfEven (q : ℚ) : Int :=
  if Int.fract q < 1 / 2 then ⌊q⌋
  else if 1 / 2 < Int.fract q then ⌊q⌋ + 1
  else if ⌊q⌋ % 2 = 0 then ⌊q⌋ else ⌊q⌋ + 1

/-- Number of times `n` can be halved before it drops below 2, with at most
`fuel` halvings. -/
def halvings : Nat → Nat → Nat
  | 0, _ => 0
  | fuel + 1, n => if n < 2 then 0 else halvings fuel (n / 2) + 1

/-- The binary exponent `e` of a positive rational: `2^e <= q < 2^(e+1)`. -/
def binade (q : ℚ) : Int :=
  let e0 : Int := (halvings q.num.natAbs q.num.natAbs : Int) - (halvings q.den q.den : Int)
  if (2 : ℚ) ^ e0 ≤ q then e0 else e0 - 1

/-- The spacing of `float` values around a positive rational: 24 significant
bits, smallest normal exponent -126 (below it the spacing of the subnormals). -/
def f32Ulp (q : ℚ) : ℚ := (2 : ℚ) ^ (max (binade q) (-126) - 23)

/-- Rounding of a non-negative rational to `float`. -/
def f32Pos (q : ℚ) : ℚ := roundHalfEven (q / f32Ulp q) * f32Ulp q

/-- The `float` (IEEE 754 binary32, round to nearest, ties to even) nearest to
a rational: the result of a `float` operation is `f32` of the exact result.
Overflow to infinity (magnitudes of `2^128` and above) is not modelled. -/
def f32 (q : ℚ) : ℚ := if q < 0 then -f32Pos (-q) else f32Pos q

/-! ## Leaf helpers -/

/-- Conversion of a `float` value to `int`: truncation toward zero. -/
def truncToInt (q : ℚ) : Int := if 0 ≤ q then ⌊q⌋ else ⌈q⌉

/-- Point-in-rectangle test of the menu buttons (`isPointInRect`). -/
def isPointInRect (x y : Int) (rect : Rect) : Bool :=
  decide (x ≥ rect.x) && decide (x ≤ rect.x + rect.w) &&
  decide (y ≥ rect.y) && decide (y ≤ rect.y + rect.h)

/-- The source's `random (min, max)`, with `r` the value returned by `rand ()`. -/
def random (min max : Int) (r : Nat) : Int :=
  min + Int.tmod (r : Int) (max - min + 1)

/-- Strict rectangle intersection, the test used verbatim by
`checkTankCollision`, `checkBulletTankCollision` and inside the other
collision functions. -/
def checkTankCollision (tank1 tank2 : Rect) : Bool :=
  decide (tank1.x < tank2.x + tank2.w) && decide (tank1.x + tank1.w > tank2.x) &&
  decide (tank1.y < tank2.y + tank2.h) && decide (tank1.y + tank1.h > tank2.y)

/-- One loop of `checkTankCollisionWithObjects`: is some non-destroyed object of
the array hit by `tankRect`? -/
def collidesWithAny (tankRect : Rect) : List GameObject → Bool
  | [] => false
  | o :: os =>
    if o.isDestroyed then collidesWithAny tankRect os
    else if decide (tankRect.x < o.rect.x + o.rect.w) && decide (tankRect.x + tankRect.w > o.rect.x) &&
        decide (tankRect.y < o.rect.y + o.rect.h) && decide (tankRect.y + tankRect.h > o.rect.y)
      then true
      else collidesWithAny tankRect os

/-- The source's `checkTankCollisionWithObjects`: grass loop, then rock loop. -/
def checkTankCollisionWithObjects (tankRect : Rect) (grassObjects rockObjects : List GameObject) : Bool :=
  if collidesWithAny tankRect grassObjects then true
  else if collidesWithAny tankRect rockObjects then true
  else false

/-- Bullet against tank box (`checkBulletTankCollision`). -/
def checkBulletTankCollision (bullet tank : Rect) : Bool :=
  decide (bullet.x < tank.x + tank.w) && decide (bullet.x + bullet.w > tank.x) &&
  decide (bullet.y < tank.y + tank.h) && decide (bullet.y + bullet.h > tank.y)

/-- Bullet against obstacle (`checkBulletObjectCollision`): destroyed objects
are never hit. -/
def checkBulletObjectCollision (bullet : Rect) (obj : GameObject) : Bool :=
  if obj.isDestroyed then false
  else decide (bullet.x < obj.rect.x + obj.rect.w) && decide (bullet.x + bullet.w > obj.rect.x) &&
    decide (bullet.y < obj.rect.y + obj.rect.h) && decide (bullet.y + bullet.h > obj.rect.y)

/-- The source's `destroyGameObject`. -/
def destroyGameObject (obj : GameObject) : GameObject :=
  if !obj.isDestroyed then { obj with isDestroyed := true, hasShadow := true } else obj

/-- The source's `updateGunRotation`. -/
def updateGunRotation (tank : Tank) (deltaTime : ℚ) : Tank :=
  if tank.gunRotatingRight then
    let tank1 :=
      { tank with gunRotation := f32 (tank.gunRotation + f32 (tank.gunRotationSpeed * deltaTime)) }
    if tank1.gunRotation ≥ 45 then { tank1 with gunRotation := 45, gunRotatingRight := false }
    else tank1
  else
    let tank1 :=
      { tank with gunRotation := f32 (tank.gunRotation - f32 (tank.gunRotationSpeed * deltaTime)) }
    if tank1.gunRotation ≤ -45 then { tank1 with gunRotation := -45, gunRotatingRight := true }
    else tank1

/-- The source's `fireBullet`: the slot becomes an active bullet at the tank centre. -/
def fireBullet (bullet : Bullet) (tank : Tank) (owner : Int) (isExplosionBullet : Bool) : Bullet :=
  { bullet with
    active := true
    owner := owner
    rotation := tank.rotation + tank.gunRotation
    speed := 2
    isExplosionBullet := isExplosionBullet
    rect :=
      { w := 8
        h := 10
        x := tank.rect.x + Int.tdiv tank.rect.w 2 - Int.tdiv 8 2
        y := tank.rect.y + Int.tdiv tank.rect.h 2 - Int.tdiv 10 2 } }

/-- The source's `updateBullet`: advance an active bullet along its direction
and deactivate it when its corner leaves `[0,960] x [0,540]`. -/
def updateBullet (cfg : Config) (bullet : Bullet) : Bullet :=
  if !bullet.active then bullet
  else
    let x1 := truncToInt ((bullet.rect.x : ℚ) + bullet.speed * cfg.sinDeg bullet.rotation)
    let y1 := truncToInt ((bullet.rect.y : ℚ) - bullet.speed * cfg.cosDeg bullet.rotation)
    let bullet1 := { bullet with rect := { bullet.rect with x := x1, y := y1 } }
    if bullet1.rect.x < 0 ∨ bullet1.rect.x > 960 ∨ bullet1.rect.y < 0 ∨ bullet1.rect.y > 540 then
      { bullet1 with active := false }
    else bullet1

/-- The source's `updateTankAmmo` (`RELOAD_TIME = 0.5`, `MAX_AMMO = 5`). -/
def updateTankAmmo (tank : Tank) (deltaTime : ℚ) : Tank :=
  let tank1 :=
    if tank.currentAmmo < 5 then
      let tank2 := { tank with reloadTimer := f32 (tank.reloadTimer + deltaTime) }
      if tank2.reloadTimer ≥ 1 / 2 then
        { tank2 with currentAmmo := tank2.currentAmmo + 1, reloadTimer := 0 }
      else tank2
    else tank
  { tank1 with canShoot := decide (tank1.currentAmmo > 0) }

/-- The source's `tryFireBullet`: the returned flag, the bullet slot and the tank. -/
def tryFireBullet (bullet : Bullet) (tank : Tank) (owner : Int) : Bool × Bullet × Tank :=
  if !tank.canShoot || decide (tank.currentAmmo ≤ 0) then (false, bullet, tank)
  else
    let tank1 := { tank with currentAmmo := tank.currentAmmo - 1, reloadTimer := 0 }
    (true, fireBullet bullet tank1 owner false, tank1)

/-- The source's `createExplosion`. -/
def createExplosion (explosion : Explosion) (position : Rect) : Explosion :=
  { explosion with
    active := true
    timer := 0
    duration := 1
    rect :=
      { x := position.x + Int.tdiv position.w 2 - 32
        y := position.y + Int.tdiv position.h 2 - 32
        w := 64
        h := 64 } }

/-- The source's `updateExplosion`. -/
def updateExplosion (explosion : Explosion) (deltaTime : ℚ) : Explosion :=
  if !explosion.active then explosion
  else
    let explosion1 := { explosion with timer := f32 (explosion.timer + deltaTime) }
    if explosion1.timer ≥ explosion1.duration then { explosion1 with active := false }
    else explosion1

/-- The source's `destroyTank`. -/
def destroyTank (tank : Tank) : Tank :=
  if !tank.isDestroyed then { tank with isDestroyed := true, hasShadow := true, hp := 0 }
  else tank

/-- The source's `activateShield`. -/
def activateShield (shield : Shield) (owner : Int) : Shield :=
  { shield with active := true, timer := 0, duration := 30, owner := owner }

/-- The source's `updateShield`. -/
def updateShield (shield : Shield) (deltaTime : ℚ) : Shield :=
  if !shield.active then shield
  else
    let shield1 := { shield with timer := f32 (shield.timer + deltaTime) }
    if shield1.timer ≥ shield1.duration then { shield1 with active := false }
    else shield1

/-- The source's `hasActiveShield`. -/
def hasActiveShield (shield : Shield) (owner : Int) : Bool :=
  shield.active && decide (shield.owner = owner)

/-- The source's `reflectBullet` (the target tank argument is unused there). -/
def reflectBullet (bullet : Bullet) : Bullet :=
  let bullet1 := { bullet with rotation := f32 (bullet.rotation + 180) }
  let bullet2 :=
    if bullet1.rotation ≥ 360 then { bullet1 with rotation := f32 (bullet1.rotation - 360) }
    else bullet1
  { bullet2 with owner := if bullet2.owner = 0 then 1 else 0 }

/-- The source's `activatePowerUp`. -/
def activatePowerUp (tank : Tank) : Tank :=
  if !tank.hasPower then
    { tank with
      hasPower := true
      powerTimer := 15
      originalSpeed := tank.speed
      originalWidth := tank.rect.w
      originalHeight := tank.rect.h
      speed := tank.speed * 2 }
  else tank

/-- The source's `updatePowerUp`: on expiry the speed is restored and the box is
moved by a quarter of the stored size and given the stored size. -/
def updatePowerUp (tank : Tank) (deltaTime : ℚ) : Tank :=
  if tank.hasPower then
    let tank1 := { tank with powerTimer := f32 (tank.powerTimer - deltaTime) }
    if tank1.powerTimer ≤ 0 then
      { tank1 with
        speed := tank1.originalSpeed
        rect :=
          { x := tank1.rect.x - Int.tdiv tank1.originalWidth 4
            y := tank1.rect.y - Int.tdiv tank1.originalHeight 4
            w := tank1.originalWidth
            h := tank1.originalHeight }
        hasPower := false }
    else tank1
  else tank

/-- The source's `fireExplosionBullet`. -/
def fireExplosionBullet (bullet : Bullet) (tank : Tank) (owner : Int) : Bool × Bullet × Tank :=
  if tank.explosionItemCount > 0 then
    let tank1 := { tank with explosionItemCount := tank.explosionItemCount - 1 }
    (true, fireBullet bullet tank1 owner true, tank1)
  else (false, bullet, tank)

/-! ## Power box -/

/-- The candidate position drawn in iteration number `attempts` of the
do-while loop of `spawnPowerBox`: two calls of `random` per iteration. -/
def samplePowerBoxRect (rnd : Nat → Nat) (attempts : Nat) : Rect :=
  { x := random 50 860 (rnd (2 * attempts))
    y := random 50 440 (rnd (2 * attempts + 1))
    w := 20
    h := 20 }

/-- The do-while loop of `spawnPowerBox`, started with `attempts` iterations
already done: sample, count the attempt, and repeat while the sample is
blocked and fewer than 50 attempts were made.  The first argument is fuel for
the recursion; 50 always suffices. -/
def spawnSearch (rnd : Nat → Nat) (blocked : Rect → Bool) : Nat → Nat → Rect
  | 0, attempts => samplePowerBoxRect rnd attempts
  | fuel + 1, attempts =>
    let rect := samplePowerBoxRect rnd attempts
    if blocked rect && decide (attempts + 1 < 50) then spawnSearch rnd blocked fuel (attempts + 1)
    else rect

/-- The source's `spawnPowerBox`. -/
def spawnPowerBox (rnd : Nat → Nat) (powerBox : PowerBox) (grassObjects rockObjects : List GameObject)
    (blueTank redTank : Tank) : PowerBox :=
  if powerBox.active then powerBox
  else
    let powerBox1 := { powerBox with spawnCount := powerBox.spawnCount + 1 }
    let powerBox2 := { powerBox1 with boxType := Int.tmod powerBox1.spawnCount 2 }
    let rect := spawnSearch rnd
      (fun r => checkTankCollisionWithObjects r grassObjects rockObjects ||
        checkTankCollision r blueTank.rect || checkTankCollision r redTank.rect) 50 0
    { powerBox2 with rect := rect, active := true, disappearTimer := 5 }

/-- The source's `updatePowerBoxSpawning` (`SPAWN_INTERVAL = 3`). -/
def updatePowerBoxSpawning (rnd : Nat → Nat) (powerBox : PowerBox) (deltaTime : ℚ)
    (grassObjects rockObjects : List GameObject) (blueTank redTank : Tank) : PowerBox :=
  if powerBox.active then
    let powerBox1 := { powerBox with disappearTimer := f32 (powerBox.disappearTimer - deltaTime) }
    if powerBox1.disappearTimer ≤ 0 then { powerBox1 with active := false } else powerBox1
  else
    let powerBox1 := { powerBox with spawnTimer := f32 (powerBox.spawnTimer + deltaTime) }
    if powerBox1.spawnTimer ≥ 3 then
      { spawnPowerBox rnd powerBox1 grassObjects rockObjects blueTank redTank with spawnTimer := 0 }
    else powerBox1

/-- The source's `checkPowerBoxCollection`: returned flag, power box, tank, shield. -/
def checkPowerBoxCollection (powerBox : PowerBox) (tank : Tank) (shield : Shield) (tankOwner : Int) :
    Bool × PowerBox × Tank × Shield :=
  if !powerBox.active || tank.isDestroyed then (false, powerBox, tank, shield)
  else if decide (tank.rect.x < powerBox.rect.x + powerBox.rect.w) &&
      decide (tank.rect.x + tank.rect.w > powerBox.rect.x) &&
      decide (tank.rect.y < powerBox.rect.y + powerBox.rect.h) &&
      decide (tank.rect.y + tank.rect.h > powerBox.rect.y) then
    let powerBox1 := { powerBox with active := false }
    if powerBox1.boxType = 0 then (true, powerBox1, tank, activateShield shield tankOwner)
    else (true, powerBox1, activatePowerUp tank, shield)
  else (false, powerBox, tank, shield)

/-! ## Match set-up -/

/-- The table `grassPositions` of `initializeGameObjects`. -/
def grassPositions : List Rect :=
  [⟨50, 100, 30, 40⟩, ⟨150, 200, 20, 40⟩, ⟨250, 50, 20, 40⟩, ⟨200, 300, 40, 50⟩, ⟨350, 150, 20, 40⟩,
   ⟨400, 400, 30, 30⟩, ⟨500, 250, 40, 40⟩, ⟨550, 500, 20, 30⟩, ⟨650, 100, 30, 30⟩, ⟨700, 350, 20, 30⟩,
   ⟨800, 200, 20, 30⟩, ⟨850, 450, 20, 50⟩, ⟨900, 50, 20, 50⟩, ⟨900, 500, 20, 50⟩, ⟨750, 500, 20, 30⟩,
   ⟨600, 30, 20, 30⟩, ⟨450, 500, 20, 30⟩, ⟨300, 450, 20, 50⟩, ⟨10, 500, 20, 30⟩, ⟨940, 500, 20, 30⟩]

/-- The table `rockPositions` of `initializeGameObjects`. -/
def rockPositions : List Rect :=
  [⟨100, 50, 40, 80⟩, ⟨300, 250, 50, 50⟩, ⟨450, 100, 30, 50⟩, ⟨500, 450, 30, 50⟩, ⟨600, 200, 40, 40⟩,
   ⟨750, 30, 30, 30⟩, ⟨800, 300, 30, 50⟩, ⟨20, 400, 30, 30⟩, ⟨100, 350, 30, 30⟩, ⟨250, 150, 30, 45⟩,
   ⟨350, 500, 30, 60⟩, ⟨400, 20, 30, 30⟩, ⟨650, 400, 30, 30⟩, ⟨700, 500, 30, 60⟩, ⟨900, 380, 30, 40⟩]

/-- One iteration of an initialisation loop of `initializeGameObjects`: the
height is set from the table's width, the rotation is `random (0, 360)`. -/
def initGameObject (position : Rect) (r : Nat) : GameObject :=
  { rect := { x := position.x, y := position.y, w := position.w, h := position.w }
    size := position.w
    rotation := (random 0 360 r : Int)
    isDestroyed := false
    hasShadow := false }

/-- An initialisation loop of `initializeGameObjects` over a position table;
`k` is the number of `rand` calls made before the current entry. -/
def initGameObjects (rnd : Nat → Nat) : List Rect → Nat → List GameObject
  | [], _ => []
  | p :: ps, k => initGameObject p (rnd k) :: initGameObjects rnd ps (k + 1)

/-- Grass array after `initializeGameObjects` (20 objects, first 20 draws). -/
def initialGrass (rnd : Nat → Nat) : List GameObject := initGameObjects rnd grassPositions 0

/-- Rock array after `initializeGameObjects` (15 objects, the next 15 draws). -/
def initialRocks (rnd : Nat → Nat) : List GameObject := initGameObjects rnd rockPositions 20

/-- Blue tank as initialised before the main loop. -/
def initialBlueTank (cfg : Config) : Tank :=
  { rect := { x := 50, y := 540 - cfg.tankHeight - 50, w := cfg.tankWidth, h := cfg.tankHeight }
    isMoving := false
    speed := 2
    rotation := 0
    gunRotation := 0
    gunRotationSpeed := 30
    gunRotatingRight := true
    currentAmmo := 5
    reloadTimer := 0
    canShoot := true
    hp := 100
    isDestroyed := false
    hasShadow := false
    score := 0
    hasPower := false
    powerTimer := 0
    originalSpeed := 2
    originalWidth := cfg.tankWidth
    originalHeight := cfg.tankHeight
    explosionItemCount := 0 }

/-- Red tank as initialised before the main loop. -/
def initialRedTank (cfg : Config) : Tank :=
  { rect := { x := 960 - cfg.tankWidth - 100, y := 50, w := cfg.tankWidth, h := cfg.tankHeight }
    isMoving := false
    speed := 2
    rotation := 180
    gunRotation := 0
    gunRotationSpeed := 30
    gunRotatingRight := true
    currentAmmo := 5
    reloadTimer := 0
    canShoot := true
    hp := 100
    isDestroyed := false
    hasShadow := false
    score := 0
    hasPower := false
    powerTimer := 0
    originalSpeed := 2
    originalWidth := cfg.tankWidth
    originalHeight := cfg.tankHeight
    explosionItemCount := 0 }

/-- A pool slot of which `main` only sets `active = false`; the other fields are
never read while the slot is inactive and are given the value 0. -/
def inactiveBullet : Bullet :=
  { rect := ⟨0, 0, 0, 0⟩, speed := 0, rotation := 0, active := false, owner := 0, isExplosionBullet := false }

/-- An explosion slot of which `main` only sets `active = false`. -/
def inactiveExplosion : Explosion :=
  { rect := ⟨0, 0, 0, 0⟩, timer := 0, duration := 0, active := false }

/-- State on entry to the main loop (`MAX_BULLETS = 5`, `MAX_EXPLOSIONS = 3`). -/
def initialState (cfg : Config) (rnd : Nat → Nat) : State :=
  { currentState := GameState.WELCOME_SCREEN
    blueTankObj := initialBlueTank cfg
    redTankObj := initialRedTank cfg
    grassObjects := initialGrass rnd
    rockObjects := initialRocks rnd
    bullets := List.replicate 5 inactiveBullet
    explosions := List.replicate 3 inactiveExplosion
    winner := -1
    powerBox :=
      { rect := ⟨0, 0, 0, 0⟩, active := false, spawnTimer := 0, disappearTimer := 0, spawnCount := 0, boxType := 0 }
    shield := { active := false, timer := 0, duration := 0, owner := -1 } }

/-- Assignments of the play-again branch to the blue tank: power-up fields and
explosion charges are not among the fields it resets. -/
def resetBlueTank (cfg : Config) (tank : Tank) : Tank :=
  { tank with
    rect := { x := 50, y := 540 - cfg.tankHeight - 50, w := cfg.tankWidth, h := cfg.tankHeight }
    isMoving := false
    speed := 2
    rotation := 0
    gunRotation := 0
    gunRotationSpeed := 30
    gunRotatingRight := true
    currentAmmo := 5
    reloadTimer := 0
    canShoot := true
    hp := 100
    isDestroyed := false
    hasShadow := false
    score := 0 }

/-- Assignments of the play-again branch to the red tank. -/
def resetRedTank (cfg : Config) (tank : Tank) : Tank :=
  { tank with
    rect := { x := 960 - cfg.tankWidth - 100, y := 50, w := cfg.tankWidth, h := cfg.tankHeight }
    isMoving := false
    speed := 2
    rotation := 180
    gunRotation := 0
    gunRotationSpeed := 30
    gunRotatingRight := true
    currentAmmo := 5
    reloadTimer := 0
    canShoot := true
    hp := 100
    isDestroyed := false
    hasShadow := false
    score := 0 }

/-- The play-again branch of the mouse handler. -/
def playAgain (cfg : Config) (rnd : Nat → Nat) (s : State) : State :=
  { s with
    currentState := GameState.GAME_PLAYING
    winner := -1
    blueTankObj := resetBlueTank cfg s.blueTankObj
    redTankObj := resetRedTank cfg s.redTankObj
    bullets := s.bullets.map (fun b => { b with active := false })
    explosions := s.explosions.map (fun e => { e with active := false })
    grassObjects := initialGrass rnd
    rockObjects := initialRocks rnd }

/-- The `SDL_MOUSEBUTTONDOWN` branch of the event loop. -/
def handleMouseDown (cfg : Config) (mouseX mouseY : Int) (rnd : Nat → Nat) (s : State) : State :=
  match s.currentState with
  | GameState.WELCOME_SCREEN =>
    if isPointInRect mouseX mouseY cfg.startButtonRect then
      { s with currentState := GameState.GAME_MODE_SELECTION }
    else s
  | GameState.GAME_MODE_SELECTION =>
    if isPointInRect mouseX mouseY cfg.multiplayerButtonRect then
      { s with currentState := GameState.GAME_PLAYING }
    else s
  | GameState.WINNER_SCREEN =>
    if isPointInRect mouseX mouseY cfg.playAgainButtonRect then playAgain cfg rnd s
    else if isPointInRect mouseX mouseY cfg.homeButtonRect then
      { s with currentState := GameState.WELCOME_SCREEN }
    else s
  | GameState.GAME_PLAYING => s

/-! ## Key events -/

/-- The slot loop of the key handlers: the first inactive slot is handed to
`fire` and the loop ends whatever it returns; with no inactive slot nothing
happens.  The first component is the flag returned by `fire`, if it was called. -/
def fireFirstFree (fire : Bullet → Tank → Bool × Bullet × Tank) :
    List Bullet → Tank → Option Bool × List Bullet × Tank
  | [], tank => (none, [], tank)
  | b :: bs, tank =>
    if !b.active then
      let r := fire b tank
      (some r.1, r.2.1 :: bs, r.2.2)
    else
      let r := fireFirstFree fire bs tank
      (r.1, b :: r.2.1, r.2.2)

/-- The `SDL_KEYDOWN` branch of the event loop (taken only while playing). -/
def handleKeyDown (key : Key) (s : State) : State :=
  if s.currentState = GameState.GAME_PLAYING then
    if key = Key.f ∧ s.blueTankObj.isDestroyed = false then
      let r := fireFirstFree (fun b t => tryFireBullet b t 0) s.bullets s.blueTankObj
      { s with bullets := r.2.1, blueTankObj := r.2.2 }
    else if key = Key.slash ∧ s.redTankObj.isDestroyed = false then
      let r := fireFirstFree (fun b t => tryFireBullet b t 1) s.bullets s.redTankObj
      { s with bullets := r.2.1, redTankObj := r.2.2 }
    else if key = Key.j ∧ s.blueTankObj.isDestroyed = false then
      let r := fireFirstFree (fun b t => fireExplosionBullet b t 0) s.bullets s.blueTankObj
      { s with bullets := r.2.1, blueTankObj := r.2.2 }
    else if key = Key.period ∧ s.redTankObj.isDestroyed = false then
      let r := fireFirstFree (fun b t => fireExplosionBullet b t 1) s.bullets s.redTankObj
      { s with bullets := r.2.1, redTankObj := r.2.2 }
    else s
  else s

/-! ## Movement resolution -/

/-- The collision test guarding every committed move. -/
def moveBlocked (newRect other : Rect) (grassObjects rockObjects : List GameObject) : Bool :=
  checkTankCollisionWithObjects newRect grassObjects rockObjects || checkTankCollision newRect other

/-- The up-key block of a tank update. -/
def moveUp (tank : Tank) (other : Rect) (grassObjects rockObjects : List GameObject) : Tank :=
  let tank1 := { tank with rotation := 0 }
  let newRect := { tank1.rect with y := truncToInt ((tank1.rect.y : ℚ) - tank1.speed) }
  if !moveBlocked newRect other grassObjects rockObjects then
    { tank1 with rect := { tank1.rect with y := newRect.y } }
  else tank1

/-- The down-key block of a tank update. -/
def moveDown (tank : Tank) (other : Rect) (grassObjects rockObjects : List GameObject) : Tank :=
  let tank1 := { tank with rotation := 180 }
  let newRect := { tank1.rect with y := truncToInt ((tank1.rect.y : ℚ) + tank1.speed) }
  if !moveBlocked newRect other grassObjects rockObjects then
    { tank1 with rect := { tank1.rect with y := newRect.y } }
  else tank1

/-- The left-key block of a tank update. -/
def moveLeft (tank : Tank) (other : Rect) (grassObjects rockObjects : List GameObject) : Tank :=
  let tank1 := { tank with rotation := 270 }
  let newRect := { tank1.rect with x := truncToInt ((tank1.rect.x : ℚ) - tank1.speed) }
  if !moveBlocked newRect other grassObjects rockObjects then
    { tank1 with rect := { tank1.rect with x := newRect.x } }
  else tank1

/-- The right-key block of a tank update. -/
def moveRight (tank : Tank) (other : Rect) (grassObjects rockObjects : List GameObject) : Tank :=
  let tank1 := { tank with rotation := 90 }
  let newRect := { tank1.rect with x := truncToInt ((tank1.rect.x : ℚ) + tank1.speed) }
  if !moveBlocked newRect other grassObjects rockObjects then
    { tank1 with rect := { tank1.rect with x := newRect.x } }
  else tank1

/-- The update of one tank in the playing branch: the four directions are tried
in the order up, down, left, right, each on the position left by the previous
one; a destroyed tank or no pressed key only clears `isMoving`. -/
def moveTank (up down left right : Bool) (tank : Tank) (other : Rect)
    (grassObjects rockObjects : List GameObject) : Tank :=
  if (up || down || left || right) && !tank.isDestroyed then
    let t0 := { tank with isMoving := true }
    let t1 := if up = true ∧ t0.rect.y > 0 then moveUp t0 other grassObjects rockObjects else t0
    let t2 := if down = true ∧ t1.rect.y < 540 - t1.rect.h then moveDown t1 other grassObjects rockObjects else t1
    let t3 := if left = true ∧ t2.rect.x > 0 then moveLeft t2 other grassObjects rockObjects else t2
    let t4 := if right = true ∧ t3.rect.x < 960 - t3.rect.w then moveRight t3 other grassObjects rockObjects else t3
    t4
  else { tank with isMoving := false }

/-- Movement resolution of a tick: blue first (against red's box), then red
(against blue's new box). -/
def moveTanks (keys : Keys) (s : State) : State :=
  let blue := moveTank keys.w keys.s keys.a keys.d s.blueTankObj s.redTankObj.rect s.grassObjects s.rockObjects
  let red := moveTank keys.up keys.down keys.left keys.right s.redTankObj blue.rect s.grassObjects s.rockObjects
  { s with blueTankObj := blue, redTankObj := red }

/-! ## Bullets -/

/-- The explosion loop after a damaging hit: the first inactive slot becomes an
explosion at `position`; a full pool is left as it is. -/
def spawnExplosion (position : Rect) : List Explosion → List Explosion
  | [] => []
  | e :: es => if !e.active then createExplosion e position :: es else e :: spawnExplosion position es

/-- What the tank stage of one bullet works on: the bullet, the tank that fired
it (as decided by `owner == 0`), the opposing tank and the shared state it may
change. -/
structure HitCtx where
  bullet : Bullet
  shooter : Tank
  victim : Tank
  explosions : List Explosion
  winner : Int
  currentState : GameState
  deriving DecidableEq, Repr

/-- One of the two mirrored bullet-against-tank blocks.  `victimIdx` is the
index passed to `hasActiveShield`, `shooterIdx` the value stored in `winner`. -/
def bulletHitsTank (shield : Shield) (victimIdx shooterIdx : Int) (c : HitCtx) : HitCtx :=
  if checkBulletTankCollision c.bullet.rect c.victim.rect && !c.victim.isDestroyed then
    if hasActiveShield shield victimIdx then
      { c with bullet := reflectBullet c.bullet }
    else
      let c1 :=
        if c.bullet.isExplosionBullet then
          let c2 := { c with victim := { c.victim with hp := c.victim.hp - 75 },
                             shooter := { c.shooter with score := c.shooter.score + 300 } }
          if c2.victim.hp ≤ 0 then
            { c2 with victim := destroyTank c2.victim, winner := shooterIdx,
                      currentState := GameState.WINNER_SCREEN }
          else c2
        else
          let c2 := { c with victim := { c.victim with hp := c.victim.hp - 25 },
                             shooter := { c.shooter with score := c.shooter.score + 100 } }
          if c2.victim.hp ≤ 0 then
            { c2 with victim := destroyTank c2.victim, winner := shooterIdx,
                      currentState := GameState.WINNER_SCREEN }
          else c2
      { c1 with explosions := spawnExplosion c1.victim.rect c1.explosions,
                bullet := { c1.bullet with active := false } }
  else c

/-- The tank stage of the bullet loop: a bullet with `owner == 0` is tested
against the red tank, any other bullet against the blue tank. -/
def bulletTankStage (s : State) (b : Bullet) : State × Bullet :=
  if b.owner = 0 then
    let c := bulletHitsTank s.shield 1 0
      { bullet := b, shooter := s.blueTankObj, victim := s.redTankObj, explosions := s.explosions,
        winner := s.winner, currentState := s.currentState }
    ({ s with blueTankObj := c.shooter, redTankObj := c.victim, explosions := c.explosions,
              winner := c.winner, currentState := c.currentState }, c.bullet)
  else
    let c := bulletHitsTank s.shield 0 1
      { bullet := b, shooter := s.redTankObj, victim := s.blueTankObj, explosions := s.explosions,
        winner := s.winner, currentState := s.currentState }
    ({ s with redTankObj := c.shooter, blueTankObj := c.victim, explosions := c.explosions,
              winner := c.winner, currentState := c.currentState }, c.bullet)

/-- The search of an obstacle loop: the array with the first object hit by the
bullet destroyed, or `none` when the loop ends without a hit. -/
def hitFirstObject (bullet : Rect) : List GameObject → Option (List GameObject)
  | [] => none
  | o :: os =>
    if checkBulletObjectCollision bullet o then some (destroyGameObject o :: os)
    else (hitFirstObject bullet os).map (fun os1 => o :: os1)

/-- Score update of an obstacle hit: +10 for blue when `owner == 0`, else for red. -/
def awardObjectScore (b : Bullet) (s : State) : State :=
  if b.owner = 0 then { s with blueTankObj := { s.blueTankObj with score := s.blueTankObj.score + 10 } }
  else { s with redTankObj := { s.redTankObj with score := s.redTankObj.score + 10 } }

/-- The grass loop of the bullet loop. -/
def bulletGrassStage (s : State) (b : Bullet) : State × Bullet :=
  match hitFirstObject b.rect s.grassObjects with
  | some grass1 => (awardObjectScore b { s with grassObjects := grass1 }, { b with active := false })
  | none => (s, b)

/-- The rock loop of the bullet loop. -/
def bulletRockStage (s : State) (b : Bullet) : State × Bullet :=
  match hitFirstObject b.rect s.rockObjects with
  | some rock1 => (awardObjectScore b { s with rockObjects := rock1 }, { b with active := false })
  | none => (s, b)

/-- Body of the bullet loop for one slot: a slot that is active on entry is
advanced and then passed through the tank, grass and rock stages in turn. -/
def processBullet (cfg : Config) (s : State) (b : Bullet) : State × Bullet :=
  if b.active then
    let b1 := updateBullet cfg b
    let r1 := bulletTankStage s b1
    let r2 := bulletGrassStage r1.1 r1.2
    bulletRockStage r2.1 r2.2
  else (s, b)

/-- The bullet loop over the pool, slot by slot; the `bullets` field of the
state is not used inside the loop and is stored back by `updateBullets`. -/
def bulletLoop (cfg : Config) : List Bullet → State → State × List Bullet
  | [], s => (s, [])
  | b :: bs, s =>
    let r := processBullet cfg s b
    let rest := bulletLoop cfg bs r.1
    (rest.1, r.2 :: rest.2)

/-- The whole `// Update bullets` block of a tick. -/
def updateBullets (cfg : Config) (s : State) : State :=
  let r := bulletLoop cfg s.bullets s
  { r.1 with bullets := r.2 }

/-! ## The tick -/

/-- Everything the playing branch does before movement resolution: gun, ammo,
power-up timers, explosions, power box, shield and box collection. -/
def preMove (deltaTime : ℚ) (rnd : Nat → Nat) (s : State) : State :=
  let blue1 := updatePowerUp (updateTankAmmo (updateGunRotation s.blueTankObj deltaTime) deltaTime) deltaTime
  let red1 := updatePowerUp (updateTankAmmo (updateGunRotation s.redTankObj deltaTime) deltaTime) deltaTime
  let explosions1 := s.explosions.map (fun e => updateExplosion e deltaTime)
  let powerBox1 := updatePowerBoxSpawning rnd s.powerBox deltaTime s.grassObjects s.rockObjects blue1 red1
  let shield1 := updateShield s.shield deltaTime
  let cb := checkPowerBoxCollection powerBox1 blue1 shield1 0
  let cr := checkPowerBoxCollection cb.2.1 red1 cb.2.2.2 1
  { s with
    blueTankObj := cb.2.2.1
    redTankObj := cr.2.2.1
    explosions := explosions1
    powerBox := cr.2.1
    shield := cr.2.2.2 }

/-- State after the movement resolution of a tick. -/
def afterMovement (deltaTime : ℚ) (keys : Keys) (rnd : Nat → Nat) (s : State) : State :=
  moveTanks keys (preMove deltaTime rnd s)

/-- The simulation part of one main-loop iteration: only the playing branch
changes state. -/
def frame (cfg : Config) (deltaTime : ℚ) (keys : Keys) (rnd : Nat → Nat) (s : State) : State :=
  if s.currentState = GameState.GAME_PLAYING then
    updateBullets cfg (afterMovement deltaTime keys rnd s)
  else s

/-- Reaction of the main loop to one input. -/
def step (cfg : Config) (s : State) : Input → State
  | Input.mouseDown mouseX mouseY rnd => handleMouseDown cfg mouseX mouseY rnd s
  | Input.keyDown key => handleKeyDown key s
  | Input.frame deltaTime keys rnd => frame cfg deltaTime keys rnd s

/-- Reaction to a sequence of inputs, oldest first. -/
def run (cfg : Config) (s : State) (inputs : List Input) : State :=
  inputs.foldl (step cfg) s

/-- An input the program can receive: the measured `deltaTime` is never negative. -/
def Input.valid : Input → Prop
  | Input.frame deltaTime _ _ => 0 ≤ deltaTime
  | _ => True

/-- States the program can be in: the state on entry to the main loop, for some
outcome of the `rand` calls of the initialisation, followed by valid inputs. -/
inductive Reachable (cfg : Config) : State → Prop where
  | init (rnd : Nat → Nat) : Reachable cfg (initialState cfg rnd)
  | next (s : State) (i : Input) : Reachable cfg s → i.valid → Reachable cfg (step cfg s i)

/-- Strict overlap of a tank box with some non-destroyed grass or rock object
or with the other tank's box. -/
def tankOverlaps (tank other : Tank) (s : State) : Bool :=
  checkTankCollisionWithObjects tank.rect s.grassObjects s.rockObjects ||
    checkTankCollision tank.rect other.rect

/-- Neither tank overlaps an obstacle or the other tank. -/
def noTankOverlap (s : State) : Bool :=
  !tankOverlaps s.blueTankObj s.redTankObj s && !tankOverlaps s.redTankObj s.blueTankObj s

/-! ## Vocabulary of the properties -/

/-- Index of the tank a bullet is tested against by the tank stage. -/
def opponentIdx (b : Bullet) : Int := if b.owner = 0 then 1 else 0

/-- The tank a bullet is tested against by the tank stage. -/
def opponentOf (s : State) (b : Bullet) : Tank := if b.owner = 0 then s.redTankObj else s.blueTankObj

/-- The tank credited for a bullet by the tank stage. -/
def ownerTankOf (s : State) (b : Bullet) : Tank := if b.owner = 0 then s.blueTankObj else s.redTankObj

/-- The ammo bookkeeping of a tank: the counter is within 0..5 and the cached
`canShoot` flag is set whenever there is ammo. -/
def AmmoOk (t : Tank) : Prop :=
  0 ≤ t.currentAmmo ∧ t.currentAmmo ≤ 5 ∧ (0 < t.currentAmmo → t.canShoot = true)

/-- The ammo bookkeeping fields of a tank. -/
def ammoView (t : Tank) : Int × Bool × ℚ := (t.currentAmmo, t.canShoot, t.reloadTimer)

/-- Validity of an input is decidable. -/
instance Input.decidableValid (i : Input) : Decidable i.valid := by
  cases i <;> unfold Input.valid <;> infer_instance

/-! ## Concrete inputs used to exercise the properties -/

/-- Sine at the four cardinal directions (0 elsewhere): the values the C
library yields, up to rounding that the `int` conversion absorbs. -/
def cardinalSin (deg : ℚ) : ℚ := if deg = 90 then 1 else if deg = 270 then -1 else 0

/-- Cosine at the four cardinal directions (0 elsewhere). -/
def cardinalCos (deg : ℚ) : ℚ := if deg = 0 then 1 else if deg = 180 then -1 else 0

/-- A configuration with 40x40 tank textures and 160-wide buttons placed by the
formulas of `main`. -/
def sampleConfig : Config :=
  { tankWidth := 40
    tankHeight := 40
    startButtonRect := ⟨600, 240, 160, 60⟩
    multiplayerButtonRect := ⟨400, 200, 160, 60⟩
    playAgainButtonRect := ⟨400, 400, 160, 40⟩
    homeButtonRect := ⟨400, 450, 160, 40⟩
    sinDeg := cardinalSin
    cosDeg := cardinalCos }

/-- Every call of `rand` returns 0. -/
def zeroDraws : Nat → Nat := fun _ => 0

/-- No movement key is pressed. -/
def noKeys : Keys := ⟨false, false, false, false, false, false, false, false⟩

/-- The two clicks that lead from the welcome screen into the first match. -/
def startClicks : List Input :=
  [Input.mouseDown 600 240 zeroDraws, Input.mouseDown 400 200 zeroDraws]

/-- The state at the start of the first match under `sampleConfig`. -/
def matchStart : State := run sampleConfig (initialState sampleConfig zeroDraws) startClicks

/-- A blue bullet lying inside the red tank's start box. -/
def sampleBlueBullet : Bullet :=
  { rect := ⟨830, 60, 8, 10⟩, speed := 2, rotation := 0, active := true, owner := 0, isExplosionBullet := false }

/-- An explosive blue bullet lying inside the red tank's start box. -/
def sampleExplosiveBullet : Bullet := { sampleBlueBullet with isExplosionBullet := true }

/-- The start of a match with the shield held by the red tank. -/
def shieldedStart : State := { matchStart with shield := activateShield matchStart.shield 1 }

/-- What the F-key handler's call of `tryFireBullet` reports in state `s`
(`none` when the pool has no free slot and the call is not made). -/
def blueFireFlag (s : State) : Option Bool :=
  (fireFirstFree (fun b t => tryFireBullet b t 0) s.bullets s.blueTankObj).1

/-- A number of consecutive presses of the blue fire key. -/
def blueShots (n : Nat) : List Input := List.replicate n (Input.keyDown Key.f)

/-- Only the blue tank's up key (W) is pressed. -/
def keysW : Keys := { noKeys with w := true }

/-- Draws that make `spawnPowerBox` place the box at (50, 430), directly above
the blue tank's start box. -/
def boxAboveBlueDraws : Nat → Nat := fun i => if i = 1 then 380 else 0

/-- Blue picks up the first power box (a power-up) while driving up along the
rock at (20, 400): the box spawns after 3 s, blue drives into it and on. -/
def expiryTrace : List Input :=
  startClicks ++
    [Input.frame 3 keysW boxAboveBlueDraws, Input.frame 0 keysW zeroDraws,
     Input.frame 0 keysW zeroDraws, Input.frame 0 keysW zeroDraws]

/-- The state reached by `expiryTrace`. -/
def beforeExpiry : State := run sampleConfig (initialState sampleConfig zeroDraws) expiryTrace

/-- Only the red tank's left key is pressed. -/
def keysLeft : Keys := { noKeys with left := true }

/-- The red tank's down and left keys are pressed. -/
def keysDownLeft : Keys := { noKeys with down := true, left := true }

/-- The red tank's up and left keys are pressed. -/
def keysUpLeft : Keys := { noKeys with up := true, left := true }

/-- Draws that make `spawnPowerBox` place the box at (800, 50), directly left of
the red tank's start box. -/
def boxLeftOfRedDraws : Nat → Nat := fun i => if i = 0 then 750 else 0

/-- A number of ticks with no measurable elapsed time and the given keys. -/
def ticks (n : Nat) (keys : Keys) : List Input := List.replicate n (Input.frame 0 keys zeroDraws)

/-- Red collects a power-up, drives around the obstacles to the column above the
blue tank, and is destroyed there by four blue bullets fired at once. -/
def killTrace : List Input :=
  startClicks ++
    [Input.frame 3 keysLeft boxLeftOfRedDraws, Input.frame (3 / 2) keysLeft zeroDraws] ++
    ticks 6 keysLeft ++ ticks 3 keysDownLeft ++ ticks 24 keysLeft ++ ticks 1 keysUpLeft ++
    ticks 22 keysLeft ++ ticks 61 keysDownLeft ++ ticks 17 keysLeft ++ ticks 10 keysDownLeft ++
    ticks 18 keysLeft ++ ticks 10 keysDownLeft ++ ticks 14 keysLeft ++
    blueShots 4 ++ ticks 22 noKeys

/-- The state in which the red tank has just been destroyed. -/
def afterKill : State := run sampleConfig (initialState sampleConfig zeroDraws) killTrace

/-- Leaving the winner screen through the home button and starting again,
followed by one tick of 15 s. -/
def homeAndRestart : List Input :=
  [Input.mouseDown 400 450 zeroDraws, Input.mouseDown 600 240 zeroDraws,
   Input.mouseDown 400 200 zeroDraws, Input.frame 15 noKeys zeroDraws]

/-- The collision test `spawnPowerBox` applies to a sampled position: a
non-destroyed obstacle or either tank's box. -/
def spawnBlocked (grassObjects rockObjects : List GameObject) (blueTank redTank : Tank) (r : Rect) : Bool :=
  checkTankCollisionWithObjects r grassObjects rockObjects ||
    checkTankCollision r blueTank.rect || checkTankCollision r redTank.rect

/-- The destroyed flag and the hp of a tank. -/
def lifeView (t : Tank) : Bool × Int := (t.isDestroyed, t.hp)

/-- A tank that is not destroyed in `t` and destroyed with hp 0 in `u`: a
bullet hit has brought its hp to 0 or below in between. -/
def newlyDestroyed (t u : Tank) : Prop :=
  t.isDestroyed = false ∧ u.isDestroyed = true ∧ u.hp = 0

/-- One of the two tanks was destroyed between `s` and `s1`. -/
def killBetween (s s1 : State) : Prop :=
  newlyDestroyed s.blueTankObj s1.blueTankObj ∨ newlyDestroyed s.redTankObj s1.redTankObj

/-- What a stretch of the bullet loop may do to the destroyed flags and the
game state: a destroyed tank stays destroyed with the same hp, and the game
state either stays or becomes the winner screen together with a kill. -/
def stageStep (s s1 : State) : Prop :=
  (s.blueTankObj.isDestroyed = true → lifeView s1.blueTankObj = lifeView s.blueTankObj) ∧
  (s.redTankObj.isDestroyed = true → lifeView s1.redTankObj = lifeView s.redTankObj) ∧
  (s1.currentState = s.currentState ∨
    (s1.currentState = GameState.WINNER_SCREEN ∧ killBetween s s1))

/-- The boxes `initializeGameObjects` gives the grass objects: position and
width from the table, height equal to the width. -/
def grassRects : List Rect := grassPositions.map (fun p => ⟨p.x, p.y, p.w, p.w⟩)

/-- The boxes `initializeGameObjects` gives the rock objects. -/
def rockRects : List Rect := rockPositions.map (fun p => ⟨p.x, p.y, p.w, p.w⟩)

/-- The obstacles of a state sit where `initializeGameObjects` puts them; the
destroyed flags are arbitrary. -/
def fixedLayout (s : State) : Prop :=
  s.grassObjects.map GameObject.rect = grassRects ∧ s.rockObjects.map GameObject.rect = rockRects

/-- The size `fireBullet` gives every bullet. -/
def standardBullet (b : Bullet) : Prop := b.rect.w = 8 ∧ b.rect.h = 10

/-- The grass loop followed by the rock loop for one bullet, as in `processBullet`. -/
def bulletObstacleStages (s : State) (b : Bullet) : State × Bullet :=
  bulletRockStage (bulletGrassStage s b).1 (bulletGrassStage s b).2

/-- Two boxes are so far apart that no 8x10 box can overlap both. -/
def separated (g r : Rect) : Bool :=
  decide (g.x + g.w + 8 ≤ r.x) || decide (r.x + r.w + 8 ≤ g.x) ||
    decide (g.y + g.h + 10 ≤ r.y) || decide (r.y + r.h + 10 ≤ g.y)

/-- The rectangle test of `checkBulletObjectCollision` without the destroyed flag. -/
def boxesOverlap (a b : Rect) : Bool :=
  decide (a.x < b.x + b.w) && decide (a.x + a.w > b.x) && decide (a.y < b.y + b.h) && decide (a.y + a.h > b.y)

/-- An obstacle after being hit. -/
def destroyedObject (o : GameObject) : GameObject := { o with isDestroyed := true, hasShadow := true }

/-- The red tank's left key together with the blue tank's left key (A). -/
def keysLeftA : Keys := { keysLeft with a := true }

/-- The red tank's down and left keys together with the blue tank's left key (A). -/
def keysDownLeftA : Keys := { keysDownLeft with a := true }

/-- The red tank's left key together with the blue tank's up key (W). -/
def keysLeftW : Keys := { keysLeft with w := true }

/-- Red collects a power-up and drives to (50, 390), right of the rock at
(20, 400); blue steps left to x = 32, turns up, and fires one bullet, which is
followed until the tick before it reaches the rock and the red tank. -/
def wedgeTrace : List Input :=
  startClicks ++
    [Input.frame 3 keysLeft boxLeftOfRedDraws, Input.frame (3 / 2) keysLeft zeroDraws] ++
    ticks 6 keysLeftA ++ ticks 3 keysDownLeftA ++ ticks 1 keysLeftW ++ ticks 23 keysLeft ++
    ticks 1 keysUpLeft ++ ticks 22 keysLeft ++ ticks 61 keysDownLeft ++ ticks 17 keysLeft ++
    ticks 10 keysDownLeft ++ ticks 18 keysLeft ++ ticks 10 keysDownLeft ++ ticks 17 keysLeft ++
    ticks 2 keysDownLeft ++ blueShots 1 ++ ticks 16 noKeys

/-- The state reached by `wedgeTrace`. -/
def beforeDoubleHit : State := run sampleConfig (initialState sampleConfig zeroDraws) wedgeTrace

/-- The state of the tick after `beforeDoubleHit` when its bullet loop starts. -/
def wedgeTick : State := afterMovement 0 noKeys zeroDraws beforeDoubleHit

/-- The only active bullet of `beforeDoubleHit`, advanced by `updateBullet`. -/
def wedgeBullet : Bullet := updateBullet sampleConfig (beforeDoubleHit.bullets.headD inactiveBullet)

/-- A blue bullet lying inside the first grass object of the layout. -/
def grassBullet : Bullet :=
  { rect := ⟨60, 110, 8, 10⟩, speed := 2, rotation := 0, active := true, owner := 0, isExplosionBullet := false }

/-- The gun fields of a tank. -/
def gunView (t : Tank) : ℚ × Bool × ℚ := (t.gunRotation, t.gunRotatingRight, t.gunRotationSpeed)

/-- A tank with the fields the bullet loop may write (hp, destroyed flag,
shadow flag, score) blanked out. -/
def tankCore (t : Tank) : Tank := { t with hp := 0, isDestroyed := false, hasShadow := false, score := 0 }

/-- Health bookkeeping of a tank: destroyed with hp 0, or alive with hp in 1..100. -/
def LifeOk (t : Tank) : Prop :=
  (t.isDestroyed = true ∧ t.hp = 0) ∨ (t.isDestroyed = false ∧ 0 < t.hp ∧ t.hp ≤ 100)

/-- No explosion charge and no explosive bullet in flight. -/
def NoCharges (s : State) : Prop :=
  s.blueTankObj.explosionItemCount = 0 ∧ s.redTankObj.explosionItemCount = 0 ∧
    ∀ b ∈ s.bullets, b.active = true → b.isExplosionBullet = false

/-- Two blue shots at the start of a match followed by one tick of 0.1 s. -/
def twoShotsAndTick : State :=
  run sampleConfig matchStart (blueShots 2 ++ [Input.frame (1 / 10) noKeys zeroDraws])

/-- Only the red tank's up key is pressed. -/
def keysUp : Keys := { noKeys with up := true }

/-- Only the red tank's down key is pressed. -/
def keysDown : Keys := { noKeys with down := true }

/-- Red collects the power-up to its left (speed 4) and drives up until its box
is 2 px below the top edge of the arena. -/
def topEdgeTrace : List Input :=
  startClicks ++
    [Input.frame 3 keysLeft boxLeftOfRedDraws, Input.frame (3 / 2) keysLeft zeroDraws] ++
    ticks 12 keysUp

/-- The state reached by `topEdgeTrace`. -/
def nearTopEdge : State := run sampleConfig (initialState sampleConfig zeroDraws) topEdgeTrace

/-- The clicks on the home, start and multiplayer buttons of `sampleConfig`. -/
def restartClicks : List Input :=
  [Input.mouseDown 400 450 zeroDraws, Input.mouseDown 600 240 zeroDraws,
   Input.mouseDown 400 200 zeroDraws]

/-- The state after `killTrace`, the home button and a new start. -/
def restarted : State := run sampleConfig afterKill restartClicks

/-- After the restart blue drives up until its box touches the lower edge of the
destroyed red tank's box from below, 20 px to its left. -/
def underWreck : State := run sampleConfig restarted (ticks 14 keysW)

/-- Two shots of each tank, blue first. -/
def volley : List Input :=
  [Input.keyDown Key.f, Input.keyDown Key.f, Input.keyDown Key.slash, Input.keyDown Key.slash]

/-- Red collects a power-up and drives to the column above the blue tank as in
`killTrace`, then turns down towards it; both tanks fire two bullets, which
arrive 20 ticks later, and fire two more, which are 19 ticks under way. -/
def duelTrace : List Input :=
  startClicks ++
    [Input.frame 3 keysLeft boxLeftOfRedDraws, Input.frame (3 / 2) keysLeft zeroDraws] ++
    ticks 6 keysLeft ++ ticks 3 keysDownLeft ++ ticks 24 keysLeft ++ ticks 1 keysUpLeft ++
    ticks 22 keysLeft ++ ticks 61 keysDownLeft ++ ticks 17 keysLeft ++ ticks 10 keysDownLeft ++
    ticks 18 keysLeft ++ ticks 10 keysDownLeft ++ ticks 14 keysLeft ++ ticks 1 keysDown ++
    volley ++ ticks 20 noKeys ++ volley ++ ticks 19 noKeys

/-- The state one tick before the four bullets of the second volley arrive. -/
def beforeDuelEnd : State := run sampleConfig (initialState sampleConfig zeroDraws) duelTrace

/-- A `float` timer counted down as `updatePowerUp` does: the `deltaTime`s are
subtracted one by one from `start`, each difference rounded. -/
def countdown (start : ℚ) (dts : List ℚ) : ℚ := dts.foldl (fun t d => f32 (t - d)) start

/-- A tank whose gun stands at 39.75 degrees, turning right. -/
def gunAt3975 : Tank := { initialBlueTank sampleConfig with gunRotation := 159 / 4 }

/-! # Properties -/

/-! ## Single-precision rounding is monotone -/

theorem roundHalfEven_bounds (q : ℚ) :
    (roundHalfEven q = ⌊q⌋ ∨ roundHalfEven q = ⌊q⌋ + 1) ∧
    (Int.fract q < 1 / 2 → roundHalfEven q = ⌊q⌋) ∧
    (1 / 2 < Int.fract q → roundHalfEven q = ⌊q⌋ + 1) := by
  unfold roundHalfEven
  refine ⟨?_, ?_, ?_⟩
  · split_ifs <;> simp
  · intro h
    rw [if_pos h]
  · intro h
    rw [if_neg (not_lt.mpr (le_of_lt h)), if_pos h]

theorem roundHalfEven_int (n : Int) : roundHalfEven (n : ℚ) = n := by
  have h := (roundHalfEven_bounds (n : ℚ)).2.1 (by simp)
  rw [h, Int.floor_intCast]

theorem roundHalfEven_mono {x y : ℚ} (h : x ≤ y) : roundHalfEven x ≤ roundHalfEven y := by
  have hf : ⌊x⌋ ≤ ⌊y⌋ := Int.floor_mono h
  obtain ⟨hx, hx1, hx2⟩ := roundHalfEven_bounds x
  obtain ⟨hy, hy1, hy2⟩ := roundHalfEven_bounds y
  rcases lt_or_eq_of_le hf with hlt | heq
  · rcases hx with hx | hx <;> rcases hy with hy | hy <;> omega
  · have hfr : Int.fract x ≤ Int.fract y := by
      have e1 : Int.fract x = x - ⌊x⌋ := rfl
      have e2 : Int.fract y = y - ⌊y⌋ := rfl
      rw [e1, e2, heq]
      linarith
    rcases lt_trichotomy (Int.fract x) (1 / 2) with h1 | h1 | h1
    · rw [hx1 h1]
      rcases hy with hy | hy <;> omega
    · rcases lt_or_eq_of_le hfr with h2 | h2
      · rw [hy2 (by rw [← h1]; exact h2)]
        rcases hx with hx | hx <;> omega
      · have hxy : x = y := by
          have e1 : Int.fract x = x - ⌊x⌋ := rfl
          have e2 : Int.fract y = y - ⌊y⌋ := rfl
          rw [e1, e2, heq] at h2
          linarith
        rw [hxy]
    · rw [hy2 (lt_of_lt_of_le h1 hfr)]
      rcases hx with hx | hx <;> omega

theorem halvings_spec (fuel n : Nat) (hn : 0 < n) (hf : n ≤ fuel) :
    2 ^ halvings fuel n ≤ n ∧ n < 2 ^ (halvings fuel n + 1) := by
  induction fuel generalizing n with
  | zero => omega
  | succ f ih =>
    unfold halvings
    by_cases h2 : n < 2
    · rw [if_pos h2]
      have : n = 1 := by omega
      subst this
      exact ⟨by norm_num, by norm_num⟩
    · rw [if_neg h2]
      have hpos : 0 < n / 2 := Nat.div_pos (by omega) (by norm_num)
      have hle : n / 2 ≤ f := by omega
      obtain ⟨h1, h3⟩ := ih (n / 2) hpos hle
      constructor
      · rw [pow_succ]
        omega
      · rw [pow_succ]
        omega

theorem binade_spec (q : ℚ) (hq : 0 < q) :
    (2 : ℚ) ^ binade q ≤ q ∧ q < (2 : ℚ) ^ (binade q + 1) := by
  have hnum : 0 < q.num := Rat.num_pos.mpr hq
  have hn0 : 0 < q.num.natAbs := Int.natAbs_pos.mpr (ne_of_gt hnum)
  have hd0 : 0 < q.den := q.den_pos
  obtain ⟨a1, a2⟩ := halvings_spec q.num.natAbs q.num.natAbs hn0 (le_refl _)
  obtain ⟨b1, b2⟩ := halvings_spec q.den q.den hd0 (le_refl _)
  set a := halvings q.num.natAbs q.num.natAbs with ha
  set b := halvings q.den q.den with hb
  have hqe : q = (q.num.natAbs : ℚ) / (q.den : ℚ) := by
    have h1 : ((q.num.natAbs : Int) : ℚ) = (q.num : ℚ) := by
      rw [Int.natAbs_of_nonneg (le_of_lt hnum)]
    have h2 : ((q.num.natAbs : Nat) : ℚ) = ((q.num.natAbs : Int) : ℚ) :=
      (Int.cast_natCast q.num.natAbs).symm
    rw [h2, h1]
    exact (Rat.num_div_den q).symm
  have hdq : (0 : ℚ) < (q.den : ℚ) := by exact_mod_cast hd0
  have a1q : (2 : ℚ) ^ a ≤ (q.num.natAbs : ℚ) := by exact_mod_cast a1
  have a2q : (q.num.natAbs : ℚ) < (2 : ℚ) ^ (a + 1) := by exact_mod_cast a2
  have b1q : (2 : ℚ) ^ b ≤ (q.den : ℚ) := by exact_mod_cast b1
  have b2q : (q.den : ℚ) < (2 : ℚ) ^ (b + 1) := by exact_mod_cast b2
  have h2pos : ∀ k : Int, (0 : ℚ) < (2 : ℚ) ^ k := fun k => zpow_pos (by norm_num) k
  have hup : q < (2 : ℚ) ^ ((a : Int) - (b : Int) + 1) := by
    have e : (2 : ℚ) ^ ((a : Int) - (b : Int) + 1) = (2 : ℚ) ^ (a + 1) / (2 : ℚ) ^ b := by
      rw [show ((a : Int) - (b : Int) + 1) = ((a + 1 : Nat) : Int) - (b : Int) by push_cast; ring]
      rw [zpow_sub₀ (by norm_num : (2 : ℚ) ≠ 0)]
      norm_cast
    rw [e, hqe, div_lt_div_iff₀ hdq (by positivity)]
    calc (q.num.natAbs : ℚ) * (2 : ℚ) ^ b < (2 : ℚ) ^ (a + 1) * (2 : ℚ) ^ b := by
            apply mul_lt_mul_of_pos_right a2q (by positivity)
      _ ≤ (2 : ℚ) ^ (a + 1) * (q.den : ℚ) := by
            apply mul_le_mul_of_nonneg_left b1q (by positivity)
  have hlo : (2 : ℚ) ^ ((a : Int) - (b : Int) - 1) < q := by
    have e : (2 : ℚ) ^ ((a : Int) - (b : Int) - 1) = (2 : ℚ) ^ a / (2 : ℚ) ^ (b + 1) := by
      rw [show ((a : Int) - (b : Int) - 1) = ((a : Nat) : Int) - ((b + 1 : Nat) : Int) by push_cast; ring]
      rw [zpow_sub₀ (by norm_num : (2 : ℚ) ≠ 0)]
      norm_cast
    rw [e, hqe, div_lt_div_iff₀ (by positivity) hdq]
    calc (2 : ℚ) ^ a * (q.den : ℚ) < (2 : ℚ) ^ a * (2 : ℚ) ^ (b + 1) := by
            apply mul_lt_mul_of_pos_left b2q (by positivity)
      _ ≤ (q.num.natAbs : ℚ) * (2 : ℚ) ^ (b + 1) := by
            apply mul_le_mul_of_nonneg_right a1q (by positivity)
  unfold binade
  dsimp only
  rw [← ha, ← hb]
  split_ifs with hc
  · exact ⟨hc, hup⟩
  · refine ⟨le_of_lt hlo, ?_⟩
    rw [show (a : Int) - (b : Int) - 1 + 1 = (a : Int) - (b : Int) by ring]
    exact not_le.mp hc

theorem binade_mono {q r : ℚ} (hq : 0 < q) (h : q ≤ r) : binade q ≤ binade r := by
  have h1 := (binade_spec q hq).1
  have h2 := (binade_spec r (lt_of_lt_of_le hq h)).2
  have h3 : (2 : ℚ) ^ binade q < (2 : ℚ) ^ (binade r + 1) := lt_of_le_of_lt (le_trans h1 h) h2
  have h4 := (zpow_lt_zpow_iff_right₀ (by norm_num : (1 : ℚ) < 2)).mp h3
  omega

theorem f32Ulp_pos (q : ℚ) : 0 < f32Ulp q := zpow_pos (by norm_num) _

theorem f32Pos_nonneg {q : ℚ} (hq : 0 ≤ q) : 0 ≤ f32Pos q := by
  unfold f32Pos
  have h1 : (0 : ℚ) ≤ q / f32Ulp q := div_nonneg hq (le_of_lt (f32Ulp_pos q))
  have h2 : roundHalfEven ((0 : Int) : ℚ) ≤ roundHalfEven (q / f32Ulp q) :=
    roundHalfEven_mono (by simpa using h1)
  rw [roundHalfEven_int] at h2
  exact mul_nonneg (by exact_mod_cast h2) (le_of_lt (f32Ulp_pos q))

theorem f32Pos_zero : f32Pos 0 = 0 := by
  unfold f32Pos
  rw [zero_div]
  have h := roundHalfEven_int 0
  rw [Int.cast_zero] at h
  rw [h]
  simp

theorem f32Pos_mono {q r : ℚ} (hq : 0 ≤ q) (h : q ≤ r) : f32Pos q ≤ f32Pos r := by
  rcases eq_or_lt_of_le hq with h0 | hpos
  · have hz : f32Pos q = 0 := by
      rw [← h0]
      exact f32Pos_zero
    rw [hz]
    exact f32Pos_nonneg (le_trans hq h)
  · have hr : 0 < r := lt_of_lt_of_le hpos h
    have hb := binade_mono hpos h
    rcases eq_or_lt_of_le (max_le_max hb (le_refl (-126 : Int))) with he | hl
    · have hu : f32Ulp q = f32Ulp r := by unfold f32Ulp; rw [he]
      unfold f32Pos
      rw [hu]
      have h1 : q / f32Ulp r ≤ r / f32Ulp r := div_le_div_of_nonneg_right h (le_of_lt (f32Ulp_pos r))
      have h2 := roundHalfEven_mono h1
      exact mul_le_mul_of_nonneg_right (by exact_mod_cast h2) (le_of_lt (f32Ulp_pos r))
    · set eq := max (binade q) (-126) with heq
      set er := max (binade r) (-126) with her
      have her2 : er = binade r := by
        rw [her]
        apply max_eq_left
        have : (-126 : Int) ≤ eq := le_max_right _ _
        have hmax : er = max (binade r) (-126) := her
        by_contra hcon
        have : er = -126 := by
          rw [hmax]
          exact max_eq_right (le_of_lt (not_le.mp hcon))
        omega
      have two_ne : (2 : ℚ) ≠ 0 := by norm_num
      -- upper bound for f32Pos q
      have hq2 : q < (2 : ℚ) ^ (eq + 1) := by
        have := (binade_spec q hpos).2
        have hle : binade q + 1 ≤ eq + 1 := by
          have : binade q ≤ eq := le_max_left _ _
          omega
        exact lt_of_lt_of_le this (zpow_le_zpow_right₀ (by norm_num) hle)
      have hqu : q / f32Ulp q ≤ (((2 : Int) ^ 24 : Int) : ℚ) := by
        unfold f32Ulp
        rw [← heq, div_le_iff₀ (zpow_pos (by norm_num) _)]
        have e : ((((2 : Int) ^ 24 : Int) : ℚ)) * (2 : ℚ) ^ (eq - 23) = (2 : ℚ) ^ (eq + 1) := by
          rw [show eq + 1 = 24 + (eq - 23) by ring, zpow_add₀ two_ne]
          norm_num
        rw [e]
        exact le_of_lt hq2
      have hA : f32Pos q ≤ (2 : ℚ) ^ (eq + 1) := by
        have h2 := roundHalfEven_mono hqu
        rw [roundHalfEven_int] at h2
        unfold f32Pos
        have e : (2 : ℚ) ^ (eq + 1) = ((((2 : Int) ^ 24 : Int) : ℚ)) * f32Ulp q := by
          unfold f32Ulp
          rw [← heq, show eq + 1 = 24 + (eq - 23) by ring, zpow_add₀ two_ne]
          norm_num
        rw [e]
        exact mul_le_mul_of_nonneg_right (by exact_mod_cast h2) (le_of_lt (f32Ulp_pos q))
      -- lower bound for f32Pos r
      have hr2 : (2 : ℚ) ^ er ≤ r := by
        rw [her2]
        exact (binade_spec r hr).1
      have hru : (((2 : Int) ^ 23 : Int) : ℚ) ≤ r / f32Ulp r := by
        unfold f32Ulp
        rw [← her, le_div_iff₀ (zpow_pos (by norm_num) _)]
        have e : ((((2 : Int) ^ 23 : Int) : ℚ)) * (2 : ℚ) ^ (er - 23) = (2 : ℚ) ^ er := by
          rw [show er = 23 + (er - 23) by ring, zpow_add₀ two_ne]
          norm_num
        rw [e]
        exact hr2
      have hB : (2 : ℚ) ^ er ≤ f32Pos r := by
        have h2 := roundHalfEven_mono hru
        rw [roundHalfEven_int] at h2
        unfold f32Pos
        have e : (2 : ℚ) ^ er = ((((2 : Int) ^ 23 : Int) : ℚ)) * f32Ulp r := by
          unfold f32Ulp
          rw [← her, show er = 23 + (er - 23) by ring, zpow_add₀ two_ne]
          norm_num
        rw [e]
        exact mul_le_mul_of_nonneg_right (by exact_mod_cast h2) (le_of_lt (f32Ulp_pos r))
      have hC : (2 : ℚ) ^ (eq + 1) ≤ (2 : ℚ) ^ er :=
        zpow_le_zpow_right₀ (by norm_num) (by omega)
      exact le_trans hA (le_trans hC hB)

theorem f32_nonneg {q : ℚ} (hq : 0 ≤ q) : 0 ≤ f32 q := by
  unfold f32
  rw [if_neg (not_lt.mpr hq)]
  exact f32Pos_nonneg hq

theorem f32_mono {q r : ℚ} (h : q ≤ r) : f32 q ≤ f32 r := by
  unfold f32
  by_cases hq : q < 0
  · by_cases hr : r < 0
    · rw [if_pos hq, if_pos hr]
      have := f32Pos_mono (q := -r) (r := -q) (by linarith) (by linarith)
      linarith
    · rw [if_pos hq, if_neg hr]
      have h1 := f32Pos_nonneg (q := -q) (by linarith)
      have h2 := f32Pos_nonneg (q := r) (not_lt.mp hr)
      linarith
  · have hr : ¬ r < 0 := by
      intro hr
      exact hq (lt_of_le_of_lt h hr)
    rw [if_neg hq, if_neg hr]
    exact f32Pos_mono (not_lt.mp hq) h

/-! ## Firing and ammo (function level) -/

theorem ammoOk_of_view {t u : Tank} (h : ammoView u = ammoView t) (ht : AmmoOk t) : AmmoOk u := by
  simp only [ammoView, Prod.mk.injEq] at h
  unfold AmmoOk at *
  rw [h.1, h.2.1]
  exact ht

theorem ammoView_updateGunRotation (t : Tank) (dt : ℚ) :
    ammoView (updateGunRotation t dt) = ammoView t := by
  unfold updateGunRotation ammoView
  dsimp only
  split_ifs <;> rfl

theorem ammoView_updatePowerUp (t : Tank) (dt : ℚ) :
    ammoView (updatePowerUp t dt) = ammoView t := by
  unfold updatePowerUp ammoView
  dsimp only
  split_ifs <;> rfl

theorem ammoView_activatePowerUp (t : Tank) : ammoView (activatePowerUp t) = ammoView t := by
  unfold activatePowerUp ammoView
  split_ifs <;> rfl

theorem ammoView_destroyTank (t : Tank) : ammoView (destroyTank t) = ammoView t := by
  unfold destroyTank ammoView
  split_ifs <;> rfl

theorem ammoOk_updateTankAmmo (t : Tank) (dt : ℚ) (h : 0 ≤ t.currentAmmo ∧ t.currentAmmo ≤ 5) :
    AmmoOk (updateTankAmmo t dt) := by
  unfold updateTankAmmo AmmoOk
  dsimp only
  split_ifs <;> simp <;> omega

theorem ammoOk_tryFireBullet (b : Bullet) (t : Tank) (owner : Int) (h : AmmoOk t) :
    AmmoOk (tryFireBullet b t owner).2.2 := by
  unfold tryFireBullet
  split_ifs with hc
  · exact h
  · simp only [Bool.or_eq_true, Bool.not_eq_true', decide_eq_true_eq, not_or, Bool.not_eq_false,
      not_le] at hc
    unfold AmmoOk at *
    refine ⟨?_, ?_, fun _ => hc.1⟩ <;> simp <;> omega

theorem ammoView_fireExplosionBullet (b : Bullet) (t : Tank) (owner : Int) :
    ammoView (fireExplosionBullet b t owner).2.2 = ammoView t := by
  unfold fireExplosionBullet ammoView
  dsimp only
  split_ifs <;> rfl

/-- C7: with `currentAmmo < 5`, one call of `updateTankAmmo` adds exactly one
ammo (never more, whatever `deltaTime` is) and zeroes `reloadTimer` when
`reloadTimer + deltaTime >= 0.5`, and otherwise keeps the ammo and adds
`deltaTime` to `reloadTimer`; with `currentAmmo = 5` neither field changes.
The sum is the `float` sum the code computes and tests,
`f32 (reloadTimer + deltaTime)`.  (Holds for every `deltaTime`.) -/
theorem updateTankAmmo_reload (tank : Tank) (deltaTime : ℚ) :
    (tank.currentAmmo < 5 → f32 (tank.reloadTimer + deltaTime) ≥ 1 / 2 →
      (updateTankAmmo tank deltaTime).currentAmmo = tank.currentAmmo + 1 ∧
      (updateTankAmmo tank deltaTime).reloadTimer = 0) ∧
    (tank.currentAmmo < 5 → f32 (tank.reloadTimer + deltaTime) < 1 / 2 →
      (updateTankAmmo tank deltaTime).currentAmmo = tank.currentAmmo ∧
      (updateTankAmmo tank deltaTime).reloadTimer = f32 (tank.reloadTimer + deltaTime)) ∧
    (tank.currentAmmo = 5 →
      (updateTankAmmo tank deltaTime).currentAmmo = tank.currentAmmo ∧
      (updateTankAmmo tank deltaTime).reloadTimer = tank.reloadTimer) := by
  unfold updateTankAmmo
  refine ⟨fun h5 ht => ?_, fun h5 ht => ?_, fun h5 => ?_⟩
  · have ht2 : (1 : ℚ) / 2 ≤ f32 (tank.reloadTimer + deltaTime) := ht
    dsimp only
    rw [if_pos h5, if_pos ht2]
    exact ⟨rfl, rfl⟩
  · have ht2 : ¬ ((1 : ℚ) / 2 ≤ f32 (tank.reloadTimer + deltaTime)) := not_le.mpr ht
    dsimp only
    rw [if_pos h5, if_neg ht2]
    exact ⟨rfl, rfl⟩
  · have h6 : ¬ tank.currentAmmo < 5 := by omega
    dsimp only
    rw [if_neg h6]
    exact ⟨rfl, rfl⟩

/-! ## The tank stage of the bullet loop -/

theorem spawnExplosion_first (pos : Rect) (pre : List Explosion) (e : Explosion) (post : List Explosion)
    (hpre : ∀ x ∈ pre, x.active = true) (he : e.active = false) :
    spawnExplosion pos (pre ++ e :: post) = pre ++ createExplosion e pos :: post := by
  induction pre with
  | nil => simp [spawnExplosion, he]
  | cons p ps ih =>
    have hp : p.active = true := hpre p (List.mem_cons_self _ _)
    have hps : ∀ x ∈ ps, x.active = true := fun x hx => hpre x (List.mem_cons_of_mem _ hx)
    simp [spawnExplosion, hp, ih hps]

theorem spawnExplosion_full (pos : Rect) (l : List Explosion) (h : ∀ x ∈ l, x.active = true) :
    spawnExplosion pos l = l := by
  induction l with
  | nil => rfl
  | cons p ps ih =>
    have hp : p.active = true := h p (List.mem_cons_self _ _)
    have hps : ∀ x ∈ ps, x.active = true := fun x hx => h x (List.mem_cons_of_mem _ hx)
    simp [spawnExplosion, hp, ih hps]

theorem bulletHitsTank_miss (shield : Shield) (vi si : Int) (c : HitCtx)
    (h : checkBulletTankCollision c.bullet.rect c.victim.rect = false ∨ c.victim.isDestroyed = true) :
    bulletHitsTank shield vi si c = c := by
  unfold bulletHitsTank
  rcases h with h | h <;> simp [h]

theorem bulletHitsTank_reflect (shield : Shield) (vi si : Int) (c : HitCtx)
    (hhit : checkBulletTankCollision c.bullet.rect c.victim.rect = true)
    (halive : c.victim.isDestroyed = false) (hsh : hasActiveShield shield vi = true) :
    bulletHitsTank shield vi si c = { c with bullet := reflectBullet c.bullet } := by
  unfold bulletHitsTank
  simp [hhit, halive, hsh]

theorem bulletHitsTank_damage (shield : Shield) (vi si : Int) (c : HitCtx)
    (hhit : checkBulletTankCollision c.bullet.rect c.victim.rect = true)
    (halive : c.victim.isDestroyed = false) (hsh : hasActiveShield shield vi = false) :
    bulletHitsTank shield vi si c =
      { bullet := { c.bullet with active := false }
        shooter := { c.shooter with score := c.shooter.score + (if c.bullet.isExplosionBullet then 300 else 100) }
        victim :=
          if c.victim.hp - (if c.bullet.isExplosionBullet then 75 else 25) ≤ 0 then
            { c.victim with hp := 0, isDestroyed := true, hasShadow := true }
          else { c.victim with hp := c.victim.hp - (if c.bullet.isExplosionBullet then 75 else 25) }
        explosions := spawnExplosion c.victim.rect c.explosions
        winner := if c.victim.hp - (if c.bullet.isExplosionBullet then 75 else 25) ≤ 0 then si else c.winner
        currentState :=
          if c.victim.hp - (if c.bullet.isExplosionBullet then 75 else 25) ≤ 0 then GameState.WINNER_SCREEN
          else c.currentState } := by
  unfold bulletHitsTank
  simp only [hhit, halive, hsh, Bool.not_false, Bool.and_self, if_true, Bool.false_eq_true, if_false]
  by_cases hx : c.bullet.isExplosionBullet = true
  · by_cases hk : c.victim.hp - 75 ≤ 0
    · simp [hx, hk, destroyTank, halive]
    · simp [hx, hk]
  · by_cases hk : c.victim.hp - 25 ≤ 0
    · simp [hx, hk, destroyTank, halive]
    · simp [hx, hk]

theorem bulletTankStage_damage (s : State) (b : Bullet)
    (hhit : checkBulletTankCollision b.rect (opponentOf s b).rect = true)
    (halive : (opponentOf s b).isDestroyed = false)
    (hshield : hasActiveShield s.shield (opponentIdx b) = false) :
    (bulletTankStage s b).2 = { b with active := false } ∧
    (ownerTankOf (bulletTankStage s b).1 b) =
      { ownerTankOf s b with
        score := (ownerTankOf s b).score + (if b.isExplosionBullet then 300 else 100) } ∧
    (opponentOf (bulletTankStage s b).1 b) =
      (if (opponentOf s b).hp - (if b.isExplosionBullet then 75 else 25) ≤ 0 then
        { opponentOf s b with hp := 0, isDestroyed := true, hasShadow := true }
      else { opponentOf s b with hp := (opponentOf s b).hp - (if b.isExplosionBullet then 75 else 25) }) ∧
    (bulletTankStage s b).1.explosions = spawnExplosion (opponentOf s b).rect s.explosions ∧
    (bulletTankStage s b).1.winner =
      (if (opponentOf s b).hp - (if b.isExplosionBullet then 75 else 25) ≤ 0 then
        (if b.owner = 0 then 0 else 1) else s.winner) ∧
    (bulletTankStage s b).1.currentState =
      (if (opponentOf s b).hp - (if b.isExplosionBullet then 75 else 25) ≤ 0 then GameState.WINNER_SCREEN
       else s.currentState) := by
  by_cases ho : b.owner = 0
  · simp only [opponentOf, opponentIdx, ho, if_true] at hhit halive hshield
    simp only [bulletTankStage, ho, if_true, opponentOf, ownerTankOf]
    rw [bulletHitsTank_damage s.shield 1 0 _ hhit halive hshield]
    simp [ho]
  · simp only [opponentOf, opponentIdx, ho, if_false] at hhit halive hshield
    simp only [bulletTankStage, ho, if_false, opponentOf, ownerTankOf]
    rw [bulletHitsTank_damage s.shield 0 1 _ hhit halive hshield]
    simp [ho]

/-- C2: when a bullet overlaps the box of the opposing tank, which is not
destroyed and holds no active shield, the tank stage takes exactly 25 (normal)
or 75 (explosive) from the victim's hp and sets the result to 0 when it is
`<= 0`, adds exactly 100 (normal) or 300 (explosive) to the score of the
bullet's owner, deactivates the bullet, and turns the first inactive explosion
slot, if there is one, into an active 64x64 explosion centred on the victim's
box (a full pool is left unchanged). -/
theorem tank_hit_damage_and_score (s : State) (b : Bullet)
    (hhit : checkBulletTankCollision b.rect (opponentOf s b).rect = true)
    (halive : (opponentOf s b).isDestroyed = false)
    (hshield : hasActiveShield s.shield (opponentIdx b) = false) :
    (opponentOf (bulletTankStage s b).1 b).hp =
      (if (opponentOf s b).hp - (if b.isExplosionBullet then 75 else 25) ≤ 0 then 0
       else (opponentOf s b).hp - (if b.isExplosionBullet then 75 else 25)) ∧
    (ownerTankOf (bulletTankStage s b).1 b).score =
      (ownerTankOf s b).score + (if b.isExplosionBullet then 300 else 100) ∧
    (bulletTankStage s b).2.active = false ∧
    (∀ pre e post, s.explosions = pre ++ e :: post → (∀ x ∈ pre, x.active = true) → e.active = false →
      (bulletTankStage s b).1.explosions =
        pre ++
          { rect :=
              ⟨(opponentOf s b).rect.x + Int.tdiv (opponentOf s b).rect.w 2 - 32,
               (opponentOf s b).rect.y + Int.tdiv (opponentOf s b).rect.h 2 - 32, 64, 64⟩
            timer := 0
            duration := 1
            active := true } :: post) ∧
    ((∀ x ∈ s.explosions, x.active = true) → (bulletTankStage s b).1.explosions = s.explosions) := by
  obtain ⟨hb, ho, hv, he, -, -⟩ := bulletTankStage_damage s b hhit halive hshield
  refine ⟨?_, ?_, ?_, ?_, ?_⟩
  · rw [hv]
    split_ifs <;> rfl
  · rw [ho]
  · rw [hb]
  · intro pre e post hs hpre hact
    rw [he, hs, spawnExplosion_first _ _ _ _ hpre hact]
    rfl
  · intro hfull
    rw [he, spawnExplosion_full _ _ hfull]

/-- C3: when a bullet of tank 0 or 1 hits the opposing, unshielded,
non-destroyed tank and the damage brings its hp to `<= 0`, then right after the
tank stage the victim is flagged destroyed with hp exactly 0, `winner` is the
bullet's owner and the game state is `WINNER_SCREEN`.  In particular two
explosive hits on a tank at hp 100 go 100 -> 25 -> 0: the first leaves the
state playing, the second ends the match with winner = shooter. -/
theorem kill_sets_winner :
    (∀ (s : State) (b : Bullet), (b.owner = 0 ∨ b.owner = 1) →
      checkBulletTankCollision b.rect (opponentOf s b).rect = true →
      (opponentOf s b).isDestroyed = false →
      hasActiveShield s.shield (opponentIdx b) = false →
      (opponentOf s b).hp - (if b.isExplosionBullet then 75 else 25) ≤ 0 →
      (opponentOf (bulletTankStage s b).1 b).isDestroyed = true ∧
      (opponentOf (bulletTankStage s b).1 b).hp = 0 ∧
      (bulletTankStage s b).1.winner = b.owner ∧
      (bulletTankStage s b).1.currentState = GameState.WINNER_SCREEN) ∧
    (∀ (s : State) (b1 b2 : Bullet), (b1.owner = 0 ∨ b1.owner = 1) → b2.owner = b1.owner →
      b1.isExplosionBullet = true → b2.isExplosionBullet = true →
      checkBulletTankCollision b1.rect (opponentOf s b1).rect = true →
      checkBulletTankCollision b2.rect (opponentOf s b1).rect = true →
      (opponentOf s b1).isDestroyed = false →
      (opponentOf s b1).hp = 100 →
      hasActiveShield s.shield (opponentIdx b1) = false →
      s.currentState = GameState.GAME_PLAYING →
      (opponentOf (bulletTankStage s b1).1 b1).hp = 25 ∧
      (opponentOf (bulletTankStage s b1).1 b1).isDestroyed = false ∧
      (bulletTankStage s b1).1.currentState = GameState.GAME_PLAYING ∧
      (opponentOf (bulletTankStage (bulletTankStage s b1).1 b2).1 b1).hp = 0 ∧
      (opponentOf (bulletTankStage (bulletTankStage s b1).1 b2).1 b1).isDestroyed = true ∧
      (bulletTankStage (bulletTankStage s b1).1 b2).1.winner = b1.owner ∧
      (bulletTankStage (bulletTankStage s b1).1 b2).1.currentState = GameState.WINNER_SCREEN) := by
  constructor
  · intro s b hown hhit halive hshield hk
    obtain ⟨-, -, hv, -, hw, hc⟩ := bulletTankStage_damage s b hhit halive hshield
    rw [hv, hw, hc, if_pos hk, if_pos hk, if_pos hk]
    refine ⟨rfl, rfl, ?_, rfl⟩
    rcases hown with h | h <;> simp [h]
  · intro s b1 b2 hown h21 hx1 hx2 hhit1 hhit2 halive hhp hshield hplay
    obtain ⟨-, -, hv, -, -, hc⟩ := bulletTankStage_damage s b1 hhit1 halive hshield
    have hopp : ∀ t : State, opponentOf t b2 = opponentOf t b1 := by
      intro t; simp [opponentOf, h21]
    have hidx : opponentIdx b2 = opponentIdx b1 := by simp [opponentIdx, h21]
    have hk1 : ¬ ((opponentOf s b1).hp - (if b1.isExplosionBullet then 75 else 25) ≤ 0) := by
      rw [hhp, hx1]; decide
    rw [if_neg hk1] at hv hc
    have hshield1 : (bulletTankStage s b1).1.shield = s.shield := by
      unfold bulletTankStage
      split_ifs <;> rfl
    have hhit2' : checkBulletTankCollision b2.rect (opponentOf (bulletTankStage s b1).1 b2).rect = true := by
      rw [hopp, hv]; exact hhit2
    have halive2 : (opponentOf (bulletTankStage s b1).1 b2).isDestroyed = false := by
      rw [hopp, hv]; exact halive
    have hshield2 : hasActiveShield (bulletTankStage s b1).1.shield (opponentIdx b2) = false := by
      rw [hshield1, hidx]; exact hshield
    obtain ⟨-, -, hv2, -, hw2, hc2⟩ :=
      bulletTankStage_damage (bulletTankStage s b1).1 b2 hhit2' halive2 hshield2
    have hk2 : (opponentOf (bulletTankStage s b1).1 b2).hp - (if b2.isExplosionBullet then 75 else 25) ≤ 0 := by
      rw [hopp, hv, hx2, hx1, hhp]; norm_num
    rw [if_pos hk2] at hv2 hw2 hc2
    rw [hopp] at hv2
    refine ⟨?_, ?_, ?_, ?_, ?_, ?_, ?_⟩
    · rw [hv, hhp, hx1]; rfl
    · rw [hv]; exact halive
    · rw [hc]; exact hplay
    · rw [hv2]
    · rw [hv2]
    · rw [hw2, h21]
      rcases hown with h | h <;> simp [h]
    · rw [hc2]

/-- C10: when a bullet overlaps the box of the opposing, non-destroyed tank
while that tank holds the active shield, the tank stage changes nothing in the
game state (neither tank's hp, neither score, no explosion slot), and the
bullet only changes owner and direction: its `active` flag is untouched, its
owner becomes the shielded tank and its direction is advanced by 180 degrees
(less 360 when that reaches 360), each a `float` operation. -/
theorem shielded_hit_reflects (s : State) (b : Bullet)
    (hhit : checkBulletTankCollision b.rect (opponentOf s b).rect = true)
    (halive : (opponentOf s b).isDestroyed = false)
    (hshield : hasActiveShield s.shield (opponentIdx b) = true) :
    (bulletTankStage s b).1 = s ∧
    (bulletTankStage s b).2 =
      { b with
        owner := opponentIdx b
        rotation :=
          if f32 (b.rotation + 180) ≥ 360 then f32 (f32 (b.rotation + 180) - 360)
          else f32 (b.rotation + 180) } := by
  by_cases ho : b.owner = 0
  · simp only [opponentOf, opponentIdx, ho, if_true] at hhit halive hshield
    simp only [bulletTankStage, ho, if_true, opponentIdx]
    rw [bulletHitsTank_reflect s.shield 1 0 _ hhit halive hshield]
    refine ⟨rfl, ?_⟩
    simp only [reflectBullet]
    split_ifs <;> simp_all
  · simp only [opponentOf, opponentIdx, ho, if_false] at hhit halive hshield
    simp only [bulletTankStage, ho, if_false, opponentIdx]
    rw [bulletHitsTank_reflect s.shield 0 1 _ hhit halive hshield]
    refine ⟨rfl, ?_⟩
    simp only [reflectBullet]
    split_ifs <;> simp_all

/-! ## Ammo bookkeeping through a tick -/

theorem ammoView_updateTankAmmo_congr {t u : Tank} (h : ammoView u = ammoView t) (dt : ℚ) :
    ammoView (updateTankAmmo u dt) = ammoView (updateTankAmmo t dt) := by
  simp only [ammoView, Prod.mk.injEq] at h
  obtain ⟨h1, -, h3⟩ := h
  unfold updateTankAmmo ammoView
  dsimp only
  rw [h1, h3]
  split_ifs <;> simp [h1, h3]

theorem ammoView_checkPowerBoxCollection (pb : PowerBox) (t : Tank) (sh : Shield) (i : Int) :
    ammoView (checkPowerBoxCollection pb t sh i).2.2.1 = ammoView t := by
  unfold checkPowerBoxCollection
  dsimp only
  split_ifs
  · rfl
  · rfl
  · exact ammoView_activatePowerUp t
  · rfl

theorem ammoView_moveUp (t : Tank) (o : Rect) (g k : List GameObject) :
    ammoView (moveUp t o g k) = ammoView t := by
  unfold moveUp ammoView
  dsimp only
  split_ifs <;> rfl

theorem ammoView_moveDown (t : Tank) (o : Rect) (g k : List GameObject) :
    ammoView (moveDown t o g k) = ammoView t := by
  unfold moveDown ammoView
  dsimp only
  split_ifs <;> rfl

theorem ammoView_moveLeft (t : Tank) (o : Rect) (g k : List GameObject) :
    ammoView (moveLeft t o g k) = ammoView t := by
  unfold moveLeft ammoView
  dsimp only
  split_ifs <;> rfl

theorem ammoView_moveRight (t : Tank) (o : Rect) (g k : List GameObject) :
    ammoView (moveRight t o g k) = ammoView t := by
  unfold moveRight ammoView
  dsimp only
  split_ifs <;> rfl

theorem ammoView_moveTank (u d l r : Bool) (t : Tank) (o : Rect) (g k : List GameObject) :
    ammoView (moveTank u d l r t o g k) = ammoView t := by
  unfold moveTank
  dsimp only
  split_ifs <;>
    first
      | rfl
      | (simp only [ammoView_moveUp, ammoView_moveDown, ammoView_moveLeft, ammoView_moveRight]; rfl)

theorem ammoView_bulletHitsTank (sh : Shield) (vi si : Int) (c : HitCtx) :
    ammoView (bulletHitsTank sh vi si c).shooter = ammoView c.shooter ∧
    ammoView (bulletHitsTank sh vi si c).victim = ammoView c.victim := by
  unfold bulletHitsTank
  dsimp only
  split_ifs <;> simp [ammoView, destroyTank] <;> split_ifs <;> simp

theorem ammoView_bulletTankStage (s : State) (b : Bullet) :
    ammoView (bulletTankStage s b).1.blueTankObj = ammoView s.blueTankObj ∧
    ammoView (bulletTankStage s b).1.redTankObj = ammoView s.redTankObj := by
  unfold bulletTankStage
  dsimp only
  split_ifs
  · exact ⟨(ammoView_bulletHitsTank _ _ _ _).1, (ammoView_bulletHitsTank _ _ _ _).2⟩
  · exact ⟨(ammoView_bulletHitsTank _ _ _ _).2, (ammoView_bulletHitsTank _ _ _ _).1⟩

theorem ammoView_awardObjectScore (b : Bullet) (s : State) :
    ammoView (awardObjectScore b s).blueTankObj = ammoView s.blueTankObj ∧
    ammoView (awardObjectScore b s).redTankObj = ammoView s.redTankObj := by
  unfold awardObjectScore
  split_ifs <;> exact ⟨rfl, rfl⟩

theorem ammoView_bulletGrassStage (s : State) (b : Bullet) :
    ammoView (bulletGrassStage s b).1.blueTankObj = ammoView s.blueTankObj ∧
    ammoView (bulletGrassStage s b).1.redTankObj = ammoView s.redTankObj := by
  unfold bulletGrassStage
  split
  · exact ammoView_awardObjectScore _ _
  · exact ⟨rfl, rfl⟩

theorem ammoView_bulletRockStage (s : State) (b : Bullet) :
    ammoView (bulletRockStage s b).1.blueTankObj = ammoView s.blueTankObj ∧
    ammoView (bulletRockStage s b).1.redTankObj = ammoView s.redTankObj := by
  unfold bulletRockStage
  split
  · exact ammoView_awardObjectScore _ _
  · exact ⟨rfl, rfl⟩

theorem ammoView_processBullet (cfg : Config) (s : State) (b : Bullet) :
    ammoView (processBullet cfg s b).1.blueTankObj = ammoView s.blueTankObj ∧
    ammoView (processBullet cfg s b).1.redTankObj = ammoView s.redTankObj := by
  unfold processBullet
  dsimp only
  split_ifs
  · obtain ⟨h1, h2⟩ := ammoView_bulletTankStage s (updateBullet cfg b)
    obtain ⟨h3, h4⟩ := ammoView_bulletGrassStage (bulletTankStage s (updateBullet cfg b)).1
      (bulletTankStage s (updateBullet cfg b)).2
    obtain ⟨h5, h6⟩ := ammoView_bulletRockStage
      (bulletGrassStage (bulletTankStage s (updateBullet cfg b)).1 (bulletTankStage s (updateBullet cfg b)).2).1
      (bulletGrassStage (bulletTankStage s (updateBullet cfg b)).1 (bulletTankStage s (updateBullet cfg b)).2).2
    exact ⟨h5.trans (h3.trans h1), h6.trans (h4.trans h2)⟩
  · exact ⟨rfl, rfl⟩

theorem ammoView_bulletLoop (cfg : Config) (bs : List Bullet) (s : State) :
    ammoView (bulletLoop cfg bs s).1.blueTankObj = ammoView s.blueTankObj ∧
    ammoView (bulletLoop cfg bs s).1.redTankObj = ammoView s.redTankObj := by
  induction bs generalizing s with
  | nil => exact ⟨rfl, rfl⟩
  | cons b bs ih =>
    obtain ⟨h1, h2⟩ := ammoView_processBullet cfg s b
    obtain ⟨h3, h4⟩ := ih (processBullet cfg s b).1
    exact ⟨h3.trans h1, h4.trans h2⟩

theorem ammoView_frame (cfg : Config) (dt : ℚ) (keys : Keys) (rnd : Nat → Nat) (s : State)
    (hp : s.currentState = GameState.GAME_PLAYING) :
    ammoView (frame cfg dt keys rnd s).blueTankObj = ammoView (updateTankAmmo s.blueTankObj dt) ∧
    ammoView (frame cfg dt keys rnd s).redTankObj = ammoView (updateTankAmmo s.redTankObj dt) := by
  unfold frame
  rw [if_pos hp]
  obtain ⟨h1, h2⟩ := ammoView_bulletLoop cfg (afterMovement dt keys rnd s).bullets (afterMovement dt keys rnd s)
  have hb : ammoView (afterMovement dt keys rnd s).blueTankObj = ammoView (updateTankAmmo s.blueTankObj dt) := by
    unfold afterMovement moveTanks preMove
    dsimp only
    rw [ammoView_moveTank, ammoView_checkPowerBoxCollection, ammoView_updatePowerUp]
    exact ammoView_updateTankAmmo_congr (ammoView_updateGunRotation _ _) dt
  have hr : ammoView (afterMovement dt keys rnd s).redTankObj = ammoView (updateTankAmmo s.redTankObj dt) := by
    unfold afterMovement moveTanks preMove
    dsimp only
    rw [ammoView_moveTank, ammoView_checkPowerBoxCollection, ammoView_updatePowerUp]
    exact ammoView_updateTankAmmo_congr (ammoView_updateGunRotation _ _) dt
  exact ⟨h1.trans hb, h2.trans hr⟩

theorem fireFirstFree_tank (P : Tank → Prop) (fire : Bullet → Tank → Bool × Bullet × Tank)
    (hfire : ∀ b t, P t → P (fire b t).2.2) (bs : List Bullet) (t : Tank) (ht : P t) :
    P (fireFirstFree fire bs t).2.2 := by
  induction bs with
  | nil => exact ht
  | cons b bs ih =>
    unfold fireFirstFree
    split_ifs
    · exact hfire b t ht
    · exact ih

theorem fireFirstFree_flag (fire : Bullet → Tank → Bool × Bullet × Tank) (bs : List Bullet) (t : Tank)
    (v : Bool) (hv : ∀ b, (fire b t).1 = v) (hfree : ∃ b ∈ bs, b.active = false) :
    (fireFirstFree fire bs t).1 = some v := by
  induction bs with
  | nil => simp at hfree
  | cons b bs ih =>
    unfold fireFirstFree
    by_cases hb : b.active = false
    · simp [hb, hv]
    · have hb2 : b.active = true := by simpa using hb
      simp only [hb2, Bool.not_true, Bool.false_eq_true, if_false]
      apply ih
      obtain ⟨x, hx, hxa⟩ := hfree
      rcases List.mem_cons.mp hx with rfl | hx2
      · exact absurd hxa hb
      · exact ⟨x, hx2, hxa⟩

theorem ammoOk_step (cfg : Config) (s : State) (i : Input)
    (h : AmmoOk s.blueTankObj ∧ AmmoOk s.redTankObj) :
    AmmoOk (step cfg s i).blueTankObj ∧ AmmoOk (step cfg s i).redTankObj := by
  obtain ⟨hb, hr⟩ := h
  cases i with
  | mouseDown mx my rnd =>
    simp only [step, handleMouseDown]
    split
    · split_ifs <;> exact ⟨hb, hr⟩
    · split_ifs <;> exact ⟨hb, hr⟩
    · split_ifs
      · refine ⟨?_, ?_⟩ <;> simp [playAgain, resetBlueTank, resetRedTank, AmmoOk]
      · exact ⟨hb, hr⟩
      · exact ⟨hb, hr⟩
    · exact ⟨hb, hr⟩
  | keyDown key =>
    simp only [step, handleKeyDown]
    split_ifs
    · exact ⟨fireFirstFree_tank AmmoOk _ (fun b t ht => ammoOk_tryFireBullet b t 0 ht) _ _ hb, hr⟩
    · exact ⟨hb, fireFirstFree_tank AmmoOk _ (fun b t ht => ammoOk_tryFireBullet b t 1 ht) _ _ hr⟩
    · exact ⟨fireFirstFree_tank AmmoOk _
        (fun b t ht => ammoOk_of_view (ammoView_fireExplosionBullet b t 0) ht) _ _ hb, hr⟩
    · exact ⟨hb, fireFirstFree_tank AmmoOk _
        (fun b t ht => ammoOk_of_view (ammoView_fireExplosionBullet b t 1) ht) _ _ hr⟩
    · exact ⟨hb, hr⟩
    · exact ⟨hb, hr⟩
  | frame dt keys rnd =>
    simp only [step]
    by_cases hp : s.currentState = GameState.GAME_PLAYING
    · obtain ⟨h1, h2⟩ := ammoView_frame cfg dt keys rnd s hp
      exact ⟨ammoOk_of_view h1 (ammoOk_updateTankAmmo _ dt ⟨hb.1, hb.2.1⟩),
        ammoOk_of_view h2 (ammoOk_updateTankAmmo _ dt ⟨hr.1, hr.2.1⟩)⟩
    · unfold frame
      rw [if_neg hp]
      exact ⟨hb, hr⟩

theorem reachable_ammoOk (cfg : Config) (s : State) (h : Reachable cfg s) :
    AmmoOk s.blueTankObj ∧ AmmoOk s.redTankObj := by
  induction h with
  | init rnd => constructor <;> simp [initialState, initialBlueTank, initialRedTank, AmmoOk]
  | next s i _ _ ih => exact ammoOk_step cfg s i ih

/-! ## Reachable states -/

theorem reachable_run (cfg : Config) (inputs : List Input) (s : State) (hs : Reachable cfg s)
    (hv : ∀ i ∈ inputs, i.valid) : Reachable cfg (run cfg s inputs) := by
  induction inputs generalizing s with
  | nil => exact hs
  | cons i rest ih =>
    have h1 : Reachable cfg (step cfg s i) := Reachable.next s i hs (hv i (List.mem_cons_self _ _))
    exact ih (step cfg s i) h1 (fun j hj => hv j (List.mem_cons_of_mem _ hj))

theorem tryFireBullet_flag (b : Bullet) (t : Tank) (owner : Int) (h : AmmoOk t) :
    (tryFireBullet b t owner).1 = decide (0 < t.currentAmmo) := by
  unfold tryFireBullet
  by_cases hpos : 0 < t.currentAmmo
  · have hc : t.canShoot = true := h.2.2 hpos
    have hn : ¬ t.currentAmmo ≤ 0 := by omega
    simp [hc, hn, hpos]
  · have hn : t.currentAmmo ≤ 0 := by omega
    simp [hn, hpos]

/-- C5: in every reachable state the cached `canShoot` flag of either tank is
set whenever `currentAmmo > 0`; hence, when the pool has a free slot, the fire
handler's call of `tryFireBullet` (key F for blue, key / for red) reports
success exactly when the tank's `currentAmmo > 0`. -/
theorem fire_succeeds_iff_ammo (cfg : Config) (s : State) (hr : Reachable cfg s) :
    ((0 < s.blueTankObj.currentAmmo → s.blueTankObj.canShoot = true) ∧
     (0 < s.redTankObj.currentAmmo → s.redTankObj.canShoot = true)) ∧
    ((∃ b ∈ s.bullets, b.active = false) →
      ((fireFirstFree (fun b t => tryFireBullet b t 0) s.bullets s.blueTankObj).1 = some true ↔
        0 < s.blueTankObj.currentAmmo) ∧
      ((fireFirstFree (fun b t => tryFireBullet b t 1) s.bullets s.redTankObj).1 = some true ↔
        0 < s.redTankObj.currentAmmo)) := by
  obtain ⟨hb, hrd⟩ := reachable_ammoOk cfg s hr
  refine ⟨⟨hb.2.2, hrd.2.2⟩, fun hfree => ⟨?_, ?_⟩⟩
  · rw [fireFirstFree_flag _ s.bullets s.blueTankObj (decide (0 < s.blueTankObj.currentAmmo))
      (fun b => tryFireBullet_flag b _ 0 hb) hfree]
    simp
  · rw [fireFirstFree_flag _ s.bullets s.redTankObj (decide (0 < s.redTankObj.currentAmmo))
      (fun b => tryFireBullet_flag b _ 1 hrd) hfree]
    simp

/-- Witness of C5: the state after two blue shots at the start of a match. -/
theorem fire_succeeds_iff_ammo_witness :
    Reachable sampleConfig (run sampleConfig matchStart [Input.keyDown Key.f, Input.keyDown Key.f]) ∧
    (((0 : Int) < 3 → true = true) ∧ ((0 : Int) < 5 → true = true)) ∧
    ((∃ b ∈ (run sampleConfig matchStart [Input.keyDown Key.f, Input.keyDown Key.f]).bullets,
        b.active = false) →
      ((fireFirstFree (fun b t => tryFireBullet b t 0)
          (run sampleConfig matchStart [Input.keyDown Key.f, Input.keyDown Key.f]).bullets
          (run sampleConfig matchStart [Input.keyDown Key.f, Input.keyDown Key.f]).blueTankObj).1 = some true ↔
        (0 : Int) < 3) ∧
      ((fireFirstFree (fun b t => tryFireBullet b t 1)
          (run sampleConfig matchStart [Input.keyDown Key.f, Input.keyDown Key.f]).bullets
          (run sampleConfig matchStart [Input.keyDown Key.f, Input.keyDown Key.f]).redTankObj).1 = some true ↔
        (0 : Int) < 5)) :=
  have hreach : Reachable sampleConfig
      (run sampleConfig matchStart [Input.keyDown Key.f, Input.keyDown Key.f]) :=
    reachable_run sampleConfig _ _
      (reachable_run sampleConfig startClicks _ (Reachable.init zeroDraws) (by decide)) (by decide)
  ⟨hreach, fire_succeeds_iff_ammo sampleConfig _ hreach⟩

/-- C6: ammo is always within 0..5.  `updateTankAmmo` (for any non-negative
`deltaTime`) and `tryFireBullet` map a tank with `0 <= currentAmmo <= 5` to one
with `0 <= currentAmmo <= 5`, and in every reachable state both tanks have
`0 <= currentAmmo <= 5`. -/
theorem ammo_within_bounds (cfg : Config) :
    (∀ (tank : Tank) (deltaTime : ℚ), 0 ≤ tank.currentAmmo → tank.currentAmmo ≤ 5 → 0 ≤ deltaTime →
      0 ≤ (updateTankAmmo tank deltaTime).currentAmmo ∧ (updateTankAmmo tank deltaTime).currentAmmo ≤ 5) ∧
    (∀ (bullet : Bullet) (tank : Tank) (owner : Int), 0 ≤ tank.currentAmmo → tank.currentAmmo ≤ 5 →
      0 ≤ (tryFireBullet bullet tank owner).2.2.currentAmmo ∧
      (tryFireBullet bullet tank owner).2.2.currentAmmo ≤ 5) ∧
    (∀ s : State, Reachable cfg s →
      0 ≤ s.blueTankObj.currentAmmo ∧ s.blueTankObj.currentAmmo ≤ 5 ∧
      0 ≤ s.redTankObj.currentAmmo ∧ s.redTankObj.currentAmmo ≤ 5) := by
  refine ⟨fun tank dt h0 h5 _ => ?_, fun bullet tank owner h0 h5 => ?_, fun s hs => ?_⟩
  · have h := ammoOk_updateTankAmmo tank dt ⟨h0, h5⟩
    exact ⟨h.1, h.2.1⟩
  · unfold tryFireBullet
    split_ifs with hc
    · exact ⟨h0, h5⟩
    · simp only [Bool.or_eq_true, Bool.not_eq_true', decide_eq_true_eq, not_or, not_le] at hc
      dsimp only
      omega
  · obtain ⟨hb, hr⟩ := reachable_ammoOk cfg s hs
    exact ⟨hb.1, hb.2.1, hr.1, hr.2.1⟩

/-! ## Witnesses for the function-level properties -/

/-- Witness of C6 at the blue tank of a fresh match. -/
theorem ammo_within_bounds_witness :
    (0 ≤ (updateTankAmmo (tryFireBullet inactiveBullet (initialBlueTank sampleConfig) 0).2.2 (1 / 2)).currentAmmo ∧
      (updateTankAmmo (tryFireBullet inactiveBullet (initialBlueTank sampleConfig) 0).2.2 (1 / 2)).currentAmmo ≤ 5) ∧
    (0 ≤ (tryFireBullet inactiveBullet (initialBlueTank sampleConfig) 0).2.2.currentAmmo ∧
      (tryFireBullet inactiveBullet (initialBlueTank sampleConfig) 0).2.2.currentAmmo ≤ 5) ∧
    (0 ≤ matchStart.blueTankObj.currentAmmo ∧ matchStart.blueTankObj.currentAmmo ≤ 5 ∧
      0 ≤ matchStart.redTankObj.currentAmmo ∧ matchStart.redTankObj.currentAmmo ≤ 5) :=
  ⟨(ammo_within_bounds sampleConfig).1 _ (1 / 2) (by decide) (by decide) (by norm_num),
   (ammo_within_bounds sampleConfig).2.1 inactiveBullet (initialBlueTank sampleConfig) 0 (by decide) (by decide),
   (ammo_within_bounds sampleConfig).2.2 matchStart
     (reachable_run sampleConfig startClicks _ (Reachable.init zeroDraws) (by decide))⟩

/-- Witness of C7: a tank with 4 ammo whose reload timer stands at the `float`
0.016 (one frame of 16 ms after a shot).  A frame of 484 ms brings the `float`
sum to exactly 0.5 and reloads; a frame of 400 ms does not.  A tank with full
ammo is left alone. -/
theorem updateTankAmmo_reload_witness :
    (updateTankAmmo { initialBlueTank sampleConfig with currentAmmo := 4, reloadTimer := f32 (16 / 1000) }
      (f32 (484 / 1000))).currentAmmo = 5 ∧
    (updateTankAmmo { initialBlueTank sampleConfig with currentAmmo := 4, reloadTimer := f32 (16 / 1000) }
      (f32 (484 / 1000))).reloadTimer = 0 ∧
    (updateTankAmmo { initialBlueTank sampleConfig with currentAmmo := 4, reloadTimer := f32 (16 / 1000) }
      (f32 (400 / 1000))).currentAmmo = 4 ∧
    (updateTankAmmo { initialBlueTank sampleConfig with currentAmmo := 4, reloadTimer := f32 (16 / 1000) }
      (f32 (400 / 1000))).reloadTimer = f32 (f32 (16 / 1000) + f32 (400 / 1000)) ∧
    (updateTankAmmo (initialBlueTank sampleConfig) 7).currentAmmo = 5 ∧
    (updateTankAmmo (initialBlueTank sampleConfig) 7).reloadTimer = 0 :=
  have h1 := (updateTankAmmo_reload
    { initialBlueTank sampleConfig with currentAmmo := 4, reloadTimer := f32 (16 / 1000) }
    (f32 (484 / 1000))).1 (by decide) (by decide!)
  have h2 := (updateTankAmmo_reload
    { initialBlueTank sampleConfig with currentAmmo := 4, reloadTimer := f32 (16 / 1000) }
    (f32 (400 / 1000))).2.1 (by decide) (by decide!)
  have h3 := (updateTankAmmo_reload (initialBlueTank sampleConfig) 7).2.2 (by decide)
  ⟨h1.1, h1.2, h2.1, h2.2, h3.1, h3.2⟩

/-- Witness of C2: a normal blue bullet inside the red tank's box at the start
of a match takes red from 100 to 75 hp, gives blue 100 points, is deactivated
and lights the first explosion slot. -/
theorem tank_hit_damage_and_score_witness :
    checkBulletTankCollision sampleBlueBullet.rect (opponentOf matchStart sampleBlueBullet).rect = true ∧
    (opponentOf matchStart sampleBlueBullet).isDestroyed = false ∧
    hasActiveShield matchStart.shield (opponentIdx sampleBlueBullet) = false ∧
    (bulletTankStage matchStart sampleBlueBullet).1.redTankObj.hp = 75 ∧
    (bulletTankStage matchStart sampleBlueBullet).1.blueTankObj.score = 100 ∧
    (bulletTankStage matchStart sampleBlueBullet).2.active = false ∧
    (bulletTankStage matchStart sampleBlueBullet).1.explosions =
      [{ rect := ⟨808, 38, 64, 64⟩, timer := 0, duration := 1, active := true },
       inactiveExplosion, inactiveExplosion] :=
  have h := tank_hit_damage_and_score matchStart sampleBlueBullet (by decide) (by decide) (by decide)
  ⟨by decide, by decide, by decide, h.1, h.2.1, h.2.2.1,
    h.2.2.2.1 [] inactiveExplosion [inactiveExplosion, inactiveExplosion] (by decide!)
      (by simp) (by decide)⟩

/-- Witness of C3: one explosive blue hit on red at 25 hp, and two explosive
blue hits on red at 100 hp. -/
theorem kill_sets_winner_witness :
    ((bulletTankStage
        { matchStart with redTankObj := { matchStart.redTankObj with hp := 25 } } sampleExplosiveBullet).1.redTankObj.isDestroyed = true ∧
     (bulletTankStage
        { matchStart with redTankObj := { matchStart.redTankObj with hp := 25 } } sampleExplosiveBullet).1.redTankObj.hp = 0 ∧
     (bulletTankStage
        { matchStart with redTankObj := { matchStart.redTankObj with hp := 25 } } sampleExplosiveBullet).1.winner = 0 ∧
     (bulletTankStage
        { matchStart with redTankObj := { matchStart.redTankObj with hp := 25 } } sampleExplosiveBullet).1.currentState
        = GameState.WINNER_SCREEN) ∧
    ((bulletTankStage matchStart sampleExplosiveBullet).1.redTankObj.hp = 25 ∧
     (bulletTankStage matchStart sampleExplosiveBullet).1.redTankObj.isDestroyed = false ∧
     (bulletTankStage matchStart sampleExplosiveBullet).1.currentState = GameState.GAME_PLAYING ∧
     (bulletTankStage (bulletTankStage matchStart sampleExplosiveBullet).1 sampleExplosiveBullet).1.redTankObj.hp = 0 ∧
     (bulletTankStage (bulletTankStage matchStart sampleExplosiveBullet).1 sampleExplosiveBullet).1.redTankObj.isDestroyed
        = true ∧
     (bulletTankStage (bulletTankStage matchStart sampleExplosiveBullet).1 sampleExplosiveBullet).1.winner = 0 ∧
     (bulletTankStage (bulletTankStage matchStart sampleExplosiveBullet).1 sampleExplosiveBullet).1.currentState
        = GameState.WINNER_SCREEN) :=
  ⟨kill_sets_winner.1 { matchStart with redTankObj := { matchStart.redTankObj with hp := 25 } }
      sampleExplosiveBullet (Or.inl rfl) (by decide) (by decide) (by decide) (by decide),
   kill_sets_winner.2 matchStart sampleExplosiveBullet sampleExplosiveBullet (Or.inl rfl) rfl rfl rfl
      (by decide) (by decide) (by decide) (by decide) (by decide) (by decide)⟩

/-- Witness of C10: a blue bullet inside the box of the shielded red tank. -/
theorem shielded_hit_reflects_witness :
    checkBulletTankCollision sampleBlueBullet.rect (opponentOf shieldedStart sampleBlueBullet).rect = true ∧
    (opponentOf shieldedStart sampleBlueBullet).isDestroyed = false ∧
    hasActiveShield shieldedStart.shield (opponentIdx sampleBlueBullet) = true ∧
    (bulletTankStage shieldedStart sampleBlueBullet).1 = shieldedStart ∧
    (bulletTankStage shieldedStart sampleBlueBullet).2 =
      { sampleBlueBullet with owner := 1, rotation := 180 } :=
  have h := shielded_hit_reflects shieldedStart sampleBlueBullet (by decide) (by decide) (by decide)
  ⟨by decide, by decide, by decide, h.1, h.2.trans (by decide!)⟩

/-! ## Scenario A: rapid fire -/

theorem fireFirstFree_first (fire : Bullet → Tank → Bool × Bullet × Tank) (pre : List Bullet)
    (b : Bullet) (post : List Bullet) (t : Tank) (hpre : ∀ x ∈ pre, x.active = true)
    (hb : b.active = false) :
    fireFirstFree fire (pre ++ b :: post) t =
      (some (fire b t).1, pre ++ (fire b t).2.1 :: post, (fire b t).2.2) := by
  induction pre with
  | nil => simp [fireFirstFree, hb]
  | cons p ps ih =>
    have hp : p.active = true := hpre p (List.mem_cons_self _ _)
    have hps : ∀ x ∈ ps, x.active = true := fun x hx => hpre x (List.mem_cons_of_mem _ hx)
    simp [fireFirstFree, hp, ih hps]

theorem fireFirstFree_full (fire : Bullet → Tank → Bool × Bullet × Tank) (bs : List Bullet) (t : Tank)
    (h : ∀ x ∈ bs, x.active = true) : fireFirstFree fire bs t = (none, bs, t) := by
  induction bs with
  | nil => rfl
  | cons p ps ih =>
    have hp : p.active = true := h p (List.mem_cons_self _ _)
    have hps : ∀ x ∈ ps, x.active = true := fun x hx => h x (List.mem_cons_of_mem _ hx)
    simp [fireFirstFree, hp, ih hps]

/-- C8, as the code behaves: from a playing state in which blue is alive with
5 ammo and `canShoot` set and all five bullet slots are free, four consecutive
blue fire requests succeed and take the ammo 5 -> 1; the fifth immediate
request succeeds as well and takes the ammo 1 -> 0 (it is the sixth that is
dropped, leaving the state unchanged); after a tick of 0.5 s with no further
firing blue's ammo is 1. -/
theorem rapid_fire_scenario (cfg : Config) (s : State) (b0 b1 b2 b3 b4 : Bullet) (keys : Keys)
    (rnd : Nat → Nat)
    (hplay : s.currentState = GameState.GAME_PLAYING) (halive : s.blueTankObj.isDestroyed = false)
    (hcs : s.blueTankObj.canShoot = true) (hammo : s.blueTankObj.currentAmmo = 5)
    (hbul : s.bullets = [b0, b1, b2, b3, b4])
    (h0 : b0.active = false) (h1 : b1.active = false) (h2 : b2.active = false)
    (h3 : b3.active = false) (h4 : b4.active = false) :
    (blueFireFlag s = some true ∧ blueFireFlag (run cfg s (blueShots 1)) = some true ∧
      blueFireFlag (run cfg s (blueShots 2)) = some true ∧
      blueFireFlag (run cfg s (blueShots 3)) = some true) ∧
    (run cfg s (blueShots 4)).blueTankObj.currentAmmo = 1 ∧
    blueFireFlag (run cfg s (blueShots 4)) = some true ∧
    (run cfg s (blueShots 5)).blueTankObj.currentAmmo = 0 ∧
    (∀ b ∈ (run cfg s (blueShots 5)).bullets, b.active = true) ∧
    blueFireFlag (run cfg s (blueShots 5)) = none ∧
    run cfg s (blueShots 6) = run cfg s (blueShots 5) ∧
    (run cfg s (blueShots 5 ++ [Input.frame (1 / 2) keys rnd])).blueTankObj.currentAmmo = 1 := by
  obtain ⟨cs, blue, red, grass, rock, bullets, expl, winner, pb, sh⟩ := s
  simp only at hplay halive hcs hammo hbul
  subst hplay hbul
  have hv := fun s hp => (ammoView_frame cfg (1 / 2) keys rnd s hp).1
  simp only [ammoView, Prod.mk.injEq] at hv
  have hlast : (run cfg
      { currentState := GameState.GAME_PLAYING, blueTankObj := blue, redTankObj := red, grassObjects := grass,
        rockObjects := rock, bullets := [b0, b1, b2, b3, b4], explosions := expl, winner := winner,
        powerBox := pb, shield := sh }
      (blueShots 5 ++ [Input.frame (1 / 2) keys rnd])).blueTankObj.currentAmmo = 1 := by
    have e : run cfg
        { currentState := GameState.GAME_PLAYING, blueTankObj := blue, redTankObj := red, grassObjects := grass,
          rockObjects := rock, bullets := [b0, b1, b2, b3, b4], explosions := expl, winner := winner,
          powerBox := pb, shield := sh } (blueShots 5 ++ [Input.frame (1 / 2) keys rnd]) =
        frame cfg (1 / 2) keys rnd (run cfg
        { currentState := GameState.GAME_PLAYING, blueTankObj := blue, redTankObj := red, grassObjects := grass,
          rockObjects := rock, bullets := [b0, b1, b2, b3, b4], explosions := expl, winner := winner,
          powerBox := pb, shield := sh } (blueShots 5)) := by
      simp [run, blueShots, List.replicate, step]
    have hhalf : f32 (1 / 2) = 1 / 2 := by decide!
    have hhalf2 : f32 (2⁻¹) = 2⁻¹ := by
      have e2 : (2⁻¹ : ℚ) = 1 / 2 := by norm_num
      rw [e2]
      exact hhalf
    rw [e, (hv _ _).1]
    · simp [run, blueShots, List.replicate, step, handleKeyDown, fireFirstFree, tryFireBullet, fireBullet,
        h0, h1, h2, h3, h4, hcs, hammo, halive, updateTankAmmo, hhalf, hhalf2]
    · simp [run, blueShots, List.replicate, step, handleKeyDown, fireFirstFree, tryFireBullet, fireBullet,
        h0, h1, h2, h3, h4, hcs, hammo, halive]
  refine ⟨⟨?_, ?_, ?_, ?_⟩, ?_, ?_, ?_, ?_, ?_, ?_, hlast⟩ <;>
    simp [blueFireFlag, run, blueShots, List.replicate, step, handleKeyDown, fireFirstFree, tryFireBullet,
      fireBullet, h0, h1, h2, h3, h4, hcs, hammo, halive]

/-- Witness of the amended C8 at the start of a match under `sampleConfig`. -/
theorem rapid_fire_scenario_witness :
    (run sampleConfig matchStart (blueShots 4)).blueTankObj.currentAmmo = 1 ∧
    blueFireFlag (run sampleConfig matchStart (blueShots 4)) = some true ∧
    (run sampleConfig matchStart (blueShots 5)).blueTankObj.currentAmmo = 0 ∧
    run sampleConfig matchStart (blueShots 6) = run sampleConfig matchStart (blueShots 5) ∧
    (run sampleConfig matchStart (blueShots 5 ++ [Input.frame (1 / 2) noKeys zeroDraws])).blueTankObj.currentAmmo = 1 :=
  have h := rapid_fire_scenario sampleConfig matchStart inactiveBullet inactiveBullet inactiveBullet
    inactiveBullet inactiveBullet noKeys zeroDraws (by decide) (by decide) (by decide) (by decide)
    (by decide!) (by decide) (by decide) (by decide) (by decide) (by decide)
  ⟨h.2.1, h.2.2.1, h.2.2.2.1, h.2.2.2.2.2.2.1, h.2.2.2.2.2.2.2⟩

/-- C8 fails as stated: at the start of a match the fifth immediate fire
request is not refused (the handler's `tryFireBullet` reports success and the
ammo goes to 0, it does not stay 1), and 0.5 s later the ammo is 1, not 2. -/
theorem fifth_shot_is_not_refused :
    blueFireFlag (run sampleConfig matchStart (blueShots 4)) = some true ∧
    (run sampleConfig matchStart (blueShots 5)).blueTankObj.currentAmmo = 0 ∧
    (run sampleConfig matchStart (blueShots 5 ++ [Input.frame (1 / 2) noKeys zeroDraws])).blueTankObj.currentAmmo = 1 ∧
    ¬ (blueFireFlag (run sampleConfig matchStart (blueShots 4)) = some false ∧
       (run sampleConfig matchStart (blueShots 5)).blueTankObj.currentAmmo = 1 ∧
       (run sampleConfig matchStart (blueShots 5 ++ [Input.frame (1 / 2) noKeys zeroDraws])).blueTankObj.currentAmmo = 2) := by
  decide!

/-! ## Power-up expiry moves tanks without a collision test -/

/-- C1 fails on the code: at the start of the match no tank overlaps anything;
blue collects a power-up and drives up to (50, 436), still overlapping nothing;
in the next tick (15 s, no key pressed) the power-up runs out, `updatePowerUp`
moves blue's box to (40, 426), and after movement resolution it overlaps the
intact rock at (20, 400). -/
theorem expiry_pushes_tank_into_rock :
    Reachable sampleConfig beforeExpiry ∧
    noTankOverlap matchStart = true ∧
    beforeExpiry.currentState = GameState.GAME_PLAYING ∧
    beforeExpiry.blueTankObj.rect = ⟨50, 436, 40, 40⟩ ∧
    noTankOverlap beforeExpiry = true ∧
    (afterMovement 15 noKeys zeroDraws beforeExpiry).blueTankObj.rect = ⟨40, 426, 40, 40⟩ ∧
    collidesWithAny (afterMovement 15 noKeys zeroDraws beforeExpiry).blueTankObj.rect
      (afterMovement 15 noKeys zeroDraws beforeExpiry).rockObjects = true ∧
    noTankOverlap (afterMovement 15 noKeys zeroDraws beforeExpiry) = false :=
  ⟨reachable_run sampleConfig expiryTrace _ (Reachable.init zeroDraws) (by decide!), by decide!⟩

/-- C9 fails on the code: `killTrace` destroys the red tank while its power-up
is running (hp 0, box at (70, 382)); after leaving the winner screen through
the home button and starting again, the next tick of 15 s lets the power-up
run out and `updatePowerUp` moves the destroyed tank's box to (60, 372). -/
theorem destroyed_tank_moved_by_expiry :
    Reachable sampleConfig (run sampleConfig afterKill homeAndRestart) ∧
    afterKill.currentState = GameState.WINNER_SCREEN ∧
    afterKill.redTankObj.isDestroyed = true ∧
    afterKill.redTankObj.hp = 0 ∧
    afterKill.redTankObj.rect = ⟨70, 382, 40, 40⟩ ∧
    (run sampleConfig afterKill homeAndRestart).currentState = GameState.GAME_PLAYING ∧
    (run sampleConfig afterKill homeAndRestart).redTankObj.isDestroyed = true ∧
    (run sampleConfig afterKill homeAndRestart).redTankObj.rect = ⟨60, 372, 40, 40⟩ :=
  ⟨reachable_run sampleConfig homeAndRestart _
      (reachable_run sampleConfig killTrace _ (Reachable.init zeroDraws) (by decide!)) (by decide!),
    by decide!⟩

/-! ## Shield reflection and power boxes (function level) -/

theorem reflectBullet_rotation (b : Bullet) :
    (reflectBullet b).rotation =
      if f32 (b.rotation + 180) ≥ 360 then f32 (f32 (b.rotation + 180) - 360)
      else f32 (b.rotation + 180) := by
  unfold reflectBullet
  dsimp only
  split_ifs <;> rfl

/-- C11 fails as stated: the `float` 30.48 (7990149 / 262144) reflected twice
is the `float` 30.47998 (62423 / 2048); the owner is the original one, but the
direction is not the original plus a whole multiple of 360, because both
additions of 180 round. -/
theorem double_reflection_drifts :
    f32 (3048 / 100) = 7990149 / 262144 ∧
    (reflectBullet (reflectBullet { sampleBlueBullet with rotation := f32 (3048 / 100) })).owner = 0 ∧
    (reflectBullet (reflectBullet { sampleBlueBullet with rotation := f32 (3048 / 100) })).rotation =
      62423 / 2048 ∧
    ¬ ∃ k : Int,
      (reflectBullet (reflectBullet { sampleBlueBullet with rotation := f32 (3048 / 100) })).rotation =
        ({ sampleBlueBullet with rotation := f32 (3048 / 100) } : Bullet).rotation + 360 * (k : ℚ) := by
  have h1 : f32 (3048 / 100) = 7990149 / 262144 := by decide!
  have h2 : (reflectBullet (reflectBullet { sampleBlueBullet with rotation := f32 (3048 / 100) })).rotation =
      62423 / 2048 := by decide!
  refine ⟨h1, by decide!, h2, ?_⟩
  rintro ⟨k, hk⟩
  rw [h2] at hk
  have h3 : ({ sampleBlueBullet with rotation := f32 (3048 / 100) } : Bullet).rotation = 7990149 / 262144 := h1
  rw [h3] at hk
  have h4 : (k : ℚ) * 94371840 = -5 := by linarith
  have h5 : k * 94371840 = -5 := by exact_mod_cast h4
  omega

/-- C11 as amended: for a bullet owned by tank 0 or 1, `reflectBullet` changes
only the owner, which flips (0 <-> 1), and the direction, which becomes the
`float` sum `rotation + 180`, less 360 (again in `float`) when that is `>= 360`;
applying it twice gives back the original owner and changes no field but the
direction; the direction then differs from the original by a whole multiple of
360 whenever `rotation`, `rotation +- 180` and `rotation +- 360` are `float`
values (as they are for whole degrees), so that no addition rounds. -/
theorem reflectBullet_flips (b : Bullet) (ho : b.owner = 0 ∨ b.owner = 1) :
    reflectBullet b =
      { b with
        owner := 1 - b.owner
        rotation :=
          if f32 (b.rotation + 180) ≥ 360 then f32 (f32 (b.rotation + 180) - 360)
          else f32 (b.rotation + 180) } ∧
    ((reflectBullet b).owner = 0 ∨ (reflectBullet b).owner = 1) ∧
    (reflectBullet b).owner ≠ b.owner ∧
    reflectBullet (reflectBullet b) =
      { b with rotation := (reflectBullet (reflectBullet b)).rotation } ∧
    ((∀ k ∈ [(-2 : Int), -1, 0, 1, 2], f32 (b.rotation + 180 * (k : ℚ)) = b.rotation + 180 * (k : ℚ)) →
      ∃ k : Int, (reflectBullet (reflectBullet b)).rotation = b.rotation + 360 * (k : ℚ)) := by
  have h1 : reflectBullet b =
      { b with
        owner := 1 - b.owner
        rotation :=
          if f32 (b.rotation + 180) ≥ 360 then f32 (f32 (b.rotation + 180) - 360)
          else f32 (b.rotation + 180) } := by
    unfold reflectBullet
    dsimp only
    rcases ho with h | h <;> split_ifs <;> simp_all
  refine ⟨h1, ?_, ?_, ?_, ?_⟩
  · rw [h1]
    rcases ho with h | h <;> simp [h]
  · rw [h1]
    rcases ho with h | h <;> simp [h]
  · unfold reflectBullet
    dsimp only
    rcases ho with h | h <;> split_ifs <;> simp_all
  · intro hex
    have em2 : f32 (b.rotation - 360) = b.rotation - 360 := by
      have := hex (-2) (by decide)
      have e : b.rotation + 180 * (((-2 : Int) : ℚ)) = b.rotation - 360 := by push_cast; ring
      rw [e] at this
      exact this
    have em1 : f32 (b.rotation - 180) = b.rotation - 180 := by
      have := hex (-1) (by decide)
      have e : b.rotation + 180 * (((-1 : Int) : ℚ)) = b.rotation - 180 := by push_cast; ring
      rw [e] at this
      exact this
    have e0 : f32 b.rotation = b.rotation := by
      have := hex 0 (by decide)
      have e : b.rotation + 180 * (((0 : Int) : ℚ)) = b.rotation := by push_cast; ring
      rw [e] at this
      exact this
    have e1 : f32 (b.rotation + 180) = b.rotation + 180 := by
      have := hex 1 (by decide)
      have e : b.rotation + 180 * (((1 : Int) : ℚ)) = b.rotation + 180 := by push_cast; ring
      rw [e] at this
      exact this
    have e2 : f32 (b.rotation + 360) = b.rotation + 360 := by
      have := hex 2 (by decide)
      have e : b.rotation + 180 * (((2 : Int) : ℚ)) = b.rotation + 360 := by push_cast; ring
      rw [e] at this
      exact this
    rw [reflectBullet_rotation (reflectBullet b), reflectBullet_rotation b, e1]
    by_cases c1 : b.rotation + 180 ≥ 360
    · rw [if_pos c1]
      have a1 : f32 (b.rotation + 180 - 360) = b.rotation - 180 := by
        rw [show b.rotation + 180 - 360 = b.rotation - 180 by ring]
        exact em1
      rw [a1]
      have a2 : f32 (b.rotation - 180 + 180) = b.rotation := by
        rw [show b.rotation - 180 + 180 = b.rotation by ring]
        exact e0
      rw [a2]
      by_cases c2 : b.rotation ≥ 360
      · rw [if_pos c2, em2]
        exact ⟨-1, by push_cast; ring⟩
      · rw [if_neg c2]
        exact ⟨0, by push_cast; ring⟩
    · rw [if_neg c1]
      have a2 : f32 (b.rotation + 180 + 180) = b.rotation + 360 := by
        rw [show b.rotation + 180 + 180 = b.rotation + 360 by ring]
        exact e2
      rw [a2]
      by_cases c2 : b.rotation + 360 ≥ 360
      · rw [if_pos c2]
        have a3 : f32 (b.rotation + 360 - 360) = b.rotation := by
          rw [show b.rotation + 360 - 360 = b.rotation by ring]
          exact e0
        rw [a3]
        exact ⟨0, by push_cast; ring⟩
      · rw [if_neg c2]
        exact ⟨1, by push_cast; ring⟩

/-- Witness of the amended C11: a blue bullet flying at 270 degrees. -/
theorem reflectBullet_flips_witness :
    reflectBullet { sampleBlueBullet with rotation := 270 } =
      { sampleBlueBullet with owner := 1, rotation := 90 } ∧
    reflectBullet (reflectBullet { sampleBlueBullet with rotation := 270 }) =
      { sampleBlueBullet with rotation := 270 } ∧
    (∃ k : Int, (reflectBullet (reflectBullet { sampleBlueBullet with rotation := 270 })).rotation =
      ({ sampleBlueBullet with rotation := 270 } : Bullet).rotation + 360 * (k : ℚ)) :=
  have h := reflectBullet_flips { sampleBlueBullet with rotation := 270 } (Or.inl rfl)
  ⟨h.1.trans (by decide!), h.2.2.2.1.trans (by decide!), h.2.2.2.2 (by decide!)⟩

/-- C14: when a non-destroyed tank overlaps an active power box of the power-up
type, `checkPowerBoxCollection` returns `true`, deactivates the box and leaves
the shield alone; a tank without an active power-up gets `hasPower`,
`powerTimer = 15`, twice its speed and its previous speed, width and height
saved, while a tank with an active power-up is returned unchanged.  When the
box is inactive or the tank destroyed it returns `false` and changes nothing. -/
theorem powerup_box_collection (powerBox : PowerBox) (tank : Tank) (shield : Shield) (tankOwner : Int) :
    (powerBox.active = true → tank.isDestroyed = false →
      checkTankCollision tank.rect powerBox.rect = true → powerBox.boxType = 1 →
      (checkPowerBoxCollection powerBox tank shield tankOwner).1 = true ∧
      (checkPowerBoxCollection powerBox tank shield tankOwner).2.1 = { powerBox with active := false } ∧
      (checkPowerBoxCollection powerBox tank shield tankOwner).2.2.2 = shield ∧
      (tank.hasPower = false →
        (checkPowerBoxCollection powerBox tank shield tankOwner).2.2.1 =
          { tank with
            hasPower := true
            powerTimer := 15
            originalSpeed := tank.speed
            originalWidth := tank.rect.w
            originalHeight := tank.rect.h
            speed := 2 * tank.speed }) ∧
      (tank.hasPower = true →
        (checkPowerBoxCollection powerBox tank shield tankOwner).2.2.1 = tank)) ∧
    ((powerBox.active = false ∨ tank.isDestroyed = true) →
      checkPowerBoxCollection powerBox tank shield tankOwner = (false, powerBox, tank, shield)) := by
  constructor
  · intro hact halive hov htype
    have hov2 : (decide (tank.rect.x < powerBox.rect.x + powerBox.rect.w) &&
        decide (tank.rect.x + tank.rect.w > powerBox.rect.x) &&
        decide (tank.rect.y < powerBox.rect.y + powerBox.rect.h) &&
        decide (tank.rect.y + tank.rect.h > powerBox.rect.y)) = true := hov
    have hne : ¬ powerBox.boxType = 0 := by rw [htype]; decide
    have e : checkPowerBoxCollection powerBox tank shield tankOwner =
        (true, { powerBox with active := false }, activatePowerUp tank, shield) := by
      unfold checkPowerBoxCollection
      simp only [hact, halive, Bool.not_true, Bool.or_self, Bool.false_eq_true, if_false, hov2, if_true, hne]
    rw [e]
    refine ⟨rfl, rfl, rfl, ?_, ?_⟩
    · intro hp
      simp [activatePowerUp, hp, mul_comm]
    · intro hp
      simp [activatePowerUp, hp]
  · intro h
    unfold checkPowerBoxCollection
    rcases h with h | h <;> simp [h]

/-- Witness of C14: the blue tank of a fresh match on a power-up box. -/
theorem powerup_box_collection_witness :
    (checkPowerBoxCollection
        { rect := ⟨60, 440, 20, 20⟩, active := true, spawnTimer := 0, disappearTimer := 5, spawnCount := 1, boxType := 1 }
        (initialBlueTank sampleConfig) matchStart.shield 0).2.2.1.speed = 2 * 2 ∧
    checkPowerBoxCollection
        { rect := ⟨60, 440, 20, 20⟩, active := false, spawnTimer := 0, disappearTimer := 5, spawnCount := 1, boxType := 1 }
        (initialBlueTank sampleConfig) matchStart.shield 0 =
      (false,
        { rect := ⟨60, 440, 20, 20⟩, active := false, spawnTimer := 0, disappearTimer := 5, spawnCount := 1, boxType := 1 },
        initialBlueTank sampleConfig, matchStart.shield) :=
  ⟨congrArg Tank.speed
      (((powerup_box_collection
        { rect := ⟨60, 440, 20, 20⟩, active := true, spawnTimer := 0, disappearTimer := 5, spawnCount := 1, boxType := 1 }
        (initialBlueTank sampleConfig) matchStart.shield 0).1 rfl rfl (by decide) rfl).2.2.2.1 rfl),
   (powerup_box_collection
        { rect := ⟨60, 440, 20, 20⟩, active := false, spawnTimer := 0, disappearTimer := 5, spawnCount := 1, boxType := 1 }
        (initialBlueTank sampleConfig) matchStart.shield 0).2 (Or.inl rfl)⟩

/-- C17: when a non-destroyed tank overlaps an active power box of the shield
type, then whatever the shield slot held before, the box ends inactive, the
tank is unchanged, and the shield slot is active with the collecting tank as
owner, timer 0 and duration 30; `hasActiveShield` holds for that tank and for
no other index. -/
theorem shield_box_collection (powerBox : PowerBox) (tank : Tank) (shield : Shield)
    (tankOwner other : Int)
    (hact : powerBox.active = true) (halive : tank.isDestroyed = false)
    (hov : checkTankCollision tank.rect powerBox.rect = true) (htype : powerBox.boxType = 0)
    (hother : other ≠ tankOwner) :
    (checkPowerBoxCollection powerBox tank shield tankOwner).1 = true ∧
    (checkPowerBoxCollection powerBox tank shield tankOwner).2.1 = { powerBox with active := false } ∧
    (checkPowerBoxCollection powerBox tank shield tankOwner).2.2.1 = tank ∧
    (checkPowerBoxCollection powerBox tank shield tankOwner).2.2.2 =
      { active := true, timer := 0, duration := 30, owner := tankOwner } ∧
    hasActiveShield (checkPowerBoxCollection powerBox tank shield tankOwner).2.2.2 tankOwner = true ∧
    hasActiveShield (checkPowerBoxCollection powerBox tank shield tankOwner).2.2.2 other = false := by
  have hov2 : (decide (tank.rect.x < powerBox.rect.x + powerBox.rect.w) &&
      decide (tank.rect.x + tank.rect.w > powerBox.rect.x) &&
      decide (tank.rect.y < powerBox.rect.y + powerBox.rect.h) &&
      decide (tank.rect.y + tank.rect.h > powerBox.rect.y)) = true := hov
  have e : checkPowerBoxCollection powerBox tank shield tankOwner =
      (true, { powerBox with active := false }, tank, activateShield shield tankOwner) := by
    unfold checkPowerBoxCollection
    simp only [hact, halive, Bool.not_true, Bool.or_self, Bool.false_eq_true, if_false, hov2, if_true, htype]
  rw [e]
  refine ⟨rfl, rfl, rfl, rfl, ?_, ?_⟩
  · simp [hasActiveShield, activateShield]
  · simp [hasActiveShield, activateShield]
    exact fun h => hother h.symm

/-- Witness of C17: the red tank takes a shield box while blue holds the shield. -/
theorem shield_box_collection_witness :
    hasActiveShield
      (checkPowerBoxCollection
        { rect := ⟨830, 60, 20, 20⟩, active := true, spawnTimer := 0, disappearTimer := 5, spawnCount := 2, boxType := 0 }
        (initialRedTank sampleConfig) { active := true, timer := 3, duration := 30, owner := 0 } 1).2.2.2 1 = true ∧
    hasActiveShield
      (checkPowerBoxCollection
        { rect := ⟨830, 60, 20, 20⟩, active := true, spawnTimer := 0, disappearTimer := 5, spawnCount := 2, boxType := 0 }
        (initialRedTank sampleConfig) { active := true, timer := 3, duration := 30, owner := 0 } 1).2.2.2 0 = false :=
  have h := shield_box_collection
    { rect := ⟨830, 60, 20, 20⟩, active := true, spawnTimer := 0, disappearTimer := 5, spawnCount := 2, boxType := 0 }
    (initialRedTank sampleConfig) { active := true, timer := 3, duration := 30, owner := 0 } 1 0
    rfl rfl (by decide) rfl (by decide)
  ⟨h.2.2.2.2.1, h.2.2.2.2.2⟩

/-- C16 fails on the code: a 40x40 tank at (50, 450) that activates a power-up
and lets it run out without moving ends with its box at (40, 440): expiry
subtracts a quarter of the stored width and height from the position, which
activation never added. -/
theorem expiry_does_not_restore_box :
    (initialBlueTank sampleConfig).rect = ⟨50, 450, 40, 40⟩ ∧
    (activatePowerUp (initialBlueTank sampleConfig)).rect = ⟨50, 450, 40, 40⟩ ∧
    (updatePowerUp (activatePowerUp (initialBlueTank sampleConfig)) 15).hasPower = false ∧
    (updatePowerUp (activatePowerUp (initialBlueTank sampleConfig)) 15).rect = ⟨40, 440, 40, 40⟩ ∧
    (updatePowerUp (updatePowerUp (activatePowerUp (initialBlueTank sampleConfig)) 7) 8).rect =
      ⟨40, 440, 40, 40⟩ := by
  decide!

/-! ## Power-up timing -/

theorem updatePowerUp_idle (t : Tank) (h : t.hasPower = false) (dts : List ℚ) :
    dts.foldl updatePowerUp t = t := by
  induction dts with
  | nil => rfl
  | cons d ds ih =>
    have e : updatePowerUp t d = t := by simp [updatePowerUp, h]
    simp only [List.foldl_cons, e, ih]

theorem updatePowerUp_running (v : ℚ) (dts : List ℚ) (t : Tank)
    (hp : t.hasPower = true) (hs : t.speed = 2 * v) (ho : t.originalSpeed = v) :
    ((∀ n, n < dts.length → 0 < countdown t.powerTimer (dts.take (n + 1))) →
      (dts.foldl updatePowerUp t).speed = 2 * v ∧ (dts.foldl updatePowerUp t).hasPower = true ∧
      (dts.foldl updatePowerUp t).powerTimer = countdown t.powerTimer dts) ∧
    ((∃ n, n < dts.length ∧ countdown t.powerTimer (dts.take (n + 1)) ≤ 0) →
      (dts.foldl updatePowerUp t).speed = v ∧ (dts.foldl updatePowerUp t).hasPower = false) := by
  induction dts generalizing t with
  | nil =>
    constructor
    · intro _; exact ⟨hs, hp, rfl⟩
    · rintro ⟨n, hn, -⟩
      simp at hn
  | cons d ds ih =>
    have hcd : ∀ l : List ℚ, countdown t.powerTimer (d :: l) = countdown (f32 (t.powerTimer - d)) l :=
      fun l => rfl
    simp only [List.foldl_cons]
    by_cases hx : f32 (t.powerTimer - d) ≤ 0
    · have e : updatePowerUp t d =
          { t with
            powerTimer := f32 (t.powerTimer - d)
            speed := t.originalSpeed
            rect :=
              { x := t.rect.x - Int.tdiv t.originalWidth 4
                y := t.rect.y - Int.tdiv t.originalHeight 4
                w := t.originalWidth
                h := t.originalHeight }
            hasPower := false } := by
        simp [updatePowerUp, hp, hx]
      rw [e, updatePowerUp_idle _ rfl]
      constructor
      · intro h
        have h0 := h 0 (by simp)
        rw [List.take_succ_cons, List.take_zero, hcd] at h0
        exact absurd h0 (not_lt.mpr hx)
      · intro _
        exact ⟨ho, rfl⟩
    · have e : updatePowerUp t d = { t with powerTimer := f32 (t.powerTimer - d) } := by
        simp [updatePowerUp, hp, hx]
      rw [e]
      have := ih { t with powerTimer := f32 (t.powerTimer - d) } hp hs ho
      constructor
      · intro h
        have h2 := this.1 (fun n hn => by
          have := h (n + 1) (by simp only [List.length_cons]; omega)
          rw [List.take_succ_cons, hcd] at this
          exact this)
        exact ⟨h2.1, h2.2.1, h2.2.2.trans (hcd ds).symm⟩
      · rintro ⟨n, hn, hle⟩
        cases n with
        | zero =>
          rw [List.take_succ_cons, List.take_zero, hcd] at hle
          exact absurd hle hx
        | succ m =>
          rw [List.take_succ_cons, hcd] at hle
          exact this.2 ⟨m, by simp only [List.length_cons] at hn; omega, hle⟩

theorem countdown_exact (start : ℚ) (dts : List ℚ)
    (h : ∀ n, n < dts.length →
      f32 (start - (dts.take (n + 1)).sum) = start - (dts.take (n + 1)).sum) :
    countdown start dts = start - dts.sum := by
  induction dts generalizing start with
  | nil => simp [countdown]
  | cons d ds ih =>
    have h0 := h 0 (by simp)
    simp only [List.take_succ_cons, List.take_zero, List.sum_cons, List.sum_nil, add_zero] at h0
    have hcd : countdown start (d :: ds) = countdown (f32 (start - d)) ds := rfl
    rw [hcd, h0, ih (start - d) (fun n hn => by
      have := h (n + 1) (by simp only [List.length_cons]; omega)
      simp only [List.take_succ_cons, List.sum_cons] at this
      rw [sub_sub]
      exact this)]
    simp only [List.sum_cons]
    ring

/-- C15 fails as stated.  After a frame of 10 ms and a frame of 14990 ms
(`deltaTime` is the `float` 0.01, then the `float` 14.99) the summed `deltaTime`
is still below 15, yet the power-up of the red tank has run out: `hasPower` is
false and the speed is back at 2.  After 75 frames of 200 ms the sum has
reached 15, yet the power-up is still running with speed 4.  The code counts a
`float` timer down from 15, and the subtractions round. -/
theorem powerup_expiry_misses_15_seconds :
    (initialRedTank sampleConfig).hasPower = false ∧
    (initialRedTank sampleConfig).speed = 2 ∧
    (∀ d ∈ [f32 (10 / 1000), f32 (14990 / 1000)], 0 ≤ d) ∧
    ([f32 (10 / 1000), f32 (14990 / 1000)] : List ℚ).sum < 15 ∧
    (([f32 (10 / 1000), f32 (14990 / 1000)] : List ℚ).foldl updatePowerUp
      (activatePowerUp (initialRedTank sampleConfig))).hasPower = false ∧
    (([f32 (10 / 1000), f32 (14990 / 1000)] : List ℚ).foldl updatePowerUp
      (activatePowerUp (initialRedTank sampleConfig))).speed = 2 ∧
    (∀ d ∈ List.replicate 75 (f32 (200 / 1000)), 0 ≤ d) ∧
    15 ≤ (List.replicate 75 (f32 (200 / 1000))).sum ∧
    ((List.replicate 75 (f32 (200 / 1000))).foldl updatePowerUp
      (activatePowerUp (initialRedTank sampleConfig))).hasPower = true ∧
    ((List.replicate 75 (f32 (200 / 1000))).foldl updatePowerUp
      (activatePowerUp (initialRedTank sampleConfig))).speed = 4 := by
  decide!

/-- C15 as amended: a tank without an active power-up that activates one and
then goes through any sequence of `updatePowerUp` calls has twice its pre-buff
speed (and `hasPower`) as long as the `float` timer, counted down from 15 by
the `deltaTime`s with every subtraction rounded, is above 0 after every call,
and exactly its pre-buff speed (and no `hasPower`) from the first call at which
that timer is 0 or below, however the time is split into calls.  When no
subtraction rounds, the timer is 15 minus the summed `deltaTime`. -/
theorem powerup_lasts_15_seconds (tank : Tank) (dts : List ℚ) (hnp : tank.hasPower = false) :
    ((∀ n, n < dts.length → 0 < countdown 15 (dts.take (n + 1))) →
      (dts.foldl updatePowerUp (activatePowerUp tank)).speed = 2 * tank.speed ∧
      (dts.foldl updatePowerUp (activatePowerUp tank)).hasPower = true ∧
      (dts.foldl updatePowerUp (activatePowerUp tank)).powerTimer = countdown 15 dts) ∧
    ((∃ n, n < dts.length ∧ countdown 15 (dts.take (n + 1)) ≤ 0) →
      (dts.foldl updatePowerUp (activatePowerUp tank)).speed = tank.speed ∧
      (dts.foldl updatePowerUp (activatePowerUp tank)).hasPower = false) ∧
    ((∀ n, n < dts.length → f32 (15 - (dts.take (n + 1)).sum) = 15 - (dts.take (n + 1)).sum) →
      countdown 15 dts = 15 - dts.sum) := by
  have e : activatePowerUp tank =
      { tank with
        hasPower := true
        powerTimer := 15
        originalSpeed := tank.speed
        originalWidth := tank.rect.w
        originalHeight := tank.rect.h
        speed := tank.speed * 2 } := by
    simp [activatePowerUp, hnp]
  have h := updatePowerUp_running tank.speed dts (activatePowerUp tank)
    (by rw [e]) (by rw [e]; simp only; ring) (by rw [e])
  have hT : (activatePowerUp tank).powerTimer = 15 := by rw [e]
  rw [hT] at h
  exact ⟨h.1, h.2, countdown_exact 15 dts⟩

/-- Witness of the amended C15: the red tank of a fresh match, 15 s split as
7 + 7.5 + 0.5 and the first 14.5 s of it. -/
theorem powerup_lasts_15_seconds_witness :
    ((([7, 15 / 2] : List ℚ).foldl updatePowerUp (activatePowerUp (initialRedTank sampleConfig))).speed = 2 * 2 ∧
     (([7, 15 / 2] : List ℚ).foldl updatePowerUp (activatePowerUp (initialRedTank sampleConfig))).hasPower = true) ∧
    ((([7, 15 / 2, 1 / 2] : List ℚ).foldl updatePowerUp (activatePowerUp (initialRedTank sampleConfig))).speed = 2 ∧
     (([7, 15 / 2, 1 / 2] : List ℚ).foldl updatePowerUp (activatePowerUp (initialRedTank sampleConfig))).hasPower
       = false) ∧
    countdown 15 [7, 15 / 2, 1 / 2] = 15 - ([7, 15 / 2, 1 / 2] : List ℚ).sum :=
  have h1 := (powerup_lasts_15_seconds (initialRedTank sampleConfig) [7, 15 / 2] rfl).1 (by decide!)
  have h2 := (powerup_lasts_15_seconds (initialRedTank sampleConfig) [7, 15 / 2, 1 / 2] rfl).2.1 (by decide!)
  have h3 := (powerup_lasts_15_seconds (initialRedTank sampleConfig) [7, 15 / 2, 1 / 2] rfl).2.2 (by decide!)
  ⟨⟨h1.1, h1.2.1⟩, h2, h3⟩

/-! ## Spawning the power box -/

theorem samplePowerBoxRect_range (rnd : Nat → Nat) (k : Nat) :
    (samplePowerBoxRect rnd k).w = 20 ∧ (samplePowerBoxRect rnd k).h = 20 ∧
    50 ≤ (samplePowerBoxRect rnd k).x ∧ (samplePowerBoxRect rnd k).x ≤ 860 ∧
    50 ≤ (samplePowerBoxRect rnd k).y ∧ (samplePowerBoxRect rnd k).y ≤ 440 := by
  have hx : ∀ n : Nat, 0 ≤ Int.tmod (n : Int) 811 ∧ Int.tmod (n : Int) 811 < 811 := by
    intro n
    rw [Int.tmod_eq_emod (Int.ofNat_nonneg n) (by decide)]
    exact ⟨Int.emod_nonneg _ (by decide), Int.emod_lt_of_pos _ (by decide)⟩
  have hy : ∀ n : Nat, 0 ≤ Int.tmod (n : Int) 391 ∧ Int.tmod (n : Int) 391 < 391 := by
    intro n
    rw [Int.tmod_eq_emod (Int.ofNat_nonneg n) (by decide)]
    exact ⟨Int.emod_nonneg _ (by decide), Int.emod_lt_of_pos _ (by decide)⟩
  have e1 : (860 : Int) - 50 + 1 = 811 := by decide
  have e2 : (440 : Int) - 50 + 1 = 391 := by decide
  simp only [samplePowerBoxRect, random, e1, e2]
  have h1 := hx (rnd (2 * k))
  have h2 := hy (rnd (2 * k + 1))
  refine ⟨trivial, trivial, ?_, ?_, ?_, ?_⟩ <;> omega

theorem spawnSearch_spec (rnd : Nat → Nat) (blocked : Rect → Bool) (fuel a : Nat)
    (hf : 49 ≤ a + fuel) (ha : a ≤ 49) :
    ∃ k, a ≤ k ∧ k ≤ 49 ∧ spawnSearch rnd blocked fuel a = samplePowerBoxRect rnd k ∧
      (∀ j, a ≤ j → j < k → blocked (samplePowerBoxRect rnd j) = true) ∧
      (blocked (samplePowerBoxRect rnd k) = false ∨ k = 49) := by
  induction fuel generalizing a with
  | zero =>
    have : a = 49 := by omega
    subst this
    exact ⟨49, le_refl _, le_refl _, rfl, fun j h1 h2 => absurd h2 (by omega), Or.inr rfl⟩
  | succ n ih =>
    unfold spawnSearch
    dsimp only
    by_cases hb : blocked (samplePowerBoxRect rnd a) = true
    · by_cases hlt : a + 1 < 50
      · obtain ⟨k, hk1, hk2, hk3, hk4, hk5⟩ := ih (a + 1) (by omega) (by omega)
        refine ⟨k, by omega, hk2, ?_, ?_, hk5⟩
        · simp [hb, hlt, hk3]
        · intro j hj1 hj2
          by_cases hja : j = a
          · rw [hja]; exact hb
          · exact hk4 j (by omega) hj2
      · have : a = 49 := by omega
        subst this
        refine ⟨49, le_refl _, le_refl _, ?_, fun j h1 h2 => absurd h2 (by omega), Or.inr rfl⟩
        simp [hb]
    · have hb2 : blocked (samplePowerBoxRect rnd a) = false := by simpa using hb
      refine ⟨a, le_refl _, ha, ?_, fun j h1 h2 => absurd h2 (by omega), Or.inl hb2⟩
      simp [hb2]

theorem spawnSearch_fuel (rnd : Nat → Nat) (blocked : Rect → Bool) (fuel : Nat) (hf : 50 ≤ fuel) :
    spawnSearch rnd blocked fuel 0 = spawnSearch rnd blocked 50 0 := by
  obtain ⟨k, -, hk2, hk3, hk4, hk5⟩ := spawnSearch_spec rnd blocked fuel 0 (by omega) (by omega)
  obtain ⟨m, -, hm2, hm3, hm4, hm5⟩ := spawnSearch_spec rnd blocked 50 0 (by omega) (by omega)
  have hkm : k = m := by
    rcases Nat.lt_trichotomy k m with h | h | h
    · have hb := hm4 k (Nat.zero_le _) h
      rcases hk5 with h5 | h5
      · rw [hb] at h5; exact absurd h5 (by decide)
      · omega
    · exact h
    · have hb := hk4 m (Nat.zero_le _) h
      rcases hm5 with h5 | h5
      · rw [hb] at h5; exact absurd h5 (by decide)
      · omega
  rw [hk3, hm3, hkm]

theorem spawnPowerBox_eq (rnd : Nat → Nat) (powerBox : PowerBox) (grassObjects rockObjects : List GameObject)
    (blueTank redTank : Tank) (h : powerBox.active = false) :
    spawnPowerBox rnd powerBox grassObjects rockObjects blueTank redTank =
      { powerBox with
        spawnCount := powerBox.spawnCount + 1
        boxType := Int.tmod (powerBox.spawnCount + 1) 2
        rect := spawnSearch rnd (spawnBlocked grassObjects rockObjects blueTank redTank) 50 0
        active := true
        disappearTimer := 5 } := by
  unfold spawnPowerBox
  simp only [h, Bool.false_eq_true, if_false]
  rfl

/-! ## Induction over the bullet loop -/

theorem processBullet_induct (cfg : Config) (R : State → State → Prop) (hrefl : ∀ s, R s s)
    (htrans : ∀ a b c, R a b → R b c → R a c)
    (h1 : ∀ s b, R s (bulletTankStage s b).1) (h2 : ∀ s b, R s (bulletGrassStage s b).1)
    (h3 : ∀ s b, R s (bulletRockStage s b).1) (s : State) (b : Bullet) :
    R s (processBullet cfg s b).1 := by
  unfold processBullet
  dsimp only
  split_ifs
  · exact htrans _ _ _ (htrans _ _ _ (h1 _ _) (h2 _ _)) (h3 _ _)
  · exact hrefl s

theorem bulletLoop_induct (cfg : Config) (R : State → State → Prop) (hrefl : ∀ s, R s s)
    (htrans : ∀ a b c, R a b → R b c → R a c)
    (h1 : ∀ s b, R s (bulletTankStage s b).1) (h2 : ∀ s b, R s (bulletGrassStage s b).1)
    (h3 : ∀ s b, R s (bulletRockStage s b).1) (bs : List Bullet) (s : State) :
    R s (bulletLoop cfg bs s).1 := by
  induction bs generalizing s with
  | nil => exact hrefl s
  | cons b bs ih =>
    exact htrans _ _ _ (processBullet_induct cfg R hrefl htrans h1 h2 h3 s b) (ih _)

theorem bulletTankStage_frame (s : State) (b : Bullet) :
    (bulletTankStage s b).1.powerBox = s.powerBox ∧ (bulletTankStage s b).1.shield = s.shield ∧
    (bulletTankStage s b).1.grassObjects = s.grassObjects ∧
    (bulletTankStage s b).1.rockObjects = s.rockObjects := by
  unfold bulletTankStage
  dsimp only
  split_ifs <;> exact ⟨rfl, rfl, rfl, rfl⟩

theorem bulletGrassStage_frame (s : State) (b : Bullet) :
    (bulletGrassStage s b).1.powerBox = s.powerBox ∧ (bulletGrassStage s b).1.shield = s.shield ∧
    (bulletGrassStage s b).1.rockObjects = s.rockObjects ∧
    (bulletGrassStage s b).1.currentState = s.currentState ∧
    (bulletGrassStage s b).1.winner = s.winner ∧
    (bulletGrassStage s b).1.explosions = s.explosions := by
  unfold bulletGrassStage
  split
  · unfold awardObjectScore
    split_ifs <;> exact ⟨rfl, rfl, rfl, rfl, rfl, rfl⟩
  · exact ⟨rfl, rfl, rfl, rfl, rfl, rfl⟩

theorem bulletRockStage_frame (s : State) (b : Bullet) :
    (bulletRockStage s b).1.powerBox = s.powerBox ∧ (bulletRockStage s b).1.shield = s.shield ∧
    (bulletRockStage s b).1.grassObjects = s.grassObjects ∧
    (bulletRockStage s b).1.currentState = s.currentState ∧
    (bulletRockStage s b).1.winner = s.winner ∧
    (bulletRockStage s b).1.explosions = s.explosions := by
  unfold bulletRockStage
  split
  · unfold awardObjectScore
    split_ifs <;> exact ⟨rfl, rfl, rfl, rfl, rfl, rfl⟩
  · exact ⟨rfl, rfl, rfl, rfl, rfl, rfl⟩

theorem bulletLoop_powerBox (cfg : Config) (bs : List Bullet) (s : State) :
    (bulletLoop cfg bs s).1.powerBox = s.powerBox ∧ (bulletLoop cfg bs s).1.shield = s.shield :=
  bulletLoop_induct cfg (fun a b => b.powerBox = a.powerBox ∧ b.shield = a.shield)
    (fun _ => ⟨rfl, rfl⟩) (fun _ _ _ h1 h2 => ⟨h2.1.trans h1.1, h2.2.trans h1.2⟩)
    (fun s b => ⟨(bulletTankStage_frame s b).1, (bulletTankStage_frame s b).2.1⟩)
    (fun s b => ⟨(bulletGrassStage_frame s b).1, (bulletGrassStage_frame s b).2.1⟩)
    (fun s b => ⟨(bulletRockStage_frame s b).1, (bulletRockStage_frame s b).2.1⟩) bs s

theorem frame_powerBox (cfg : Config) (dt : ℚ) (keys : Keys) (rnd : Nat → Nat) (s : State)
    (hp : s.currentState = GameState.GAME_PLAYING) :
    (frame cfg dt keys rnd s).powerBox = (preMove dt rnd s).powerBox ∧
    (frame cfg dt keys rnd s).shield = (preMove dt rnd s).shield := by
  unfold frame
  rw [if_pos hp]
  exact bulletLoop_powerBox cfg _ _

theorem checkPowerBoxCollection_spawnCount (pb : PowerBox) (t : Tank) (sh : Shield) (i : Int) :
    (checkPowerBoxCollection pb t sh i).2.1.spawnCount = pb.spawnCount ∧
    (checkPowerBoxCollection pb t sh i).2.1.boxType = pb.boxType := by
  unfold checkPowerBoxCollection
  dsimp only
  split_ifs <;> exact ⟨rfl, rfl⟩

theorem updatePowerBoxSpawning_spawnCount (rnd : Nat → Nat) (pb : PowerBox) (dt : ℚ)
    (g k : List GameObject) (b r : Tank) (h : 0 ≤ pb.spawnCount) :
    0 ≤ (updatePowerBoxSpawning rnd pb dt g k b r).spawnCount := by
  unfold updatePowerBoxSpawning
  dsimp only
  split_ifs with h1 h2 h3
  · exact h
  · exact h
  · have hact : ({ pb with spawnTimer := f32 (pb.spawnTimer + dt) } : PowerBox).active = false := by
      simpa using h1
    rw [spawnPowerBox_eq _ _ _ _ _ _ hact]
    simp only
    omega
  · exact h

theorem spawnCount_nonneg_step (cfg : Config) (s : State) (i : Input) (h : 0 ≤ s.powerBox.spawnCount) :
    0 ≤ (step cfg s i).powerBox.spawnCount := by
  cases i with
  | mouseDown mx my rnd =>
    simp only [step, handleMouseDown]
    split <;> first | exact h | (split_ifs <;> exact h)
  | keyDown key =>
    simp only [step, handleKeyDown]
    split_ifs <;> exact h
  | frame dt keys rnd =>
    simp only [step]
    by_cases hp : s.currentState = GameState.GAME_PLAYING
    · rw [(frame_powerBox cfg dt keys rnd s hp).1]
      unfold preMove
      dsimp only
      rw [(checkPowerBoxCollection_spawnCount _ _ _ _).1, (checkPowerBoxCollection_spawnCount _ _ _ _).1]
      exact updatePowerBoxSpawning_spawnCount _ _ _ _ _ _ _ h
    · unfold frame
      rw [if_neg hp]
      exact h

theorem reachable_spawnCount (cfg : Config) (s : State) (h : Reachable cfg s) :
    0 ≤ s.powerBox.spawnCount := by
  induction h with
  | init rnd => exact le_refl _
  | next s i _ _ ih => exact spawnCount_nonneg_step cfg s i ih

/-- C18: `spawnPowerBox` on an inactive box adds exactly 1 to `spawnCount` and
sets `boxType` from the parity of the new count (even: shield 0, odd: power-up
1), the count being non-negative as it is in every reachable state.  So the
first box of a session (count 0 -> 1) is a power-up, and the next spawn after
any spawn has the other type.  On an active box it changes nothing. -/
theorem spawn_type_alternates (rnd : Nat → Nat) (powerBox : PowerBox)
    (grassObjects rockObjects : List GameObject) (blueTank redTank : Tank) :
    (powerBox.active = false → 0 ≤ powerBox.spawnCount →
      (spawnPowerBox rnd powerBox grassObjects rockObjects blueTank redTank).spawnCount =
        powerBox.spawnCount + 1 ∧
      (spawnPowerBox rnd powerBox grassObjects rockObjects blueTank redTank).boxType =
        (if 2 ∣ (powerBox.spawnCount + 1) then 0 else 1)) ∧
    (powerBox.active = false → powerBox.spawnCount = 0 →
      (spawnPowerBox rnd powerBox grassObjects rockObjects blueTank redTank).boxType = 1) ∧
    (powerBox.active = false → 0 ≤ powerBox.spawnCount →
      ∀ (rnd2 : Nat → Nat) (next : PowerBox) (grass2 rock2 : List GameObject) (blue2 red2 : Tank),
        next.active = false →
        next.spawnCount = (spawnPowerBox rnd powerBox grassObjects rockObjects blueTank redTank).spawnCount →
        (spawnPowerBox rnd2 next grass2 rock2 blue2 red2).boxType =
          1 - (spawnPowerBox rnd powerBox grassObjects rockObjects blueTank redTank).boxType) ∧
    (powerBox.active = true →
      spawnPowerBox rnd powerBox grassObjects rockObjects blueTank redTank = powerBox) ∧
    (∀ (cfg : Config) (s : State), Reachable cfg s → 0 ≤ s.powerBox.spawnCount) := by
  have htype : ∀ n : Int, 0 ≤ n → Int.tmod (n + 1) 2 = if 2 ∣ (n + 1) then 0 else 1 := by
    intro n hn
    rw [Int.tmod_eq_emod (by omega) (by decide)]
    split_ifs with h <;> omega
  refine ⟨?_, ?_, ?_, ?_, ?_⟩
  · intro h hn
    rw [spawnPowerBox_eq _ _ _ _ _ _ h]
    exact ⟨rfl, htype _ hn⟩
  · intro h h0
    rw [spawnPowerBox_eq _ _ _ _ _ _ h]
    simp only [h0]
    decide
  · intro h hn rnd2 next grass2 rock2 blue2 red2 hnext hcount
    rw [spawnPowerBox_eq _ _ _ _ _ _ h] at hcount ⊢
    rw [spawnPowerBox_eq _ _ _ _ _ _ hnext]
    simp only at hcount ⊢
    rw [hcount, htype _ hn, htype _ (by omega)]
    split_ifs with h1 h2 h2 <;> omega
  · intro h
    simp [spawnPowerBox, h]
  · exact fun cfg s hs => reachable_spawnCount cfg s hs

/-- Witness of C18: the first two spawns of a session. -/
theorem spawn_type_alternates_witness :
    (spawnPowerBox zeroDraws matchStart.powerBox matchStart.grassObjects matchStart.rockObjects
        matchStart.blueTankObj matchStart.redTankObj).spawnCount = 0 + 1 ∧
    (spawnPowerBox zeroDraws matchStart.powerBox matchStart.grassObjects matchStart.rockObjects
        matchStart.blueTankObj matchStart.redTankObj).boxType = 1 ∧
    (spawnPowerBox zeroDraws
        { spawnPowerBox zeroDraws matchStart.powerBox matchStart.grassObjects matchStart.rockObjects
            matchStart.blueTankObj matchStart.redTankObj with active := false }
        matchStart.grassObjects matchStart.rockObjects matchStart.blueTankObj matchStart.redTankObj).boxType
      = 1 - 1 :=
  have h := spawn_type_alternates zeroDraws matchStart.powerBox matchStart.grassObjects
    matchStart.rockObjects matchStart.blueTankObj matchStart.redTankObj
  ⟨(h.1 rfl (by decide)).1, h.2.1 rfl rfl,
    h.2.2.1 rfl (by decide) zeroDraws _ matchStart.grassObjects matchStart.rockObjects
      matchStart.blueTankObj matchStart.redTankObj rfl rfl⟩

/-- C19: on an inactive box, the position search of `spawnPowerBox` ends by
its own exit test within 50 samples (more fuel than 50 never changes the
result); the position it returns is sample number `k` for some `k < 50`, all
earlier samples having been blocked; every sample is a 20x20 box with x in
[50, 860] and y in [50, 440]; the box is activated with disappear timer 5; and
its position overlaps no non-destroyed obstacle and neither tank's box, unless
all 50 samples were blocked. -/
theorem spawn_position_search (rnd : Nat → Nat) (powerBox : PowerBox)
    (grassObjects rockObjects : List GameObject) (blueTank redTank : Tank)
    (hinact : powerBox.active = false) :
    (∀ fuel, 50 ≤ fuel →
      spawnSearch rnd (spawnBlocked grassObjects rockObjects blueTank redTank) fuel 0 =
        spawnSearch rnd (spawnBlocked grassObjects rockObjects blueTank redTank) 50 0) ∧
    (∃ k, k < 50 ∧
      (spawnPowerBox rnd powerBox grassObjects rockObjects blueTank redTank).rect = samplePowerBoxRect rnd k ∧
      (∀ j, j < k → spawnBlocked grassObjects rockObjects blueTank redTank (samplePowerBoxRect rnd j) = true) ∧
      (spawnBlocked grassObjects rockObjects blueTank redTank (samplePowerBoxRect rnd k) = false ∨ k = 49)) ∧
    (∀ k, (samplePowerBoxRect rnd k).w = 20 ∧ (samplePowerBoxRect rnd k).h = 20 ∧
      50 ≤ (samplePowerBoxRect rnd k).x ∧ (samplePowerBoxRect rnd k).x ≤ 860 ∧
      50 ≤ (samplePowerBoxRect rnd k).y ∧ (samplePowerBoxRect rnd k).y ≤ 440) ∧
    (spawnPowerBox rnd powerBox grassObjects rockObjects blueTank redTank).active = true ∧
    (spawnPowerBox rnd powerBox grassObjects rockObjects blueTank redTank).disappearTimer = 5 ∧
    ((checkTankCollisionWithObjects
          (spawnPowerBox rnd powerBox grassObjects rockObjects blueTank redTank).rect
          grassObjects rockObjects = false ∧
        checkTankCollision (spawnPowerBox rnd powerBox grassObjects rockObjects blueTank redTank).rect
          blueTank.rect = false ∧
        checkTankCollision (spawnPowerBox rnd powerBox grassObjects rockObjects blueTank redTank).rect
          redTank.rect = false) ∨
      ∀ j, j < 50 → spawnBlocked grassObjects rockObjects blueTank redTank (samplePowerBoxRect rnd j) = true) := by
  obtain ⟨k, -, hk2, hk3, hk4, hk5⟩ :=
    spawnSearch_spec rnd (spawnBlocked grassObjects rockObjects blueTank redTank) 50 0 (by omega) (by omega)
  rw [spawnPowerBox_eq _ _ _ _ _ _ hinact]
  refine ⟨fun fuel hf => spawnSearch_fuel rnd _ fuel hf,
    ⟨k, by omega, hk3, fun j hj => hk4 j (Nat.zero_le _) hj, hk5⟩,
    fun k => samplePowerBoxRect_range rnd k, rfl, rfl, ?_⟩
  simp only [hk3]
  by_cases hb : spawnBlocked grassObjects rockObjects blueTank redTank (samplePowerBoxRect rnd k) = true
  · right
    have hk49 : k = 49 := by
      rcases hk5 with h | h
      · rw [hb] at h; exact absurd h (by decide)
      · exact h
    intro j hj
    by_cases hjk : j < k
    · exact hk4 j (Nat.zero_le _) hjk
    · have : j = k := by omega
      rw [this]; exact hb
  · left
    have hb2 : spawnBlocked grassObjects rockObjects blueTank redTank (samplePowerBoxRect rnd k) = false := by
      simpa using hb
    unfold spawnBlocked at hb2
    simp only [Bool.or_eq_false_iff] at hb2
    exact ⟨hb2.1.1, hb2.1.2, hb2.2⟩

/-- Witness of C19: the first spawn of a match when `rand` keeps returning 0. -/
theorem spawn_position_search_witness :
    (spawnPowerBox zeroDraws matchStart.powerBox matchStart.grassObjects matchStart.rockObjects
        matchStart.blueTankObj matchStart.redTankObj).active = true ∧
    (spawnPowerBox zeroDraws matchStart.powerBox matchStart.grassObjects matchStart.rockObjects
        matchStart.blueTankObj matchStart.redTankObj).disappearTimer = 5 ∧
    (spawnPowerBox zeroDraws matchStart.powerBox matchStart.grassObjects matchStart.rockObjects
        matchStart.blueTankObj matchStart.redTankObj).rect = ⟨50, 50, 20, 20⟩ :=
  have h := spawn_position_search zeroDraws matchStart.powerBox matchStart.grassObjects
    matchStart.rockObjects matchStart.blueTankObj matchStart.redTankObj rfl
  ⟨h.2.2.2.1, h.2.2.2.2.1, by decide⟩

/-! ## The game state machine -/

theorem lifeView_updateGunRotation (t : Tank) (dt : ℚ) :
    lifeView (updateGunRotation t dt) = lifeView t := by
  unfold updateGunRotation lifeView
  dsimp only
  split_ifs <;> rfl

theorem lifeView_updateTankAmmo (t : Tank) (dt : ℚ) : lifeView (updateTankAmmo t dt) = lifeView t := by
  unfold updateTankAmmo lifeView
  dsimp only
  split_ifs <;> rfl

theorem lifeView_updatePowerUp (t : Tank) (dt : ℚ) : lifeView (updatePowerUp t dt) = lifeView t := by
  unfold updatePowerUp lifeView
  dsimp only
  split_ifs <;> rfl

theorem lifeView_checkPowerBoxCollection (pb : PowerBox) (t : Tank) (sh : Shield) (i : Int) :
    lifeView (checkPowerBoxCollection pb t sh i).2.2.1 = lifeView t := by
  unfold checkPowerBoxCollection activatePowerUp lifeView
  dsimp only
  split_ifs <;> rfl

theorem lifeView_moveTank (u d l r : Bool) (t : Tank) (o : Rect) (g k : List GameObject) :
    lifeView (moveTank u d l r t o g k) = lifeView t := by
  have hu : ∀ t : Tank, lifeView (moveUp t o g k) = lifeView t := by
    intro t; unfold moveUp lifeView; dsimp only; split_ifs <;> rfl
  have hd : ∀ t : Tank, lifeView (moveDown t o g k) = lifeView t := by
    intro t; unfold moveDown lifeView; dsimp only; split_ifs <;> rfl
  have hl : ∀ t : Tank, lifeView (moveLeft t o g k) = lifeView t := by
    intro t; unfold moveLeft lifeView; dsimp only; split_ifs <;> rfl
  have hr : ∀ t : Tank, lifeView (moveRight t o g k) = lifeView t := by
    intro t; unfold moveRight lifeView; dsimp only; split_ifs <;> rfl
  unfold moveTank
  dsimp only
  split_ifs <;> first | rfl | (simp only [hu, hd, hl, hr]; rfl)

theorem afterMovement_life (dt : ℚ) (keys : Keys) (rnd : Nat → Nat) (s : State) :
    lifeView (afterMovement dt keys rnd s).blueTankObj = lifeView s.blueTankObj ∧
    lifeView (afterMovement dt keys rnd s).redTankObj = lifeView s.redTankObj ∧
    (afterMovement dt keys rnd s).currentState = s.currentState ∧
    (afterMovement dt keys rnd s).winner = s.winner := by
  unfold afterMovement moveTanks preMove
  dsimp only
  refine ⟨?_, ?_, rfl, rfl⟩
  · rw [lifeView_moveTank, lifeView_checkPowerBoxCollection, lifeView_updatePowerUp,
      lifeView_updateTankAmmo, lifeView_updateGunRotation]
  · rw [lifeView_moveTank, lifeView_checkPowerBoxCollection, lifeView_updatePowerUp,
      lifeView_updateTankAmmo, lifeView_updateGunRotation]

theorem stageStep_refl (s : State) : stageStep s s :=
  ⟨fun _ => rfl, fun _ => rfl, Or.inl rfl⟩

theorem stageStep_trans (a b c : State) (h1 : stageStep a b) (h2 : stageStep b c) : stageStep a c := by
  obtain ⟨ab, ar, ac⟩ := h1
  obtain ⟨bb, br, bc⟩ := h2
  have kb : ∀ {t u v : Tank}, (t.isDestroyed = true → lifeView u = lifeView t) →
      (u.isDestroyed = true → lifeView v = lifeView u) → newlyDestroyed u v → newlyDestroyed t v := by
    intro t u v h1 _ hk
    refine ⟨?_, hk.2.1, hk.2.2⟩
    by_contra hd
    have hd2 : t.isDestroyed = true := by simpa using hd
    have := h1 hd2
    simp only [lifeView, Prod.mk.injEq] at this
    have h3 := hk.1
    rw [this.1, hd2] at h3
    exact absurd h3 (by decide)
  have ka : ∀ {t u v : Tank}, (u.isDestroyed = true → lifeView v = lifeView u) →
      newlyDestroyed t u → newlyDestroyed t v := by
    intro t u v h2 hk
    have := h2 hk.2.1
    simp only [lifeView, Prod.mk.injEq] at this
    exact ⟨hk.1, this.1.trans hk.2.1, this.2.trans hk.2.2⟩
  refine ⟨?_, ?_, ?_⟩
  · intro h
    have e1 := ab h
    have hb : b.blueTankObj.isDestroyed = true := by
      simp only [lifeView, Prod.mk.injEq] at e1
      rw [e1.1]; exact h
    exact (bb hb).trans e1
  · intro h
    have e1 := ar h
    have hb : b.redTankObj.isDestroyed = true := by
      simp only [lifeView, Prod.mk.injEq] at e1
      rw [e1.1]; exact h
    exact (br hb).trans e1
  · rcases ac with hac | ⟨hw, hk⟩
    · rcases bc with hbc | ⟨hw2, hk2⟩
      · exact Or.inl (hbc.trans hac)
      · right
        refine ⟨hw2, ?_⟩
        rcases hk2 with h | h
        · exact Or.inl (kb ab bb h)
        · exact Or.inr (kb ar br h)
    · right
      have hk3 : killBetween a c := by
        rcases hk with h | h
        · exact Or.inl (ka bb h)
        · exact Or.inr (ka br h)
      rcases bc with hbc | ⟨hw2, _⟩
      · exact ⟨hbc.trans hw, hk3⟩
      · exact ⟨hw2, hk3⟩

theorem stageStep_bulletHitsTank (sh : Shield) (vi si : Int) (c : HitCtx) :
    lifeView (bulletHitsTank sh vi si c).shooter = lifeView c.shooter ∧
    (c.victim.isDestroyed = true → lifeView (bulletHitsTank sh vi si c).victim = lifeView c.victim) ∧
    ((bulletHitsTank sh vi si c).currentState = c.currentState ∨
      ((bulletHitsTank sh vi si c).currentState = GameState.WINNER_SCREEN ∧
        newlyDestroyed c.victim (bulletHitsTank sh vi si c).victim)) := by
  by_cases hhit : checkBulletTankCollision c.bullet.rect c.victim.rect = true
  · by_cases halive : c.victim.isDestroyed = false
    · by_cases hsh : hasActiveShield sh vi = true
      · rw [bulletHitsTank_reflect sh vi si c hhit halive hsh]
        exact ⟨rfl, fun _ => rfl, Or.inl rfl⟩
      · have hsh2 : hasActiveShield sh vi = false := by simpa using hsh
        rw [bulletHitsTank_damage sh vi si c hhit halive hsh2]
        refine ⟨rfl, ?_, ?_⟩
        · intro hd
          rw [halive] at hd
          exact absurd hd (by decide)
        · dsimp only
          by_cases hk : c.victim.hp - (if c.bullet.isExplosionBullet then 75 else 25) ≤ 0
          · rw [if_pos hk, if_pos hk]
            exact Or.inr ⟨rfl, halive, rfl, rfl⟩
          · rw [if_neg hk]
            exact Or.inl rfl
    · have hd : c.victim.isDestroyed = true := by simpa using halive
      rw [bulletHitsTank_miss sh vi si c (Or.inr hd)]
      exact ⟨rfl, fun _ => rfl, Or.inl rfl⟩
  · have hm : checkBulletTankCollision c.bullet.rect c.victim.rect = false := by simpa using hhit
    rw [bulletHitsTank_miss sh vi si c (Or.inl hm)]
    exact ⟨rfl, fun _ => rfl, Or.inl rfl⟩

theorem stageStep_bulletTankStage (s : State) (b : Bullet) : stageStep s (bulletTankStage s b).1 := by
  unfold bulletTankStage
  dsimp only
  split_ifs
  · obtain ⟨h1, h2, h3⟩ := stageStep_bulletHitsTank s.shield 1 0
      { bullet := b, shooter := s.blueTankObj, victim := s.redTankObj, explosions := s.explosions,
        winner := s.winner, currentState := s.currentState }
    refine ⟨fun _ => h1, h2, ?_⟩
    rcases h3 with h | ⟨hw, hk⟩
    · exact Or.inl h
    · exact Or.inr ⟨hw, Or.inr hk⟩
  · obtain ⟨h1, h2, h3⟩ := stageStep_bulletHitsTank s.shield 0 1
      { bullet := b, shooter := s.redTankObj, victim := s.blueTankObj, explosions := s.explosions,
        winner := s.winner, currentState := s.currentState }
    refine ⟨h2, fun _ => h1, ?_⟩
    rcases h3 with h | ⟨hw, hk⟩
    · exact Or.inl h
    · exact Or.inr ⟨hw, Or.inl hk⟩

theorem lifeView_awardObjectScore (b : Bullet) (s : State) :
    lifeView (awardObjectScore b s).blueTankObj = lifeView s.blueTankObj ∧
    lifeView (awardObjectScore b s).redTankObj = lifeView s.redTankObj ∧
    (awardObjectScore b s).currentState = s.currentState := by
  unfold awardObjectScore
  split_ifs <;> exact ⟨rfl, rfl, rfl⟩

theorem stageStep_bulletGrassStage (s : State) (b : Bullet) : stageStep s (bulletGrassStage s b).1 := by
  unfold bulletGrassStage
  split
  · obtain ⟨h1, h2, h3⟩ := lifeView_awardObjectScore b { s with grassObjects := _ }
    exact ⟨fun _ => h1, fun _ => h2, Or.inl h3⟩
  · exact stageStep_refl s

theorem stageStep_bulletRockStage (s : State) (b : Bullet) : stageStep s (bulletRockStage s b).1 := by
  unfold bulletRockStage
  split
  · obtain ⟨h1, h2, h3⟩ := lifeView_awardObjectScore b { s with rockObjects := _ }
    exact ⟨fun _ => h1, fun _ => h2, Or.inl h3⟩
  · exact stageStep_refl s

theorem stageStep_bulletLoop (cfg : Config) (bs : List Bullet) (s : State) :
    stageStep s (bulletLoop cfg bs s).1 :=
  bulletLoop_induct cfg stageStep stageStep_refl stageStep_trans stageStep_bulletTankStage
    stageStep_bulletGrassStage stageStep_bulletRockStage bs s

theorem frame_transition (cfg : Config) (dt : ℚ) (keys : Keys) (rnd : Nat → Nat) (s : State)
    (hp : s.currentState = GameState.GAME_PLAYING) :
    (frame cfg dt keys rnd s).currentState = GameState.GAME_PLAYING ∨
    ((frame cfg dt keys rnd s).currentState = GameState.WINNER_SCREEN ∧
      killBetween s (frame cfg dt keys rnd s)) := by
  obtain ⟨hb, hr, hc, -⟩ := afterMovement_life dt keys rnd s
  obtain ⟨-, -, h3⟩ := stageStep_bulletLoop cfg (afterMovement dt keys rnd s).bullets
    (afterMovement dt keys rnd s)
  simp only [lifeView, Prod.mk.injEq] at hb hr
  unfold frame
  rw [if_pos hp]
  unfold updateBullets
  dsimp only
  rcases h3 with h | ⟨hw, hk⟩
  · left
    rw [h, hc, hp]
  · right
    refine ⟨hw, ?_⟩
    rcases hk with h | h
    · exact Or.inl ⟨hb.1 ▸ h.1, h.2.1, h.2.2⟩
    · exact Or.inr ⟨hr.1 ▸ h.1, h.2.1, h.2.2⟩

/-- C20: the game state changes only along the five transitions.  A key
press never changes it.  A click changes it from the welcome screen to mode
selection exactly when it is inside the start button, from mode selection to
playing exactly when inside the multiplayer button, from the winner screen to
playing when inside play-again and to the welcome screen when inside home and
not inside play-again; a click anywhere else, or while playing, leaves the
whole state unchanged.  A tick changes nothing outside the playing state, and
in the playing state it either stays playing or goes to the winner screen, the
latter only together with a tank that was destroyed in this tick (hp 0). -/
theorem game_state_transitions (cfg : Config) (s : State) :
    (∀ key, (step cfg s (Input.keyDown key)).currentState = s.currentState) ∧
    (∀ mouseX mouseY rnd,
      (s.currentState = GameState.WELCOME_SCREEN →
        (isPointInRect mouseX mouseY cfg.startButtonRect = true →
          (step cfg s (Input.mouseDown mouseX mouseY rnd)).currentState = GameState.GAME_MODE_SELECTION) ∧
        (isPointInRect mouseX mouseY cfg.startButtonRect = false →
          step cfg s (Input.mouseDown mouseX mouseY rnd) = s)) ∧
      (s.currentState = GameState.GAME_MODE_SELECTION →
        (isPointInRect mouseX mouseY cfg.multiplayerButtonRect = true →
          (step cfg s (Input.mouseDown mouseX mouseY rnd)).currentState = GameState.GAME_PLAYING) ∧
        (isPointInRect mouseX mouseY cfg.multiplayerButtonRect = false →
          step cfg s (Input.mouseDown mouseX mouseY rnd) = s)) ∧
      (s.currentState = GameState.WINNER_SCREEN →
        (isPointInRect mouseX mouseY cfg.playAgainButtonRect = true →
          (step cfg s (Input.mouseDown mouseX mouseY rnd)).currentState = GameState.GAME_PLAYING) ∧
        (isPointInRect mouseX mouseY cfg.playAgainButtonRect = false →
          isPointInRect mouseX mouseY cfg.homeButtonRect = true →
          (step cfg s (Input.mouseDown mouseX mouseY rnd)).currentState = GameState.WELCOME_SCREEN) ∧
        (isPointInRect mouseX mouseY cfg.playAgainButtonRect = false →
          isPointInRect mouseX mouseY cfg.homeButtonRect = false →
          step cfg s (Input.mouseDown mouseX mouseY rnd) = s)) ∧
      (s.currentState = GameState.GAME_PLAYING →
        step cfg s (Input.mouseDown mouseX mouseY rnd) = s)) ∧
    (∀ deltaTime keys rnd,
      (s.currentState ≠ GameState.GAME_PLAYING → step cfg s (Input.frame deltaTime keys rnd) = s) ∧
      (s.currentState = GameState.GAME_PLAYING →
        (step cfg s (Input.frame deltaTime keys rnd)).currentState = GameState.GAME_PLAYING ∨
        ((step cfg s (Input.frame deltaTime keys rnd)).currentState = GameState.WINNER_SCREEN ∧
          killBetween s (step cfg s (Input.frame deltaTime keys rnd))))) := by
  refine ⟨?_, ?_, ?_⟩
  · intro key
    simp only [step, handleKeyDown]
    split_ifs <;> rfl
  · intro mx my rnd
    refine ⟨?_, ?_, ?_, ?_⟩
    · intro hs
      constructor
      · intro h; simp [step, handleMouseDown, hs, h]
      · intro h; simp [step, handleMouseDown, hs, h]
    · intro hs
      constructor
      · intro h; simp [step, handleMouseDown, hs, h]
      · intro h; simp [step, handleMouseDown, hs, h]
    · intro hs
      refine ⟨?_, ?_, ?_⟩
      · intro h; simp [step, handleMouseDown, hs, h, playAgain]
      · intro h1 h2; simp [step, handleMouseDown, hs, h1, h2]
      · intro h1 h2; simp [step, handleMouseDown, hs, h1, h2]
    · intro hs
      simp [step, handleMouseDown, hs]
  · intro dt keys rnd
    constructor
    · intro hs
      simp only [step, frame, if_neg hs]
    · intro hs
      exact frame_transition cfg dt keys rnd s hs

/-- Witness of C20: the click that opens mode selection, a click beside the
button, and a tick on the welcome screen. -/
theorem game_state_transitions_witness :
    (step sampleConfig (initialState sampleConfig zeroDraws)
        (Input.mouseDown 600 240 zeroDraws)).currentState = GameState.GAME_MODE_SELECTION ∧
    step sampleConfig (initialState sampleConfig zeroDraws) (Input.mouseDown 10 10 zeroDraws) =
      initialState sampleConfig zeroDraws ∧
    step sampleConfig (initialState sampleConfig zeroDraws) (Input.frame 1 noKeys zeroDraws) =
      initialState sampleConfig zeroDraws ∧
    ((step sampleConfig matchStart (Input.frame 1 noKeys zeroDraws)).currentState = GameState.GAME_PLAYING ∨
      ((step sampleConfig matchStart (Input.frame 1 noKeys zeroDraws)).currentState = GameState.WINNER_SCREEN ∧
        killBetween matchStart (step sampleConfig matchStart (Input.frame 1 noKeys zeroDraws)))) :=
  have h := game_state_transitions sampleConfig (initialState sampleConfig zeroDraws)
  ⟨((h.2.1 600 240 zeroDraws).1 rfl).1 (by decide), ((h.2.1 10 10 zeroDraws).1 rfl).2 (by decide),
    (h.2.2 1 noKeys zeroDraws).1 (by decide),
    ((game_state_transitions sampleConfig matchStart).2.2 1 noKeys zeroDraws).2 (by decide)⟩

/-! ## Bullets against obstacles -/

theorem layout_separated : ∀ g ∈ grassRects, ∀ r ∈ rockRects, separated g r = true := by
  decide!

theorem separated_no_double_hit (g r b : Rect) (hs : separated g r = true) (hw : b.w = 8) (hh : b.h = 10)
    (hg : boxesOverlap b g = true) : boxesOverlap b r = false := by
  simp only [separated, Bool.or_eq_true, decide_eq_true_eq] at hs
  simp only [boxesOverlap, Bool.and_eq_true, decide_eq_true_eq] at hg
  simp only [boxesOverlap, Bool.and_eq_false_iff, decide_eq_false_iff_not, hw, hh]
  rw [hw, hh] at hg
  omega

theorem collision_overlap (b : Rect) (o : GameObject) (h : checkBulletObjectCollision b o = true) :
    o.isDestroyed = false ∧ boxesOverlap b o.rect = true := by
  unfold checkBulletObjectCollision at h
  by_cases hd : o.isDestroyed = true
  · simp [hd] at h
  · have hd2 : o.isDestroyed = false := by simpa using hd
    simp only [hd2, Bool.false_eq_true, if_false] at h
    exact ⟨hd2, h⟩

theorem collision_of_no_overlap (b : Rect) (o : GameObject) (h : boxesOverlap b o.rect = false) :
    checkBulletObjectCollision b o = false := by
  unfold checkBulletObjectCollision
  split_ifs
  · rfl
  · exact h

theorem hitFirstObject_none (b : Rect) (os : List GameObject)
    (h : ∀ o ∈ os, checkBulletObjectCollision b o = false) : hitFirstObject b os = none := by
  induction os with
  | nil => rfl
  | cons o os ih =>
    have h1 := h o (List.mem_cons_self _ _)
    have h2 := ih (fun x hx => h x (List.mem_cons_of_mem _ hx))
    simp [hitFirstObject, h1, h2]

theorem hitFirstObject_some (b : Rect) (os : List GameObject)
    (h : ∃ o ∈ os, checkBulletObjectCollision b o = true) :
    ∃ pre o post, os = pre ++ o :: post ∧ o.isDestroyed = false ∧
      checkBulletObjectCollision b o = true ∧
      hitFirstObject b os = some (pre ++ destroyedObject o :: post) := by
  induction os with
  | nil => simp at h
  | cons x xs ih =>
    by_cases hx : checkBulletObjectCollision b x = true
    · have hd := (collision_overlap b x hx).1
      refine ⟨[], x, xs, rfl, hd, hx, ?_⟩
      simp [hitFirstObject, hx, destroyGameObject, hd, destroyedObject]
    · have hx2 : checkBulletObjectCollision b x = false := by simpa using hx
      obtain ⟨o, ho, hc⟩ := h
      have hmem : o ∈ xs := by
        rcases List.mem_cons.mp ho with rfl | h2
        · rw [hx2] at hc; exact absurd hc (by decide)
        · exact h2
      obtain ⟨pre, o2, post, e1, e2, e3, e4⟩ := ih ⟨o, hmem, hc⟩
      refine ⟨x :: pre, o2, post, ?_, e2, e3, ?_⟩
      · simp [e1]
      · simp [hitFirstObject, hx2, e4]

theorem awardObjectScore_scores (b : Bullet) (s : State) :
    (ownerTankOf (awardObjectScore b s) b).score = (ownerTankOf s b).score + 10 ∧
    (opponentOf (awardObjectScore b s) b).score = (opponentOf s b).score ∧
    (awardObjectScore b s).grassObjects = s.grassObjects ∧
    (awardObjectScore b s).rockObjects = s.rockObjects := by
  unfold awardObjectScore ownerTankOf opponentOf
  split_ifs <;> exact ⟨rfl, rfl, rfl, rfl⟩

theorem no_rock_after_grass (s : State) (b : Bullet) (hlay : fixedLayout s) (hsize : standardBullet b)
    (g : GameObject) (hg : g ∈ s.grassObjects) (hc : checkBulletObjectCollision b.rect g = true) :
    ∀ r ∈ s.rockObjects, checkBulletObjectCollision b.rect r = false := by
  intro r hr
  have hgr : g.rect ∈ grassRects := by
    rw [← hlay.1]; exact List.mem_map_of_mem _ hg
  have hrr : r.rect ∈ rockRects := by
    rw [← hlay.2]; exact List.mem_map_of_mem _ hr
  exact collision_of_no_overlap _ _
    (separated_no_double_hit g.rect r.rect b.rect (layout_separated _ hgr _ hrr) hsize.1 hsize.2
      (collision_overlap _ _ hc).2)

theorem initGameObjects_rects (rnd : Nat → Nat) (ps : List Rect) (k : Nat) :
    (initGameObjects rnd ps k).map GameObject.rect = ps.map (fun p => ⟨p.x, p.y, p.w, p.w⟩) := by
  induction ps generalizing k with
  | nil => rfl
  | cons p ps ih => simp [initGameObjects, initGameObject, ih]

theorem hitFirstObject_rects (b : Rect) (os os1 : List GameObject) (h : hitFirstObject b os = some os1) :
    os1.map GameObject.rect = os.map GameObject.rect := by
  induction os generalizing os1 with
  | nil => simp [hitFirstObject] at h
  | cons x xs ih =>
    unfold hitFirstObject at h
    split_ifs at h with hx
    · simp only [Option.some.injEq] at h
      rw [← h]
      simp only [List.map_cons, destroyGameObject]
      split_ifs <;> rfl
    · cases hrec : hitFirstObject b xs with
      | none => rw [hrec] at h; simp at h
      | some ys =>
        rw [hrec] at h
        simp only [Option.map_some', Option.some.injEq] at h
        rw [← h]
        simp [ih ys hrec]

theorem fixedLayout_bulletLoop (cfg : Config) (bs : List Bullet) (s : State) (h : fixedLayout s) :
    fixedLayout (bulletLoop cfg bs s).1 := by
  have key := bulletLoop_induct cfg
    (fun a b => b.grassObjects.map GameObject.rect = a.grassObjects.map GameObject.rect ∧
      b.rockObjects.map GameObject.rect = a.rockObjects.map GameObject.rect)
    (fun _ => ⟨rfl, rfl⟩) (fun _ _ _ h1 h2 => ⟨h2.1.trans h1.1, h2.2.trans h1.2⟩)
    (fun s b => by
      obtain ⟨-, -, h3, h4⟩ := bulletTankStage_frame s b
      exact ⟨by rw [h3], by rw [h4]⟩)
    (fun s b => by
      unfold bulletGrassStage
      split
      · rename_i g1 hg
        obtain ⟨-, -, h3, h4⟩ := awardObjectScore_scores b { s with grassObjects := g1 }
        exact ⟨by rw [h3]; exact hitFirstObject_rects _ _ _ hg, by rw [h4]⟩
      · exact ⟨rfl, rfl⟩)
    (fun s b => by
      unfold bulletRockStage
      split
      · rename_i r1 hr
        obtain ⟨-, -, h3, h4⟩ := awardObjectScore_scores b { s with rockObjects := r1 }
        exact ⟨by rw [h3], by rw [h4]; exact hitFirstObject_rects _ _ _ hr⟩
      · exact ⟨rfl, rfl⟩) bs s
  exact ⟨key.1.trans h.1, key.2.trans h.2⟩

theorem processBullet_bullet (cfg : Config) (s : State) (b : Bullet) :
    ((processBullet cfg s b).2.active = true → b.active = true) ∧
    (processBullet cfg s b).2.rect.w = b.rect.w ∧ (processBullet cfg s b).2.rect.h = b.rect.h := by
  have hu : (updateBullet cfg b).rect.w = b.rect.w ∧ (updateBullet cfg b).rect.h = b.rect.h := by
    unfold updateBullet
    dsimp only
    split_ifs <;> exact ⟨rfl, rfl⟩
  have ht : ∀ (s : State) (b : Bullet), (bulletTankStage s b).2.rect = b.rect := by
    intro s b
    unfold bulletTankStage bulletHitsTank reflectBullet
    dsimp only
    split_ifs <;> rfl
  have hg : ∀ (s : State) (b : Bullet), (bulletGrassStage s b).2.rect = b.rect := by
    intro s b
    unfold bulletGrassStage
    split <;> rfl
  have hr : ∀ (s : State) (b : Bullet), (bulletRockStage s b).2.rect = b.rect := by
    intro s b
    unfold bulletRockStage
    split <;> rfl
  unfold processBullet
  dsimp only
  split_ifs with ha
  · refine ⟨fun _ => ha, ?_, ?_⟩
    · rw [hr, hg, ht]; exact hu.1
    · rw [hr, hg, ht]; exact hu.2
  · exact ⟨fun h => h, rfl, rfl⟩

theorem standard_bulletLoop (cfg : Config) (bs : List Bullet) (s : State)
    (h : ∀ b ∈ bs, b.active = true → standardBullet b) :
    ∀ b ∈ (bulletLoop cfg bs s).2, b.active = true → standardBullet b := by
  induction bs generalizing s with
  | nil => intro b hb; simp [bulletLoop] at hb
  | cons x xs ih =>
    intro b hb hact
    simp only [bulletLoop, List.mem_cons] at hb
    rcases hb with rfl | hb
    · obtain ⟨h1, h2, h3⟩ := processBullet_bullet cfg s x
      have := h x (List.mem_cons_self _ _) (h1 hact)
      exact ⟨h2.trans this.1, h3.trans this.2⟩
    · exact ih _ (fun y hy => h y (List.mem_cons_of_mem _ hy)) b hb hact

theorem fireFirstFree_bullets (P : Bullet → Prop) (fire : Bullet → Tank → Bool × Bullet × Tank)
    (hfire : ∀ b t, P b → P (fire b t).2.1) (bs : List Bullet) (t : Tank) (h : ∀ b ∈ bs, P b) :
    ∀ b ∈ (fireFirstFree fire bs t).2.1, P b := by
  induction bs with
  | nil => intro b hb; simp [fireFirstFree] at hb
  | cons x xs ih =>
    intro b hb
    unfold fireFirstFree at hb
    split_ifs at hb
    · simp only [List.mem_cons] at hb
      rcases hb with rfl | hb
      · exact hfire x t (h x (List.mem_cons_self _ _))
      · exact h b (List.mem_cons_of_mem _ hb)
    · simp only [List.mem_cons] at hb
      rcases hb with rfl | hb
      · exact h _ (List.mem_cons_self _ _)
      · exact ih (fun y hy => h y (List.mem_cons_of_mem _ hy)) b hb

theorem layoutInv_step (cfg : Config) (s : State) (i : Input)
    (h : fixedLayout s ∧ ∀ b ∈ s.bullets, b.active = true → standardBullet b) :
    fixedLayout (step cfg s i) ∧ ∀ b ∈ (step cfg s i).bullets, b.active = true → standardBullet b := by
  obtain ⟨hl, hb⟩ := h
  have htry : ∀ (o : Int) (b : Bullet) (t : Tank), (b.active = true → standardBullet b) →
      (tryFireBullet b t o).2.1.active = true → standardBullet (tryFireBullet b t o).2.1 := by
    intro o b t hP
    unfold tryFireBullet
    split_ifs
    · exact hP
    · intro _; exact ⟨rfl, rfl⟩
  have hexp : ∀ (o : Int) (b : Bullet) (t : Tank), (b.active = true → standardBullet b) →
      (fireExplosionBullet b t o).2.1.active = true → standardBullet (fireExplosionBullet b t o).2.1 := by
    intro o b t hP
    unfold fireExplosionBullet
    split_ifs
    · intro _; exact ⟨rfl, rfl⟩
    · exact hP
  cases i with
  | mouseDown mx my rnd =>
    simp only [step, handleMouseDown]
    split
    · split_ifs <;> exact ⟨hl, hb⟩
    · split_ifs <;> exact ⟨hl, hb⟩
    · split_ifs
      · refine ⟨⟨initGameObjects_rects _ _ _, initGameObjects_rects _ _ _⟩, ?_⟩
        intro b hmem hact
        simp only [playAgain, List.mem_map] at hmem
        obtain ⟨x, -, rfl⟩ := hmem
        exact absurd hact (by simp)
      · exact ⟨hl, hb⟩
      · exact ⟨hl, hb⟩
    · exact ⟨hl, hb⟩
  | keyDown key =>
    simp only [step, handleKeyDown]
    split_ifs
    · exact ⟨hl, fireFirstFree_bullets (fun b => b.active = true → standardBullet b) _
        (fun b t => htry 0 b t) _ _ hb⟩
    · exact ⟨hl, fireFirstFree_bullets (fun b => b.active = true → standardBullet b) _
        (fun b t => htry 1 b t) _ _ hb⟩
    · exact ⟨hl, fireFirstFree_bullets (fun b => b.active = true → standardBullet b) _
        (fun b t => hexp 0 b t) _ _ hb⟩
    · exact ⟨hl, fireFirstFree_bullets (fun b => b.active = true → standardBullet b) _
        (fun b t => hexp 1 b t) _ _ hb⟩
    · exact ⟨hl, hb⟩
    · exact ⟨hl, hb⟩
  | frame dt keys rnd =>
    simp only [step, frame]
    split_ifs
    · have hl2 : fixedLayout (afterMovement dt keys rnd s) := hl
      have hb2 : ∀ b ∈ (afterMovement dt keys rnd s).bullets, b.active = true → standardBullet b := hb
      exact ⟨fixedLayout_bulletLoop cfg _ _ hl2, standard_bulletLoop cfg _ _ hb2⟩
    · exact ⟨hl, hb⟩

theorem reachable_layout (cfg : Config) (s : State) (h : Reachable cfg s) :
    fixedLayout s ∧ ∀ b ∈ s.bullets, b.active = true → standardBullet b := by
  induction h with
  | init rnd =>
    refine ⟨⟨initGameObjects_rects _ _ _, initGameObjects_rects _ _ _⟩, ?_⟩
    intro b hmem hact
    simp only [initialState, List.mem_replicate] at hmem
    rw [hmem.2] at hact
    exact absurd hact (by decide)
  | next s i _ _ ih => exact layoutInv_step cfg s i ih

/-- C12: with the obstacles where `initializeGameObjects` puts them (any
destroyed flags) and a bullet of the size every fired bullet has (8x10), the
grass and rock loops of a tick, which `processBullet` runs on the advanced
bullet after the tank stage, behave as follows.  If the bullet overlaps a
non-destroyed obstacle, exactly one obstacle changes, becoming destroyed, the
bullet is deactivated and the score of the bullet's owner rises by exactly 10
(the other score not at all); the obstacle is the first one hit in its array.
If it overlaps none, nothing changes.  Both assumptions hold in every
reachable state. -/
theorem obstacle_hit_once (cfg : Config) (s : State) (b : Bullet)
    (hlay : fixedLayout s) (hsize : standardBullet b) :
    (b.active = true →
      processBullet cfg s b =
        bulletObstacleStages (bulletTankStage s (updateBullet cfg b)).1
          (bulletTankStage s (updateBullet cfg b)).2) ∧
    ((∃ o, (o ∈ s.grassObjects ∨ o ∈ s.rockObjects) ∧ checkBulletObjectCollision b.rect o = true) →
      (bulletObstacleStages s b).2 = { b with active := false } ∧
      (ownerTankOf (bulletObstacleStages s b).1 b).score = (ownerTankOf s b).score + 10 ∧
      (opponentOf (bulletObstacleStages s b).1 b).score = (opponentOf s b).score ∧
      ∃ pre o post, o.isDestroyed = false ∧ checkBulletObjectCollision b.rect o = true ∧
        ((s.grassObjects = pre ++ o :: post ∧
            (bulletObstacleStages s b).1.grassObjects = pre ++ destroyedObject o :: post ∧
            (bulletObstacleStages s b).1.rockObjects = s.rockObjects) ∨
          (s.rockObjects = pre ++ o :: post ∧
            (bulletObstacleStages s b).1.rockObjects = pre ++ destroyedObject o :: post ∧
            (bulletObstacleStages s b).1.grassObjects = s.grassObjects))) ∧
    ((∀ o, (o ∈ s.grassObjects ∨ o ∈ s.rockObjects) → checkBulletObjectCollision b.rect o = false) →
      bulletObstacleStages s b = (s, b)) ∧
    (∀ t : State, Reachable cfg t →
      fixedLayout t ∧ ∀ x ∈ t.bullets, x.active = true → standardBullet x) := by
  refine ⟨?_, ?_, ?_, fun t ht => reachable_layout cfg t ht⟩
  · intro hact
    simp [processBullet, hact, bulletObstacleStages]
  · rintro ⟨o, hmem, hc⟩
    by_cases hg : ∃ g ∈ s.grassObjects, checkBulletObjectCollision b.rect g = true
    · obtain ⟨g, hgm, hgc⟩ := hg
      obtain ⟨pre, o2, post, e1, e2, e3, e4⟩ := hitFirstObject_some b.rect s.grassObjects ⟨g, hgm, hgc⟩
      have hrock := hitFirstObject_none b.rect s.rockObjects (no_rock_after_grass s b hlay hsize g hgm hgc)
      obtain ⟨a1, a2, a3, a4⟩ := awardObjectScore_scores b
        { s with grassObjects := pre ++ destroyedObject o2 :: post }
      have hst : bulletObstacleStages s b =
          (awardObjectScore b { s with grassObjects := pre ++ destroyedObject o2 :: post },
            { b with active := false }) := by
        simp only [bulletObstacleStages, bulletGrassStage, e4, bulletRockStage, a4, hrock]
      rw [hst]
      exact ⟨rfl, a1, a2, pre, o2, post, e2, e3, Or.inl ⟨e1, a3, a4⟩⟩
    · have hg2 : ∀ g ∈ s.grassObjects, checkBulletObjectCollision b.rect g = false := by
        intro g hgm
        by_contra hne
        exact hg ⟨g, hgm, by simpa using hne⟩
      have hgrass := hitFirstObject_none b.rect s.grassObjects hg2
      have hr : ∃ r ∈ s.rockObjects, checkBulletObjectCollision b.rect r = true := by
        rcases hmem with h | h
        · rw [hg2 o h] at hc; exact absurd hc (by decide)
        · exact ⟨o, h, hc⟩
      obtain ⟨pre, o2, post, e1, e2, e3, e4⟩ := hitFirstObject_some b.rect s.rockObjects hr
      obtain ⟨a1, a2, a3, a4⟩ := awardObjectScore_scores b
        { s with rockObjects := pre ++ destroyedObject o2 :: post }
      have hst : bulletObstacleStages s b =
          (awardObjectScore b { s with rockObjects := pre ++ destroyedObject o2 :: post },
            { b with active := false }) := by
        simp only [bulletObstacleStages, bulletGrassStage, hgrass, bulletRockStage, e4]
      rw [hst]
      exact ⟨rfl, a1, a2, pre, o2, post, e2, e3, Or.inr ⟨e1, a4, a3⟩⟩
  · intro hnone
    have hgrass := hitFirstObject_none b.rect s.grassObjects (fun o ho => hnone o (Or.inl ho))
    have hrock := hitFirstObject_none b.rect s.rockObjects (fun o ho => hnone o (Or.inr ho))
    simp only [bulletObstacleStages, bulletGrassStage, hgrass, bulletRockStage, hrock]

/-- Witness of C12: a blue bullet inside the grass object at (50, 100) at the
start of a match. -/
theorem obstacle_hit_once_witness :
    fixedLayout matchStart ∧ standardBullet grassBullet ∧
    (bulletObstacleStages matchStart grassBullet).2 = { grassBullet with active := false } ∧
    (bulletObstacleStages matchStart grassBullet).1.blueTankObj.score = 0 + 10 ∧
    (bulletObstacleStages matchStart grassBullet).1.redTankObj.score = 0 :=
  have hl : fixedLayout matchStart := ⟨by decide, by decide⟩
  have hs : standardBullet grassBullet := ⟨rfl, rfl⟩
  have h := (obstacle_hit_once sampleConfig matchStart grassBullet hl hs).2.1
    ⟨matchStart.grassObjects.headD (initGameObject ⟨0, 0, 0, 0⟩ 0), Or.inl (by decide!), by decide⟩
  ⟨hl, hs, h.1, h.2.1, h.2.2.1⟩

/-- C13 fails on the code: `wedgeTrace` leads to a playing state with one
active blue bullet at (48, 431), the red tank at (50, 390) and the intact rock
at (20, 400).  In the next tick the bullet advances to (48, 429) and is still
active; the tank stage hits the red tank (hp 100 -> 75) and deactivates the
bullet; the obstacle loops then run on that inactive bullet all the same,
destroy the rock and give blue another 10 points (100 + 10). -/
theorem deactivated_bullet_destroys_rock :
    Reachable sampleConfig beforeDoubleHit ∧
    beforeDoubleHit.currentState = GameState.GAME_PLAYING ∧
    beforeDoubleHit.bullets.map (fun b => b.active) = [true, false, false, false, false] ∧
    beforeDoubleHit.rockObjects.map (fun o => o.isDestroyed) = List.replicate 15 false ∧
    beforeDoubleHit.blueTankObj.score = 0 ∧
    wedgeBullet.active = true ∧ wedgeBullet.rect = ⟨48, 429, 8, 10⟩ ∧
    (bulletTankStage wedgeTick wedgeBullet).2.active = false ∧
    (bulletTankStage wedgeTick wedgeBullet).1.redTankObj.hp = 75 ∧
    (bulletTankStage wedgeTick wedgeBullet).1.blueTankObj.score = 100 ∧
    (bulletObstacleStages (bulletTankStage wedgeTick wedgeBullet).1
        (bulletTankStage wedgeTick wedgeBullet).2).1.rockObjects.map (fun o => o.isDestroyed) =
      [false, false, false, false, false, false, false, true, false, false, false, false, false, false, false] ∧
    (bulletObstacleStages (bulletTankStage wedgeTick wedgeBullet).1
        (bulletTankStage wedgeTick wedgeBullet).2).1.blueTankObj.score = 110 ∧
    (step sampleConfig beforeDoubleHit (Input.frame 0 noKeys zeroDraws)).rockObjects.map
        (fun o => o.isDestroyed) =
      [false, false, false, false, false, false, false, true, false, false, false, false, false, false, false] ∧
    (step sampleConfig beforeDoubleHit (Input.frame 0 noKeys zeroDraws)).blueTankObj.score = 110 ∧
    (step sampleConfig beforeDoubleHit (Input.frame 0 noKeys zeroDraws)).redTankObj.hp = 75 :=
  ⟨reachable_run sampleConfig wedgeTrace _ (Reachable.init zeroDraws) (by decide!), by decide!⟩

/-! ## Key events on a full pool, facing, gun rotation -/

/-- C25: while every slot of the bullet pool is active, a key event of any
kind (fire or explosive fire, for either tank) leaves the whole state
unchanged: no bullet slot changes and the requesting tank keeps its ammo,
reload timer and explosion charges. -/
theorem full_pool_drops_request (cfg : Config) (s : State) (key : Key)
    (hfull : ∀ b ∈ s.bullets, b.active = true) :
    step cfg s (Input.keyDown key) = s := by
  simp only [step, handleKeyDown]
  split_ifs <;> simp [fireFirstFree_full _ _ _ hfull]

/-- Witness of C25: an explosive-fire request by red after five blue shots. -/
theorem full_pool_drops_request_witness :
    (∀ b ∈ (run sampleConfig matchStart (blueShots 5)).bullets, b.active = true) ∧
    step sampleConfig (run sampleConfig matchStart (blueShots 5)) (Input.keyDown Key.period) =
      run sampleConfig matchStart (blueShots 5) :=
  ⟨by decide!, full_pool_drops_request sampleConfig _ Key.period (by decide!)⟩

/-- C22: each direction block of a tank update sets the body rotation to the
direction's angle (up 0, down 180, left 270, right 90) whether or not the move
is blocked, and leaves the position unchanged when the candidate box overlaps a
non-destroyed obstacle or the opponent's box.  For a non-destroyed tank with a
pressed key the update of a tick is these blocks applied in the order up, down,
left, right, each one exactly when its key is pressed and the tank is strictly
inside the corresponding arena edge. -/
theorem facing_set_even_if_blocked (tank : Tank) (other : Rect) (grassObjects rockObjects : List GameObject) :
    ((moveUp tank other grassObjects rockObjects).rotation = 0 ∧
      ((checkTankCollisionWithObjects { tank.rect with y := truncToInt ((tank.rect.y : ℚ) - tank.speed) }
            grassObjects rockObjects = true ∨
          checkTankCollision { tank.rect with y := truncToInt ((tank.rect.y : ℚ) - tank.speed) } other = true) →
        (moveUp tank other grassObjects rockObjects).rect = tank.rect)) ∧
    ((moveDown tank other grassObjects rockObjects).rotation = 180 ∧
      ((checkTankCollisionWithObjects { tank.rect with y := truncToInt ((tank.rect.y : ℚ) + tank.speed) }
            grassObjects rockObjects = true ∨
          checkTankCollision { tank.rect with y := truncToInt ((tank.rect.y : ℚ) + tank.speed) } other = true) →
        (moveDown tank other grassObjects rockObjects).rect = tank.rect)) ∧
    ((moveLeft tank other grassObjects rockObjects).rotation = 270 ∧
      ((checkTankCollisionWithObjects { tank.rect with x := truncToInt ((tank.rect.x : ℚ) - tank.speed) }
            grassObjects rockObjects = true ∨
          checkTankCollision { tank.rect with x := truncToInt ((tank.rect.x : ℚ) - tank.speed) } other = true) →
        (moveLeft tank other grassObjects rockObjects).rect = tank.rect)) ∧
    ((moveRight tank other grassObjects rockObjects).rotation = 90 ∧
      ((checkTankCollisionWithObjects { tank.rect with x := truncToInt ((tank.rect.x : ℚ) + tank.speed) }
            grassObjects rockObjects = true ∨
          checkTankCollision { tank.rect with x := truncToInt ((tank.rect.x : ℚ) + tank.speed) } other = true) →
        (moveRight tank other grassObjects rockObjects).rect = tank.rect)) ∧
    (∀ up down left right : Bool, tank.isDestroyed = false → (up || down || left || right) = true →
      moveTank up down left right tank other grassObjects rockObjects =
        (fun t3 : Tank =>
            if right = true ∧ t3.rect.x < 960 - t3.rect.w then moveRight t3 other grassObjects rockObjects else t3)
          ((fun t2 : Tank =>
              if left = true ∧ t2.rect.x > 0 then moveLeft t2 other grassObjects rockObjects else t2)
            ((fun t1 : Tank =>
                if down = true ∧ t1.rect.y < 540 - t1.rect.h then moveDown t1 other grassObjects rockObjects
                else t1)
              (if up = true ∧ tank.rect.y > 0 then
                moveUp { tank with isMoving := true } other grassObjects rockObjects
              else { tank with isMoving := true })))) := by
  refine ⟨⟨?_, ?_⟩, ⟨?_, ?_⟩, ⟨?_, ?_⟩, ⟨?_, ?_⟩, ?_⟩
  · unfold moveUp; dsimp only; split_ifs <;> rfl
  · intro h
    have hb : moveBlocked { tank.rect with y := truncToInt ((tank.rect.y : ℚ) - tank.speed) } other
        grassObjects rockObjects = true := by
      unfold moveBlocked; rcases h with h | h <;> simp [h]
    unfold moveUp; dsimp only; rw [hb]; rfl
  · unfold moveDown; dsimp only; split_ifs <;> rfl
  · intro h
    have hb : moveBlocked { tank.rect with y := truncToInt ((tank.rect.y : ℚ) + tank.speed) } other
        grassObjects rockObjects = true := by
      unfold moveBlocked; rcases h with h | h <;> simp [h]
    unfold moveDown; dsimp only; rw [hb]; rfl
  · unfold moveLeft; dsimp only; split_ifs <;> rfl
  · intro h
    have hb : moveBlocked { tank.rect with x := truncToInt ((tank.rect.x : ℚ) - tank.speed) } other
        grassObjects rockObjects = true := by
      unfold moveBlocked; rcases h with h | h <;> simp [h]
    unfold moveLeft; dsimp only; rw [hb]; rfl
  · unfold moveRight; dsimp only; split_ifs <;> rfl
  · intro h
    have hb : moveBlocked { tank.rect with x := truncToInt ((tank.rect.x : ℚ) + tank.speed) } other
        grassObjects rockObjects = true := by
      unfold moveBlocked; rcases h with h | h <;> simp [h]
    unfold moveRight; dsimp only; rw [hb]; rfl
  · intro up down left right halive hkey
    unfold moveTank
    simp only [hkey, halive, Bool.not_false, Bool.and_self, if_true]

theorem aux_updateTankAmmo (t : Tank) (dt : ℚ) :
    gunView (updateTankAmmo t dt) = gunView t ∧
    (updateTankAmmo t dt).explosionItemCount = t.explosionItemCount := by
  unfold updateTankAmmo gunView
  dsimp only
  split_ifs <;> exact ⟨rfl, rfl⟩

theorem aux_updatePowerUp (t : Tank) (dt : ℚ) :
    gunView (updatePowerUp t dt) = gunView t ∧
    (updatePowerUp t dt).explosionItemCount = t.explosionItemCount := by
  unfold updatePowerUp gunView
  dsimp only
  split_ifs <;> exact ⟨rfl, rfl⟩

theorem aux_checkPowerBoxCollection (pb : PowerBox) (t : Tank) (sh : Shield) (i : Int) :
    gunView (checkPowerBoxCollection pb t sh i).2.2.1 = gunView t ∧
    (checkPowerBoxCollection pb t sh i).2.2.1.explosionItemCount = t.explosionItemCount := by
  unfold checkPowerBoxCollection activatePowerUp gunView
  dsimp only
  split_ifs <;> exact ⟨rfl, rfl⟩

theorem gunView_moveTank (u d l r : Bool) (t : Tank) (o : Rect) (g k : List GameObject) :
    gunView (moveTank u d l r t o g k) = gunView t := by
  have hu : ∀ t : Tank, gunView (moveUp t o g k) = gunView t := by
    intro t; unfold moveUp gunView; dsimp only; split_ifs <;> rfl
  have hd : ∀ t : Tank, gunView (moveDown t o g k) = gunView t := by
    intro t; unfold moveDown gunView; dsimp only; split_ifs <;> rfl
  have hl : ∀ t : Tank, gunView (moveLeft t o g k) = gunView t := by
    intro t; unfold moveLeft gunView; dsimp only; split_ifs <;> rfl
  have hr : ∀ t : Tank, gunView (moveRight t o g k) = gunView t := by
    intro t; unfold moveRight gunView; dsimp only; split_ifs <;> rfl
  unfold moveTank
  dsimp only
  split_ifs <;>
    first
      | rfl
      | (simp only [hu, hd, hl, hr]; rfl)

theorem itemCount_moveTank (u d l r : Bool) (t : Tank) (o : Rect) (g k : List GameObject) :
    (moveTank u d l r t o g k).explosionItemCount = t.explosionItemCount := by
  have hu : ∀ t : Tank, (moveUp t o g k).explosionItemCount = t.explosionItemCount := by
    intro t; unfold moveUp; dsimp only; split_ifs <;> rfl
  have hd : ∀ t : Tank, (moveDown t o g k).explosionItemCount = t.explosionItemCount := by
    intro t; unfold moveDown; dsimp only; split_ifs <;> rfl
  have hl : ∀ t : Tank, (moveLeft t o g k).explosionItemCount = t.explosionItemCount := by
    intro t; unfold moveLeft; dsimp only; split_ifs <;> rfl
  have hr : ∀ t : Tank, (moveRight t o g k).explosionItemCount = t.explosionItemCount := by
    intro t; unfold moveRight; dsimp only; split_ifs <;> rfl
  unfold moveTank
  dsimp only
  split_ifs <;>
    first
      | rfl
      | (simp only [hu, hd, hl, hr])

theorem aux_moveTank (u d l r : Bool) (t : Tank) (o : Rect) (g k : List GameObject) :
    gunView (moveTank u d l r t o g k) = gunView t ∧
    (moveTank u d l r t o g k).explosionItemCount = t.explosionItemCount :=
  ⟨gunView_moveTank u d l r t o g k, itemCount_moveTank u d l r t o g k⟩

theorem tankCore_bulletHitsTank (sh : Shield) (vi si : Int) (c : HitCtx) :
    tankCore (bulletHitsTank sh vi si c).shooter = tankCore c.shooter ∧
    tankCore (bulletHitsTank sh vi si c).victim = tankCore c.victim := by
  by_cases hhit : checkBulletTankCollision c.bullet.rect c.victim.rect = true
  · by_cases halive : c.victim.isDestroyed = false
    · by_cases hsh : hasActiveShield sh vi = true
      · rw [bulletHitsTank_reflect sh vi si c hhit halive hsh]
        exact ⟨rfl, rfl⟩
      · have hsh2 : hasActiveShield sh vi = false := by simpa using hsh
        rw [bulletHitsTank_damage sh vi si c hhit halive hsh2]
        refine ⟨rfl, ?_⟩
        dsimp only
        split_ifs <;> rfl
    · have hd : c.victim.isDestroyed = true := by simpa using halive
      rw [bulletHitsTank_miss sh vi si c (Or.inr hd)]
      exact ⟨rfl, rfl⟩
  · have hm : checkBulletTankCollision c.bullet.rect c.victim.rect = false := by simpa using hhit
    rw [bulletHitsTank_miss sh vi si c (Or.inl hm)]
    exact ⟨rfl, rfl⟩

theorem tankCore_awardObjectScore (b : Bullet) (s : State) :
    tankCore (awardObjectScore b s).blueTankObj = tankCore s.blueTankObj ∧
    tankCore (awardObjectScore b s).redTankObj = tankCore s.redTankObj := by
  unfold awardObjectScore
  split_ifs <;> exact ⟨rfl, rfl⟩

theorem tankCore_bulletLoop (cfg : Config) (bs : List Bullet) (s : State) :
    tankCore (bulletLoop cfg bs s).1.blueTankObj = tankCore s.blueTankObj ∧
    tankCore (bulletLoop cfg bs s).1.redTankObj = tankCore s.redTankObj :=
  bulletLoop_induct cfg
    (fun a b => tankCore b.blueTankObj = tankCore a.blueTankObj ∧
      tankCore b.redTankObj = tankCore a.redTankObj)
    (fun _ => ⟨rfl, rfl⟩) (fun _ _ _ h1 h2 => ⟨h2.1.trans h1.1, h2.2.trans h1.2⟩)
    (fun s b => by
      unfold bulletTankStage
      dsimp only
      split_ifs
      · exact ⟨(tankCore_bulletHitsTank _ _ _ _).1, (tankCore_bulletHitsTank _ _ _ _).2⟩
      · exact ⟨(tankCore_bulletHitsTank _ _ _ _).2, (tankCore_bulletHitsTank _ _ _ _).1⟩)
    (fun s b => by
      unfold bulletGrassStage
      split
      · exact tankCore_awardObjectScore _ _
      · exact ⟨rfl, rfl⟩)
    (fun s b => by
      unfold bulletRockStage
      split
      · exact tankCore_awardObjectScore _ _
      · exact ⟨rfl, rfl⟩) bs s

theorem aux_of_tankCore {t u : Tank} (h : tankCore u = tankCore t) :
    gunView u = gunView t ∧ u.explosionItemCount = t.explosionItemCount := by
  have h1 := congrArg Tank.gunRotation h
  have h2 := congrArg Tank.gunRotatingRight h
  have h3 := congrArg Tank.gunRotationSpeed h
  have h4 := congrArg Tank.explosionItemCount h
  simp only [tankCore] at h1 h2 h3 h4
  simp only [gunView, h1, h2, h3, h4, and_self]

theorem aux_afterPreMove (dt : ℚ) (keys : Keys) (rnd : Nat → Nat) (s : State) :
    (gunView (afterMovement dt keys rnd s).blueTankObj = gunView (updateGunRotation s.blueTankObj dt) ∧
      (afterMovement dt keys rnd s).blueTankObj.explosionItemCount =
        (updateGunRotation s.blueTankObj dt).explosionItemCount) ∧
    (gunView (afterMovement dt keys rnd s).redTankObj = gunView (updateGunRotation s.redTankObj dt) ∧
      (afterMovement dt keys rnd s).redTankObj.explosionItemCount =
        (updateGunRotation s.redTankObj dt).explosionItemCount) := by
  unfold afterMovement moveTanks preMove
  dsimp only
  constructor
  · rw [(aux_moveTank _ _ _ _ _ _ _ _).1, (aux_moveTank _ _ _ _ _ _ _ _).2,
      (aux_checkPowerBoxCollection _ _ _ _).1, (aux_checkPowerBoxCollection _ _ _ _).2,
      (aux_updatePowerUp _ _).1, (aux_updatePowerUp _ _).2,
      (aux_updateTankAmmo _ _).1, (aux_updateTankAmmo _ _).2]
    exact ⟨rfl, rfl⟩
  · rw [(aux_moveTank _ _ _ _ _ _ _ _).1, (aux_moveTank _ _ _ _ _ _ _ _).2,
      (aux_checkPowerBoxCollection _ _ _ _).1, (aux_checkPowerBoxCollection _ _ _ _).2,
      (aux_updatePowerUp _ _).1, (aux_updatePowerUp _ _).2,
      (aux_updateTankAmmo _ _).1, (aux_updateTankAmmo _ _).2]
    exact ⟨rfl, rfl⟩

theorem aux_frame (cfg : Config) (dt : ℚ) (keys : Keys) (rnd : Nat → Nat) (s : State)
    (hp : s.currentState = GameState.GAME_PLAYING) :
    (gunView (frame cfg dt keys rnd s).blueTankObj = gunView (updateGunRotation s.blueTankObj dt) ∧
      (frame cfg dt keys rnd s).blueTankObj.explosionItemCount =
        (updateGunRotation s.blueTankObj dt).explosionItemCount) ∧
    (gunView (frame cfg dt keys rnd s).redTankObj = gunView (updateGunRotation s.redTankObj dt) ∧
      (frame cfg dt keys rnd s).redTankObj.explosionItemCount =
        (updateGunRotation s.redTankObj dt).explosionItemCount) := by
  obtain ⟨hb, hr⟩ := aux_afterPreMove dt keys rnd s
  obtain ⟨cb, cr⟩ := tankCore_bulletLoop cfg (afterMovement dt keys rnd s).bullets
    (afterMovement dt keys rnd s)
  have ab := aux_of_tankCore cb
  have ar := aux_of_tankCore cr
  unfold frame
  rw [if_pos hp]
  unfold updateBullets
  dsimp only
  exact ⟨⟨ab.1.trans hb.1, ab.2.trans hb.2⟩, ⟨ar.1.trans hr.1, ar.2.trans hr.2⟩⟩

/-- C26: with the gun angle in [-45, 45], a non-negative gun speed and a
non-negative `deltaTime`, `updateGunRotation` returns an angle in [-45, 45];
when the step reaches or passes the bound in the current direction the angle is
exactly that bound and the direction flag is reversed, otherwise the angle
moves by `gunRotationSpeed * deltaTime` in the current direction and the flag
is kept; no other field of the tank changes.  Product and sum are the `float`
operations of the code, `f32 (gunRotation +- f32 (gunRotationSpeed * deltaTime))`.
In a playing tick the gun fields of both tanks are those returned by
`updateGunRotation`, whatever keys are pressed and whatever `rand` returns. -/
theorem gun_sweeps_between_bounds (tank : Tank) (deltaTime : ℚ)
    (hlo : -45 ≤ tank.gunRotation) (hhi : tank.gunRotation ≤ 45)
    (hv : 0 ≤ tank.gunRotationSpeed) (hdt : 0 ≤ deltaTime) :
    (-45 ≤ (updateGunRotation tank deltaTime).gunRotation ∧
      (updateGunRotation tank deltaTime).gunRotation ≤ 45) ∧
    (tank.gunRotatingRight = true →
      f32 (tank.gunRotation + f32 (tank.gunRotationSpeed * deltaTime)) ≥ 45 →
      (updateGunRotation tank deltaTime).gunRotation = 45 ∧
      (updateGunRotation tank deltaTime).gunRotatingRight = false) ∧
    (tank.gunRotatingRight = true →
      f32 (tank.gunRotation + f32 (tank.gunRotationSpeed * deltaTime)) < 45 →
      (updateGunRotation tank deltaTime).gunRotation =
        f32 (tank.gunRotation + f32 (tank.gunRotationSpeed * deltaTime)) ∧
      (updateGunRotation tank deltaTime).gunRotatingRight = true) ∧
    (tank.gunRotatingRight = false →
      f32 (tank.gunRotation - f32 (tank.gunRotationSpeed * deltaTime)) ≤ -45 →
      (updateGunRotation tank deltaTime).gunRotation = -45 ∧
      (updateGunRotation tank deltaTime).gunRotatingRight = true) ∧
    (tank.gunRotatingRight = false →
      f32 (tank.gunRotation - f32 (tank.gunRotationSpeed * deltaTime)) > -45 →
      (updateGunRotation tank deltaTime).gunRotation =
        f32 (tank.gunRotation - f32 (tank.gunRotationSpeed * deltaTime)) ∧
      (updateGunRotation tank deltaTime).gunRotatingRight = false) ∧
    updateGunRotation tank deltaTime =
      { tank with
        gunRotation := (updateGunRotation tank deltaTime).gunRotation
        gunRotatingRight := (updateGunRotation tank deltaTime).gunRotatingRight } ∧
    (∀ (cfg : Config) (s : State) (keys : Keys) (rnd : Nat → Nat),
      s.currentState = GameState.GAME_PLAYING →
      gunView (frame cfg deltaTime keys rnd s).blueTankObj =
        gunView (updateGunRotation s.blueTankObj deltaTime) ∧
      gunView (frame cfg deltaTime keys rnd s).redTankObj =
        gunView (updateGunRotation s.redTankObj deltaTime)) := by
  have hstep : 0 ≤ f32 (tank.gunRotationSpeed * deltaTime) := f32_nonneg (mul_nonneg hv hdt)
  have h45 : f32 45 = 45 := by decide!
  have hm45 : f32 (-45) = -45 := by decide!
  refine ⟨?_, ?_, ?_, ?_, ?_, ?_, fun cfg s keys rnd hp =>
    ⟨(aux_frame cfg deltaTime keys rnd s hp).1.1, (aux_frame cfg deltaTime keys rnd s hp).2.1⟩⟩
  · unfold updateGunRotation
    dsimp only
    split_ifs with h1 h2 h3
    · exact ⟨by norm_num, le_refl _⟩
    · refine ⟨?_, le_of_lt (not_le.mp h2)⟩
      show -45 ≤ f32 (tank.gunRotation + f32 (tank.gunRotationSpeed * deltaTime))
      rw [← hm45]
      exact f32_mono (by linarith)
    · exact ⟨le_refl _, by norm_num⟩
    · refine ⟨le_of_lt (not_le.mp h3), ?_⟩
      show f32 (tank.gunRotation - f32 (tank.gunRotationSpeed * deltaTime)) ≤ 45
      rw [← h45]
      exact f32_mono (by linarith)
  · intro hr hge
    unfold updateGunRotation
    dsimp only
    rw [if_pos hr, if_pos hge]
    exact ⟨rfl, rfl⟩
  · intro hr hlt
    unfold updateGunRotation
    dsimp only
    rw [if_pos hr, if_neg (not_le.mpr hlt)]
    exact ⟨rfl, hr⟩
  · intro hr hle
    have hr2 : ¬ tank.gunRotatingRight = true := by simp [hr]
    unfold updateGunRotation
    dsimp only
    rw [if_neg hr2, if_pos hle]
    exact ⟨rfl, rfl⟩
  · intro hr hgt
    have hr2 : ¬ tank.gunRotatingRight = true := by simp [hr]
    unfold updateGunRotation
    dsimp only
    rw [if_neg hr2, if_neg (not_le.mpr hgt)]
    exact ⟨rfl, hr⟩
  · unfold updateGunRotation
    dsimp only
    split_ifs <;> rfl

/-- Witness of C22: at the start of a match the blue tank, pressing left,
turns to 270 and moves; pressing up and down it ends facing down. -/
theorem facing_set_even_if_blocked_witness :
    (moveLeft matchStart.blueTankObj matchStart.redTankObj.rect matchStart.grassObjects
        matchStart.rockObjects).rotation = 270 ∧
    moveTank true true false false matchStart.blueTankObj matchStart.redTankObj.rect
        matchStart.grassObjects matchStart.rockObjects =
      moveDown (moveUp { matchStart.blueTankObj with isMoving := true } matchStart.redTankObj.rect
          matchStart.grassObjects matchStart.rockObjects)
        matchStart.redTankObj.rect matchStart.grassObjects matchStart.rockObjects :=
  have h := facing_set_even_if_blocked matchStart.blueTankObj matchStart.redTankObj.rect
    matchStart.grassObjects matchStart.rockObjects
  ⟨h.2.2.1.1, (h.2.2.2.2 true true false false (by decide) (by decide)).trans (by decide!)⟩

/-- Witness of C26: 53 frames of 25 ms take the blue gun of a fresh match to
39.75 degrees (`gunAt3975`); from there a frame of 175 ms reaches 45 in `float`
and reverses, and a frame of 25 ms moves the gun by 0.75 to 40.5. -/
theorem gun_sweeps_between_bounds_witness :
    ((List.replicate 53 (f32 (25 / 1000))).foldl updateGunRotation (initialBlueTank sampleConfig)) =
      gunAt3975 ∧
    (updateGunRotation gunAt3975 (f32 (175 / 1000))).gunRotation = 45 ∧
    (updateGunRotation gunAt3975 (f32 (175 / 1000))).gunRotatingRight = false ∧
    (updateGunRotation gunAt3975 (f32 (25 / 1000))).gunRotation = 81 / 2 ∧
    (updateGunRotation gunAt3975 (f32 (25 / 1000))).gunRotatingRight = true :=
  have h1 := (gun_sweeps_between_bounds gunAt3975 (f32 (175 / 1000))
    (by decide!) (by decide!) (by decide!) (by decide!)).2.1 rfl (by decide!)
  have h2 := (gun_sweeps_between_bounds gunAt3975 (f32 (25 / 1000))
    (by decide!) (by decide!) (by decide!) (by decide!)).2.2.1 rfl (by decide!)
  ⟨by decide!, h1.1, h1.2, h2.1.trans (by decide!), h2.2⟩

/-! ## Health and explosion charges in reachable states -/

theorem lifeOk_of_view {t u : Tank} (h : lifeView u = lifeView t) (ht : LifeOk t) : LifeOk u := by
  have h1 : u.isDestroyed = t.isDestroyed := congrArg Prod.fst h
  have h2 : u.hp = t.hp := congrArg Prod.snd h
  unfold LifeOk
  rw [h1, h2]
  exact ht

theorem lifeOk_bulletHitsTank (sh : Shield) (vi si : Int) (c : HitCtx)
    (hs : LifeOk c.shooter) (hv : LifeOk c.victim) :
    LifeOk (bulletHitsTank sh vi si c).shooter ∧ LifeOk (bulletHitsTank sh vi si c).victim := by
  by_cases hhit : checkBulletTankCollision c.bullet.rect c.victim.rect = true
  · by_cases halive : c.victim.isDestroyed = false
    · by_cases hsh : hasActiveShield sh vi = true
      · rw [bulletHitsTank_reflect sh vi si c hhit halive hsh]
        exact ⟨hs, hv⟩
      · have hsh2 : hasActiveShield sh vi = false := by simpa using hsh
        rw [bulletHitsTank_damage sh vi si c hhit halive hsh2]
        refine ⟨hs, ?_⟩
        have hpos : 0 < c.victim.hp ∧ c.victim.hp ≤ 100 := by
          rcases hv with ⟨hd, _⟩ | ⟨_, h1, h2⟩
          · rw [halive] at hd; exact absurd hd (by decide)
          · exact ⟨h1, h2⟩
        have hdmg : 0 < (if c.bullet.isExplosionBullet = true then (75 : Int) else 25) := by
          split_ifs <;> decide
        dsimp only
        generalize (if c.bullet.isExplosionBullet = true then (75 : Int) else 25) = d at hdmg
        split_ifs with hk
        · exact Or.inl ⟨rfl, rfl⟩
        · refine Or.inr ⟨halive, ?_, ?_⟩
          · show 0 < c.victim.hp - d
            omega
          · show c.victim.hp - d ≤ 100
            omega
    · have hd : c.victim.isDestroyed = true := by simpa using halive
      rw [bulletHitsTank_miss sh vi si c (Or.inr hd)]
      exact ⟨hs, hv⟩
  · have hm : checkBulletTankCollision c.bullet.rect c.victim.rect = false := by simpa using hhit
    rw [bulletHitsTank_miss sh vi si c (Or.inl hm)]
    exact ⟨hs, hv⟩

theorem lifeOk_bulletLoop (cfg : Config) (bs : List Bullet) (s : State)
    (h : LifeOk s.blueTankObj ∧ LifeOk s.redTankObj) :
    LifeOk (bulletLoop cfg bs s).1.blueTankObj ∧ LifeOk (bulletLoop cfg bs s).1.redTankObj :=
  bulletLoop_induct cfg
    (fun a b => LifeOk a.blueTankObj ∧ LifeOk a.redTankObj → LifeOk b.blueTankObj ∧ LifeOk b.redTankObj)
    (fun _ h => h) (fun _ _ _ h1 h2 h => h2 (h1 h))
    (fun s b h => by
      unfold bulletTankStage
      dsimp only
      split_ifs
      · exact lifeOk_bulletHitsTank _ _ _ _ h.1 h.2
      · exact ⟨(lifeOk_bulletHitsTank _ _ _ _ h.2 h.1).2, (lifeOk_bulletHitsTank _ _ _ _ h.2 h.1).1⟩)
    (fun s b h => by
      unfold bulletGrassStage
      split
      · exact ⟨lifeOk_of_view (lifeView_awardObjectScore _ _).1 h.1,
          lifeOk_of_view (lifeView_awardObjectScore _ _).2.1 h.2⟩
      · exact h)
    (fun s b h => by
      unfold bulletRockStage
      split
      · exact ⟨lifeOk_of_view (lifeView_awardObjectScore _ _).1 h.1,
          lifeOk_of_view (lifeView_awardObjectScore _ _).2.1 h.2⟩
      · exact h) bs s h

theorem lifeOk_step (cfg : Config) (s : State) (i : Input)
    (h : LifeOk s.blueTankObj ∧ LifeOk s.redTankObj) :
    LifeOk (step cfg s i).blueTankObj ∧ LifeOk (step cfg s i).redTankObj := by
  have htry : ∀ (o : Int) (b : Bullet) (t : Tank), LifeOk t → LifeOk (tryFireBullet b t o).2.2 := by
    intro o b t ht
    unfold tryFireBullet
    split_ifs
    · exact ht
    · exact ht
  have hexp : ∀ (o : Int) (b : Bullet) (t : Tank), LifeOk t → LifeOk (fireExplosionBullet b t o).2.2 := by
    intro o b t ht
    unfold fireExplosionBullet
    split_ifs
    · exact ht
    · exact ht
  have hfresh : ∀ t : Tank, t.isDestroyed = false → t.hp = 100 → LifeOk t := by
    intro t h1 h2
    exact Or.inr ⟨h1, by omega, by omega⟩
  cases i with
  | mouseDown mx my rnd =>
    simp only [step, handleMouseDown]
    split
    · split_ifs <;> exact h
    · split_ifs <;> exact h
    · split_ifs
      · exact ⟨hfresh _ rfl rfl, hfresh _ rfl rfl⟩
      · exact h
      · exact h
    · exact h
  | keyDown key =>
    simp only [step, handleKeyDown]
    split_ifs
    · exact ⟨fireFirstFree_tank LifeOk _ (fun b t => htry 0 b t) _ _ h.1, h.2⟩
    · exact ⟨h.1, fireFirstFree_tank LifeOk _ (fun b t => htry 1 b t) _ _ h.2⟩
    · exact ⟨fireFirstFree_tank LifeOk _ (fun b t => hexp 0 b t) _ _ h.1, h.2⟩
    · exact ⟨h.1, fireFirstFree_tank LifeOk _ (fun b t => hexp 1 b t) _ _ h.2⟩
    · exact h
    · exact h
  | frame dt keys rnd =>
    simp only [step, frame]
    split_ifs
    · obtain ⟨hb, hr, -, -⟩ := afterMovement_life dt keys rnd s
      exact lifeOk_bulletLoop cfg _ _ ⟨lifeOk_of_view hb h.1, lifeOk_of_view hr h.2⟩
    · exact h

theorem reachable_lifeOk (cfg : Config) (s : State) (h : Reachable cfg s) :
    LifeOk s.blueTankObj ∧ LifeOk s.redTankObj := by
  induction h with
  | init rnd =>
    constructor <;> exact Or.inr ⟨rfl, by norm_num [initialState, initialBlueTank, initialRedTank]⟩
  | next s i _ _ ih => exact lifeOk_step cfg s i ih

theorem lifeOk_spec {t : Tank} (h : LifeOk t) :
    0 ≤ t.hp ∧ t.hp ≤ 100 ∧ (t.isDestroyed = true ↔ t.hp = 0) := by
  rcases h with ⟨h1, h2⟩ | ⟨h1, h2, h3⟩
  · rw [h1, h2]; simp
  · refine ⟨by omega, h3, ?_⟩
    rw [h1]
    constructor
    · intro hf; exact absurd hf (by decide)
    · intro hz; omega

/-- C24: in every reachable state (so at the end of every tick of every match)
each tank has 0 <= hp <= 100 and its destroyed flag is set exactly when its hp
is 0. -/
theorem hp_range_and_destroyed_flag (cfg : Config) (s : State) (h : Reachable cfg s) :
    (0 ≤ s.blueTankObj.hp ∧ s.blueTankObj.hp ≤ 100 ∧
      (s.blueTankObj.isDestroyed = true ↔ s.blueTankObj.hp = 0)) ∧
    (0 ≤ s.redTankObj.hp ∧ s.redTankObj.hp ≤ 100 ∧
      (s.redTankObj.isDestroyed = true ↔ s.redTankObj.hp = 0)) :=
  ⟨lifeOk_spec (reachable_lifeOk cfg s h).1, lifeOk_spec (reachable_lifeOk cfg s h).2⟩

/-- Witness of C24 at the end of `killTrace`, where the red tank has just been
destroyed. -/
theorem hp_range_and_destroyed_flag_witness :
    Reachable sampleConfig afterKill ∧
    (0 ≤ afterKill.blueTankObj.hp ∧ afterKill.blueTankObj.hp ≤ 100 ∧
      (afterKill.blueTankObj.isDestroyed = true ↔ afterKill.blueTankObj.hp = 0)) ∧
    (0 ≤ afterKill.redTankObj.hp ∧ afterKill.redTankObj.hp ≤ 100 ∧
      (afterKill.redTankObj.isDestroyed = true ↔ afterKill.redTankObj.hp = 0)) :=
  have hr : Reachable sampleConfig afterKill :=
    reachable_run sampleConfig killTrace _ (Reachable.init zeroDraws) (by decide!)
  ⟨hr, hp_range_and_destroyed_flag sampleConfig afterKill hr⟩

theorem itemCount_updateGunRotation (t : Tank) (dt : ℚ) :
    (updateGunRotation t dt).explosionItemCount = t.explosionItemCount := by
  unfold updateGunRotation
  dsimp only
  split_ifs <;> rfl

theorem processBullet_explosive (cfg : Config) (s : State) (b : Bullet) :
    (processBullet cfg s b).2.isExplosionBullet = b.isExplosionBullet := by
  have hu : (updateBullet cfg b).isExplosionBullet = b.isExplosionBullet := by
    unfold updateBullet
    dsimp only
    split_ifs <;> rfl
  have ht : ∀ (s : State) (b : Bullet), (bulletTankStage s b).2.isExplosionBullet = b.isExplosionBullet := by
    intro s b
    unfold bulletTankStage bulletHitsTank reflectBullet
    dsimp only
    split_ifs <;> rfl
  have hg : ∀ (s : State) (b : Bullet), (bulletGrassStage s b).2.isExplosionBullet = b.isExplosionBullet := by
    intro s b
    unfold bulletGrassStage
    split <;> rfl
  have hr : ∀ (s : State) (b : Bullet), (bulletRockStage s b).2.isExplosionBullet = b.isExplosionBullet := by
    intro s b
    unfold bulletRockStage
    split <;> rfl
  unfold processBullet
  dsimp only
  split_ifs
  · rw [hr, hg, ht]; exact hu
  · rfl

theorem explosive_bulletLoop (cfg : Config) (bs : List Bullet) (s : State)
    (h : ∀ b ∈ bs, b.active = true → b.isExplosionBullet = false) :
    ∀ b ∈ (bulletLoop cfg bs s).2, b.active = true → b.isExplosionBullet = false := by
  induction bs generalizing s with
  | nil => intro b hb; simp [bulletLoop] at hb
  | cons x xs ih =>
    intro b hb hact
    simp only [bulletLoop, List.mem_cons] at hb
    rcases hb with rfl | hb
    · rw [processBullet_explosive]
      exact h x (List.mem_cons_self _ _) ((processBullet_bullet cfg s x).1 hact)
    · exact ih _ (fun y hy => h y (List.mem_cons_of_mem _ hy)) b hb hact

theorem fireFirstFree_bullets_at (P : Bullet → Prop) (fire : Bullet → Tank → Bool × Bullet × Tank)
    (t : Tank) (hfire : ∀ b, P b → P (fire b t).2.1) (bs : List Bullet) (h : ∀ b ∈ bs, P b) :
    ∀ b ∈ (fireFirstFree fire bs t).2.1, P b := by
  induction bs with
  | nil => intro b hb; simp [fireFirstFree] at hb
  | cons x xs ih =>
    intro b hb
    unfold fireFirstFree at hb
    split_ifs at hb
    · simp only [List.mem_cons] at hb
      rcases hb with rfl | hb
      · exact hfire x (h x (List.mem_cons_self _ _))
      · exact h b (List.mem_cons_of_mem _ hb)
    · simp only [List.mem_cons] at hb
      rcases hb with rfl | hb
      · exact h _ (List.mem_cons_self _ _)
      · exact ih (fun y hy => h y (List.mem_cons_of_mem _ hy)) b hb

theorem fireFirstFree_noop (fire : Bullet → Tank → Bool × Bullet × Tank) (t : Tank)
    (hfire : ∀ b, (fire b t).2 = (b, t)) (bs : List Bullet) :
    (fireFirstFree fire bs t).2 = (bs, t) := by
  induction bs with
  | nil => rfl
  | cons x xs ih =>
    unfold fireFirstFree
    split_ifs
    · simp only [hfire]
    · simp only [ih]

theorem fireExplosionBullet_empty (b : Bullet) (t : Tank) (owner : Int) (h : t.explosionItemCount = 0) :
    fireExplosionBullet b t owner = (false, b, t) := by
  unfold fireExplosionBullet
  rw [h]
  simp

theorem noCharges_step (cfg : Config) (s : State) (i : Input) (h : NoCharges s) :
    NoCharges (step cfg s i) := by
  obtain ⟨hb, hr, hx⟩ := h
  have htryT : ∀ (o : Int) (b : Bullet) (t : Tank), t.explosionItemCount = 0 →
      (tryFireBullet b t o).2.2.explosionItemCount = 0 := by
    intro o b t ht
    unfold tryFireBullet
    split_ifs
    · exact ht
    · exact ht
  have hexpT : ∀ (o : Int) (b : Bullet) (t : Tank), t.explosionItemCount = 0 →
      (fireExplosionBullet b t o).2.2.explosionItemCount = 0 := by
    intro o b t ht
    rw [fireExplosionBullet_empty b t o ht]
    exact ht
  have htryB : ∀ (o : Int) (t : Tank) (b : Bullet), (b.active = true → b.isExplosionBullet = false) →
      (tryFireBullet b t o).2.1.active = true → (tryFireBullet b t o).2.1.isExplosionBullet = false := by
    intro o t b hP
    unfold tryFireBullet
    split_ifs
    · exact hP
    · intro _; rfl
  have hexpB : ∀ (o : Int) (t : Tank), t.explosionItemCount = 0 → ∀ (b : Bullet),
      (b.active = true → b.isExplosionBullet = false) →
      (fireExplosionBullet b t o).2.1.active = true →
        (fireExplosionBullet b t o).2.1.isExplosionBullet = false := by
    intro o t ht b hP
    rw [fireExplosionBullet_empty b t o ht]
    exact hP
  cases i with
  | mouseDown mx my rnd =>
    simp only [step, handleMouseDown]
    split
    · split_ifs <;> exact ⟨hb, hr, hx⟩
    · split_ifs <;> exact ⟨hb, hr, hx⟩
    · split_ifs
      · refine ⟨hb, hr, ?_⟩
        intro b hmem hact
        simp only [playAgain, List.mem_map] at hmem
        obtain ⟨x, -, rfl⟩ := hmem
        exact absurd hact (by simp)
      · exact ⟨hb, hr, hx⟩
      · exact ⟨hb, hr, hx⟩
    · exact ⟨hb, hr, hx⟩
  | keyDown key =>
    simp only [step, handleKeyDown]
    split_ifs
    · exact ⟨fireFirstFree_tank (fun t => t.explosionItemCount = 0) _ (fun b t => htryT 0 b t) _ _ hb, hr,
        fireFirstFree_bullets_at (fun b => b.active = true → b.isExplosionBullet = false) _ _
          (htryB 0 _) _ hx⟩
    · exact ⟨hb, fireFirstFree_tank (fun t => t.explosionItemCount = 0) _ (fun b t => htryT 1 b t) _ _ hr,
        fireFirstFree_bullets_at (fun b => b.active = true → b.isExplosionBullet = false) _ _
          (htryB 1 _) _ hx⟩
    · exact ⟨fireFirstFree_tank (fun t => t.explosionItemCount = 0) _ (fun b t => hexpT 0 b t) _ _ hb, hr,
        fireFirstFree_bullets_at (fun b => b.active = true → b.isExplosionBullet = false) _ _
          (hexpB 0 _ hb) _ hx⟩
    · exact ⟨hb, fireFirstFree_tank (fun t => t.explosionItemCount = 0) _ (fun b t => hexpT 1 b t) _ _ hr,
        fireFirstFree_bullets_at (fun b => b.active = true → b.isExplosionBullet = false) _ _
          (hexpB 1 _ hr) _ hx⟩
    · exact ⟨hb, hr, hx⟩
    · exact ⟨hb, hr, hx⟩
  | frame dt keys rnd =>
    simp only [step]
    by_cases hp : s.currentState = GameState.GAME_PLAYING
    · obtain ⟨⟨-, h1⟩, ⟨-, h2⟩⟩ := aux_frame cfg dt keys rnd s hp
      refine ⟨?_, ?_, ?_⟩
      · rw [h1, itemCount_updateGunRotation]; exact hb
      · rw [h2, itemCount_updateGunRotation]; exact hr
      · unfold frame
        rw [if_pos hp]
        have hx2 : ∀ b ∈ (afterMovement dt keys rnd s).bullets, b.active = true →
            b.isExplosionBullet = false := hx
        exact explosive_bulletLoop cfg _ _ hx2
    · unfold frame
      rw [if_neg hp]
      exact ⟨hb, hr, hx⟩

theorem reachable_noCharges (cfg : Config) (s : State) (h : Reachable cfg s) : NoCharges s := by
  induction h with
  | init rnd =>
    refine ⟨rfl, rfl, ?_⟩
    intro b hmem hact
    simp only [initialState, List.mem_replicate] at hmem
    rw [hmem.2] at hact
    exact absurd hact (by decide)
  | next s i _ _ ih => exact noCharges_step cfg s i ih

theorem boxType_step (cfg : Config) (s : State) (i : Input)
    (h : 0 ≤ s.powerBox.spawnCount ∧ (s.powerBox.boxType = 0 ∨ s.powerBox.boxType = 1)) :
    (step cfg s i).powerBox.boxType = 0 ∨ (step cfg s i).powerBox.boxType = 1 := by
  obtain ⟨hc, ht⟩ := h
  cases i with
  | mouseDown mx my rnd =>
    simp only [step, handleMouseDown]
    split <;> first | exact ht | (split_ifs <;> exact ht)
  | keyDown key =>
    simp only [step, handleKeyDown]
    split_ifs <;> exact ht
  | frame dt keys rnd =>
    simp only [step]
    by_cases hp : s.currentState = GameState.GAME_PLAYING
    · rw [(frame_powerBox cfg dt keys rnd s hp).1]
      unfold preMove
      dsimp only
      rw [(checkPowerBoxCollection_spawnCount _ _ _ _).2, (checkPowerBoxCollection_spawnCount _ _ _ _).2]
      unfold updatePowerBoxSpawning
      dsimp only
      split_ifs with h1 h2 h3
      · exact ht
      · exact ht
      · have hact : ({ s.powerBox with spawnTimer := f32 (s.powerBox.spawnTimer + dt) } : PowerBox).active = false := by
          simpa using h1
        rw [spawnPowerBox_eq _ _ _ _ _ _ hact]
        show Int.tmod (s.powerBox.spawnCount + 1) 2 = 0 ∨ Int.tmod (s.powerBox.spawnCount + 1) 2 = 1
        have h0 : 0 ≤ s.powerBox.spawnCount + 1 := by omega
        rw [Int.tmod_eq_emod h0 (by decide)]
        omega
      · exact ht
    · unfold frame
      rw [if_neg hp]
      exact ht

theorem reachable_boxType (cfg : Config) (s : State) (h : Reachable cfg s) :
    s.powerBox.boxType = 0 ∨ s.powerBox.boxType = 1 := by
  induction h with
  | init rnd => exact Or.inl rfl
  | next s i hs _ ih => exact boxType_step cfg s i ⟨reachable_spawnCount cfg s hs, ih⟩

theorem bulletHitsTank_plain (sh : Shield) (vi si : Int) (c : HitCtx)
    (hx : c.bullet.isExplosionBullet = false) :
    (bulletHitsTank sh vi si c).shooter.score ≤ c.shooter.score + 100 ∧
    c.victim.hp - 25 ≤ (bulletHitsTank sh vi si c).victim.hp := by
  by_cases hhit : checkBulletTankCollision c.bullet.rect c.victim.rect = true
  · by_cases halive : c.victim.isDestroyed = false
    · by_cases hsh : hasActiveShield sh vi = true
      · rw [bulletHitsTank_reflect sh vi si c hhit halive hsh]
        constructor
        · show c.shooter.score ≤ c.shooter.score + 100
          omega
        · show c.victim.hp - 25 ≤ c.victim.hp
          omega
      · have hsh2 : hasActiveShield sh vi = false := by simpa using hsh
        rw [bulletHitsTank_damage sh vi si c hhit halive hsh2]
        simp only [hx, Bool.false_eq_true, if_false]
        constructor
        · exact le_refl _
        · split_ifs with hk
          · show c.victim.hp - 25 ≤ 0
            exact hk
          · exact le_refl _
    · have hd : c.victim.isDestroyed = true := by simpa using halive
      rw [bulletHitsTank_miss sh vi si c (Or.inr hd)]
      constructor <;> omega
  · have hm : checkBulletTankCollision c.bullet.rect c.victim.rect = false := by simpa using hhit
    rw [bulletHitsTank_miss sh vi si c (Or.inl hm)]
    constructor <;> omega

/-- C28: in every reachable state both tanks have 0 explosion charges and the
power box has type 0 or 1 (the only types `checkPowerBoxCollection` looks at,
neither of which adds a charge); so `fireExplosionBullet` returns false and
changes nothing, the J and period keys leave the state as it is, no active
bullet is explosive, and a bullet entering the tank stage of the next tick takes
the 25-damage / +100-score branch, never the 75 / +300 one. -/
theorem explosion_charges_stay_zero (cfg : Config) (s : State) (h : Reachable cfg s) :
    s.blueTankObj.explosionItemCount = 0 ∧ s.redTankObj.explosionItemCount = 0 ∧
    (s.powerBox.boxType = 0 ∨ s.powerBox.boxType = 1) ∧
    (∀ (b : Bullet) (owner : Int),
      fireExplosionBullet b s.blueTankObj owner = (false, b, s.blueTankObj) ∧
      fireExplosionBullet b s.redTankObj owner = (false, b, s.redTankObj)) ∧
    step cfg s (Input.keyDown Key.j) = s ∧ step cfg s (Input.keyDown Key.period) = s ∧
    (∀ b ∈ s.bullets, b.active = true → b.isExplosionBullet = false) ∧
    (∀ b ∈ s.bullets, b.active = true →
      (updateBullet cfg b).isExplosionBullet = false ∧
      ∀ (sh : Shield) (vi si : Int) (c : HitCtx), c.bullet = updateBullet cfg b →
        (bulletHitsTank sh vi si c).shooter.score ≤ c.shooter.score + 100 ∧
        c.victim.hp - 25 ≤ (bulletHitsTank sh vi si c).victim.hp) := by
  obtain ⟨hb, hr, hx⟩ := reachable_noCharges cfg s h
  have hu : ∀ b : Bullet, (updateBullet cfg b).isExplosionBullet = b.isExplosionBullet := by
    intro b
    unfold updateBullet
    dsimp only
    split_ifs <;> rfl
  refine ⟨hb, hr, reachable_boxType cfg s h, ?_, ?_, ?_, hx, ?_⟩
  · intro b owner
    exact ⟨fireExplosionBullet_empty b _ owner hb, fireExplosionBullet_empty b _ owner hr⟩
  · have e := fireFirstFree_noop (fun b t => fireExplosionBullet b t 0) s.blueTankObj
      (fun b => congrArg Prod.snd (fireExplosionBullet_empty b _ 0 hb)) s.bullets
    have e1 := congrArg Prod.fst e
    have e2 := congrArg Prod.snd e
    show handleKeyDown Key.j s = s
    unfold handleKeyDown
    dsimp only at e1 e2 ⊢
    rw [e1, e2]
    split_ifs <;> first | rfl | simp_all
  · have e := fireFirstFree_noop (fun b t => fireExplosionBullet b t 1) s.redTankObj
      (fun b => congrArg Prod.snd (fireExplosionBullet_empty b _ 1 hr)) s.bullets
    have e1 := congrArg Prod.fst e
    have e2 := congrArg Prod.snd e
    show handleKeyDown Key.period s = s
    unfold handleKeyDown
    dsimp only at e1 e2 ⊢
    rw [e1, e2]
    split_ifs <;> first | rfl | simp_all
  · intro b hmem hact
    have hne : (updateBullet cfg b).isExplosionBullet = false := by
      rw [hu]; exact hx b hmem hact
    refine ⟨hne, ?_⟩
    intro sh vi si c hc
    exact bulletHitsTank_plain sh vi si c (by rw [hc]; exact hne)

/-- Witness of C28: two blue bullets in flight after a tick. -/
theorem explosion_charges_stay_zero_witness :
    Reachable sampleConfig twoShotsAndTick ∧
    twoShotsAndTick.blueTankObj.explosionItemCount = 0 ∧
    twoShotsAndTick.redTankObj.explosionItemCount = 0 ∧
    step sampleConfig twoShotsAndTick (Input.keyDown Key.j) = twoShotsAndTick ∧
    (∀ b ∈ twoShotsAndTick.bullets, b.active = true → b.isExplosionBullet = false) ∧
    (twoShotsAndTick.bullets.filter (fun b => b.active)).length = 2 :=
  have hr : Reachable sampleConfig twoShotsAndTick :=
    reachable_run sampleConfig _ _
      (reachable_run sampleConfig startClicks _ (Reachable.init zeroDraws) (by decide)) (by decide!)
  have h := explosion_charges_stay_zero sampleConfig twoShotsAndTick hr
  ⟨hr, h.1, h.2.1, h.2.2.2.2.1, h.2.2.2.2.2.2.1, by decide!⟩

/-! ## Resets, the arena edge and the end of a match -/

/-- C21 fails on the code: `killTrace` ends on the winner screen with the red
tank's power-up running (`hasPower`, 15 s left).  The play-again click resets
the listed fields of both tanks but not the power-up fields, so the red tank of
the new match differs from the red tank of the first match start (`hasPower`
true, `powerTimer` 15 instead of false, 0), and the next tick of 15 s runs the
stale power-up out and moves the red tank from its start box (820, 50) to
(810, 40).  The initialisation before the main loop does set these fields. -/
theorem play_again_keeps_power_up :
    Reachable sampleConfig afterKill ∧
    afterKill.currentState = GameState.WINNER_SCREEN ∧
    (step sampleConfig afterKill (Input.mouseDown 400 400 zeroDraws)).currentState =
      GameState.GAME_PLAYING ∧
    (step sampleConfig afterKill (Input.mouseDown 400 400 zeroDraws)).winner = -1 ∧
    (step sampleConfig afterKill (Input.mouseDown 400 400 zeroDraws)).blueTankObj =
      matchStart.blueTankObj ∧
    matchStart.redTankObj.hasPower = false ∧
    matchStart.redTankObj.powerTimer = 0 ∧
    (step sampleConfig afterKill (Input.mouseDown 400 400 zeroDraws)).redTankObj.hasPower = true ∧
    (step sampleConfig afterKill (Input.mouseDown 400 400 zeroDraws)).redTankObj.powerTimer = 15 ∧
    (step sampleConfig afterKill (Input.mouseDown 400 400 zeroDraws)).redTankObj ≠
      matchStart.redTankObj ∧
    (step sampleConfig afterKill (Input.mouseDown 400 400 zeroDraws)).redTankObj.rect =
      ⟨820, 50, 40, 40⟩ ∧
    (run sampleConfig afterKill
      [Input.mouseDown 400 400 zeroDraws, Input.frame 15 noKeys zeroDraws]).redTankObj.rect =
      ⟨810, 40, 40, 40⟩ :=
  ⟨reachable_run sampleConfig killTrace _ (Reachable.init zeroDraws) (by decide!), by decide!⟩

/-- C29 fails on the code: after `killTrace` (red destroyed, winner 0) the home
button leads to the welcome screen and the start and multiplayer buttons lead
into the playing state without any reset, so a tick starts in the playing state
with the red tank destroyed and `winner = 0`.  The play-again button, from the
same winner screen, clears both. -/
theorem playing_with_destroyed_tank :
    Reachable sampleConfig restarted ∧
    afterKill.currentState = GameState.WINNER_SCREEN ∧
    restarted.currentState = GameState.GAME_PLAYING ∧
    restarted.redTankObj.isDestroyed = true ∧
    restarted.winner = 0 ∧
    (step sampleConfig afterKill (Input.mouseDown 400 400 zeroDraws)).redTankObj.isDestroyed = false ∧
    (step sampleConfig afterKill (Input.mouseDown 400 400 zeroDraws)).winner = -1 :=
  ⟨reachable_run sampleConfig restartClicks _
      (reachable_run sampleConfig killTrace _ (Reachable.init zeroDraws) (by decide!)) (by decide),
    by decide!⟩

/-- C27 fails on the code: with a power-up (speed 4) the red tank drives up to
(814, 2), inside the arena; the up block only tests `rect.y > 0` before taking
`speed` off, so with the up key pressed the box is at y = -2 after movement
resolution, outside the arena. -/
theorem tank_leaves_arena_at_top :
    Reachable sampleConfig nearTopEdge ∧
    nearTopEdge.currentState = GameState.GAME_PLAYING ∧
    nearTopEdge.redTankObj.speed = 4 ∧
    (preMove 0 zeroDraws nearTopEdge).redTankObj.rect = ⟨814, 2, 40, 40⟩ ∧
    (afterMovement 0 keysUp zeroDraws nearTopEdge).redTankObj.rect = ⟨814, -2, 40, 40⟩ ∧
    (step sampleConfig nearTopEdge (Input.frame 0 keysUp zeroDraws)).redTankObj.rect.y < 0 :=
  ⟨reachable_run sampleConfig topEdgeTrace _ (Reachable.init zeroDraws) (by decide!), by decide!⟩

/-- C30 fails on the code: in `beforeDuelEnd` both tanks have 50 hp and two
bullets of each are about to arrive.  The next tick starts in the playing state
and ends in the winner state with both tanks destroyed: the bullet loop goes on
after the first kill, and `winner` is 1, the index of the destroyed red tank. -/
theorem double_kill_in_one_tick :
    Reachable sampleConfig beforeDuelEnd ∧
    beforeDuelEnd.currentState = GameState.GAME_PLAYING ∧
    beforeDuelEnd.blueTankObj.isDestroyed = false ∧
    beforeDuelEnd.redTankObj.isDestroyed = false ∧
    (step sampleConfig beforeDuelEnd (Input.frame 0 noKeys zeroDraws)).currentState =
      GameState.WINNER_SCREEN ∧
    (step sampleConfig beforeDuelEnd (Input.frame 0 noKeys zeroDraws)).blueTankObj.isDestroyed = true ∧
    (step sampleConfig beforeDuelEnd (Input.frame 0 noKeys zeroDraws)).redTankObj.isDestroyed = true ∧
    (step sampleConfig beforeDuelEnd (Input.frame 0 noKeys zeroDraws)).winner = 1 :=
  ⟨reachable_run sampleConfig duelTrace _ (Reachable.init zeroDraws) (by decide!), by decide!⟩

/-- C23 fails on the code: in `underWreck` the game is in the playing state,
the red tank is destroyed at (70, 382) and the blue tank stands at (50, 422).
With W pressed the candidate box (50, 420) overlaps the wreck's box and no
obstacle, and the move is not committed: after the tick the blue tank is still
at (50, 422), facing up.  The move blocks test the opponent's box without
looking at its destroyed flag, while the obstacle test of the same condition
skips destroyed obstacles and the bullet and power-box tests skip a destroyed
tank. -/
theorem wreck_blocks_the_move :
    Reachable sampleConfig underWreck ∧
    underWreck.currentState = GameState.GAME_PLAYING ∧
    underWreck.redTankObj.isDestroyed = true ∧
    underWreck.redTankObj.rect = ⟨70, 382, 40, 40⟩ ∧
    underWreck.blueTankObj.isDestroyed = false ∧
    (preMove 0 zeroDraws underWreck).blueTankObj.rect = ⟨50, 422, 40, 40⟩ ∧
    (preMove 0 zeroDraws underWreck).blueTankObj.speed = 2 ∧
    checkTankCollision ⟨50, 420, 40, 40⟩ (preMove 0 zeroDraws underWreck).redTankObj.rect = true ∧
    checkTankCollisionWithObjects ⟨50, 420, 40, 40⟩ (preMove 0 zeroDraws underWreck).grassObjects
      (preMove 0 zeroDraws underWreck).rockObjects = false ∧
    (afterMovement 0 keysW zeroDraws underWreck).blueTankObj.rect = ⟨50, 422, 40, 40⟩ ∧
    (step sampleConfig underWreck (Input.frame 0 keysW zeroDraws)).blueTankObj.rect = ⟨50, 422, 40, 40⟩ ∧
    (step sampleConfig underWreck (Input.frame 0 keysW zeroDraws)).blueTankObj.rotation = 0 :=
  ⟨reachable_run sampleConfig (ticks 14 keysW) _
      (reachable_run sampleConfig restartClicks _
        (reachable_run sampleConfig killTrace _ (Reachable.init zeroDraws) (by decide!)) (by decide))
      (by decide!),
    by decide!⟩

end TankGame
